import Mathlib

/-!
# Executor cache and Conv2D dimension resolution

A shallow embedding of

* `tensorflow/compiler/xla/stream_executor/executor_cache.cc`
  (`ExecutorCache::GetOrCreate`, `ExecutorCache::Get`,
  `ExecutorCache::DestroyAllExecutors`), and
* `tensorflow/core/kernels/conv_ops.cc` (`InitConv2DParameters`,
  `ComputeConv2DDimension`, `Conv2DOp::Compute`, the CPU launchers
  `LaunchConv2DOp`, `LaunchGeneric`, `LaunchGrouped`, `LaunchDeepConvOp::Run`,
  `GetDnnWorkspaceLimit`, and the layout choice and padding correction of the GPU
  launcher),

followed by the properties proved about them.

Conventions. The two mutexes of the cache are not represented: every operation
is one atomic step on an explicit cache value. Pointers to stored executors are
represented by the stored executor value. 64-bit integers are `Int`; a
`static_cast<int>` is `toInt32`.
-/

namespace stream_executor

/-! ## Data model of the executor cache -/

namespace error

/-- The status codes used by the two source files. -/
inductive Code where
  | OK
  | INVALID_ARGUMENT
  | NOT_FOUND
  | UNIMPLEMENTED
  | INTERNAL
  | RESOURCE_EXHAUSTED
  | UNKNOWN
deriving DecidableEq, Repr

end error

/-- A `port::Status`: a code, the message text (format directives left in place)
and the values substituted for the directives. -/
structure Status where
  code : error.Code
  message : String
  args : List Int
deriving DecidableEq, Repr

/-- A `port::StatusOr<T>`. -/
abbrev StatusOr (α : Type) : Type := Except Status α

/-- Modelled from the spec: `PluginConfig` is declared outside the source file;
the spec only says it is an immutable value compared structurally
("Equality/hash must be structural and total"). -/
structure PluginConfig where
  value : Nat
deriving DecidableEq, Repr

/-- Modelled from the spec: `DeviceOptions` is declared outside the source file;
the spec only says it is an immutable value compared structurally. -/
structure DeviceOptions where
  value : Nat
deriving DecidableEq, Repr

/-- The fields of `StreamExecutorConfig` that the source file reads.
`gpu_stream` is a nullable pointer: `none` is the null pointer. -/
structure StreamExecutorConfig where
  ordinal : Int
  hash : Nat
  plugin_config : PluginConfig
  device_options : DeviceOptions
  gpu_stream : Option Nat
deriving DecidableEq, Repr

/-- Modelled from the spec: `StreamExecutor` is declared outside the source file.
It is the cached resource; `allocated_streams` are the live handles it
"currently owns", `id` tells instances apart. -/
structure StreamExecutor where
  id : Nat
  allocated_streams : List Nat
deriving DecidableEq, Repr

/-- Modelled from the spec: `StreamExecutor::FindAllocatedStream` is declared
outside the source file; it tells whether the executor "currently owns an
opaque live handle". -/
def StreamExecutor.FindAllocatedStream (executor : StreamExecutor) (gpu_stream : Nat) : Bool :=
  decide (gpu_stream ∈ executor.allocated_streams)

/-- An `ExecutorCache::Entry`: the ordered list `configurations` of
(config, executor) pairs. Its mutex is not represented. -/
structure Entry where
  configurations : List (StreamExecutorConfig × StreamExecutor)
deriving DecidableEq, Repr

/-- The member `cache_`: a map from keys to entries, as the list of its
(key, entry) pairs in iteration order. The declaration of the container is
outside the source file, so the key extracted from a config is the parameter
`keyOf` of the operations below (`κ` is the type of keys). -/
abbrev Cache (κ : Type) : Type := List (κ × Entry)

/-- An `ExecutorFactory`: invoking it yields an executor or an error status. -/
abbrev ExecutorFactory : Type := Unit → StatusOr StreamExecutor

/-! ## `ExecutorCache::Get` -/

/-- The test of lines 61-62 and 121-122: the stored config has the same
`plugin_config` and the same `device_options` as the requested one. -/
def sameOptions (config : StreamExecutorConfig)
    (iter : StreamExecutorConfig × StreamExecutor) : Bool :=
  decide (iter.1.plugin_config = config.plugin_config) &&
    decide (iter.1.device_options = config.device_options)

/-- The loop of lines 89-96: the first stored executor, entry by entry and then
pair by pair, for which `FindAllocatedStream` succeeds. -/
def findStreamOwner {κ : Type} (gpu_stream : Nat) : Cache κ → Option StreamExecutor
  | [] => none
  | (_, e) :: rest =>
    match e.configurations.find? (fun p => p.2.FindAllocatedStream gpu_stream) with
    | some p => some p.2
    | none => findStreamOwner gpu_stream rest

/-- The status of lines 97-99. -/
def noExecutorsOwnStream (gpu_stream : Nat) : Status :=
  { code := error.Code.NOT_FOUND
    message := "No executors own stream %p"
    args := [(gpu_stream : Int)] }

/-- The status of lines 107-110 and of lines 115-118 (the same text). -/
def noExecutorsRegistered (config : StreamExecutorConfig) : Status :=
  { code := error.Code.NOT_FOUND
    message := "No executors registered for (ordinal %d, hash %x)"
    args := [config.ordinal, (config.hash : Int)] }

/-- The status of lines 128-129. -/
def noMatchingConfig : Status :=
  { code := error.Code.NOT_FOUND
    message := "No executor found with a matching config."
    args := [] }

/-- The call `cache_.find(config)`: the entry stored under the key of the config. -/
def findEntry {κ : Type} [DecidableEq κ] (cache_ : Cache κ) (k : κ) : Option Entry :=
  match cache_.find? (fun p => decide (p.1 = k)) with
  | some p => some p.2
  | none => none

/-- The function `ExecutorCache::Get` (lines 80-130). It only reads `cache_`. -/
def Get {κ : Type} [DecidableEq κ] (keyOf : StreamExecutorConfig → κ)
    (cache_ : Cache κ) (config : StreamExecutorConfig) : StatusOr StreamExecutor :=
  match config.gpu_stream with
  | some gpu_stream =>
    match findStreamOwner gpu_stream cache_ with
    | some executor => .ok executor
    | none => .error (noExecutorsOwnStream gpu_stream)
  | none =>
    match findEntry cache_ (keyOf config) with
    | none => .error (noExecutorsRegistered config)
    | some entry =>
      if entry.configurations.isEmpty then
        .error (noExecutorsRegistered config)
      else
        match entry.configurations.find? (sameOptions config) with
        | some iter => .ok iter.2
        | none => .error noMatchingConfig

/-! ## `ExecutorCache::GetOrCreate` -/

/-- The expression `cache_[config]` seen as a state change: a key that has no
entry gets a new empty entry. -/
def insertIfAbsent {κ : Type} [DecidableEq κ] (cache_ : Cache κ) (k : κ) : Cache κ :=
  match findEntry cache_ k with
  | some _ => cache_
  | none => cache_ ++ [(k, { configurations := [] })]

/-- The entry that `&cache_[config]` points to after `insertIfAbsent`. -/
def entryAt {κ : Type} [DecidableEq κ] (cache_ : Cache κ) (k : κ) : Entry :=
  match findEntry cache_ k with
  | some e => e
  | none => { configurations := [] }

/-- The call `entry->configurations.emplace_back(config, executor)` on the entry
stored under key `k`. -/
def emplaceBack {κ : Type} [DecidableEq κ] (k : κ)
    (item : StreamExecutorConfig × StreamExecutor) : Cache κ → Cache κ
  | [] => []
  | (k', e) :: rest =>
    if k' = k then (k', { configurations := e.configurations ++ [item] }) :: rest
    else (k', e) :: emplaceBack k item rest

/-- What one call of `GetOrCreate` does: the value it returns, the cache after
the call, and how many times it invoked the factory. -/
structure GetOrCreateResult (κ : Type) where
  result : StatusOr StreamExecutor
  cache_ : Cache κ
  factory_calls : Nat

/-- The function `ExecutorCache::GetOrCreate` (lines 37-78). -/
def GetOrCreate {κ : Type} [DecidableEq κ] (keyOf : StreamExecutorConfig → κ)
    (cache_ : Cache κ) (config : StreamExecutorConfig) (factory : ExecutorFactory) :
    GetOrCreateResult κ :=
  match Get keyOf cache_ config with
  | .ok executor => { result := .ok executor, cache_ := cache_, factory_calls := 0 }
  | .error _ =>
    let cache1 := insertIfAbsent cache_ (keyOf config)
    let entry := entryAt cache1 (keyOf config)
    match entry.configurations.find? (sameOptions config) with
    | some iter => { result := .ok iter.2, cache_ := cache1, factory_calls := 0 }
    | none =>
      match factory () with
      | .error status => { result := .error status, cache_ := cache1, factory_calls := 1 }
      | .ok executor =>
        { result := .ok executor
          cache_ := emplaceBack (keyOf config) (config, executor) cache1
          factory_calls := 1 }

/-- The function `ExecutorCache::DestroyAllExecutors` (lines 132-135). -/
def DestroyAllExecutors {κ : Type} (_cache : Cache κ) : Cache κ := []

/-! ## Sequences of calls -/

/-- A call of `Get` or of `GetOrCreate` with its arguments. -/
inductive Call where
  | get (config : StreamExecutorConfig)
  | getOrCreate (config : StreamExecutorConfig) (factory : ExecutorFactory)

/-- The cache after one call. -/
def Call.apply {κ : Type} [DecidableEq κ] (keyOf : StreamExecutorConfig → κ)
    (cache_ : Cache κ) : Call → Cache κ
  | .get _ => cache_
  | .getOrCreate config factory => (GetOrCreate keyOf cache_ config factory).cache_

/-- The cache after a sequence of calls, run from left to right. -/
def runCalls {κ : Type} [DecidableEq κ] (keyOf : StreamExecutorConfig → κ)
    (cache_ : Cache κ) (calls : List Call) : Cache κ :=
  calls.foldl (Call.apply keyOf) cache_

/-- The list `configurations` stored under a key; empty when the key has no entry. -/
def configurationsAt {κ : Type} [DecidableEq κ] (cache_ : Cache κ) (k : κ) :
    List (StreamExecutorConfig × StreamExecutor) :=
  (entryAt cache_ k).configurations

/-- All stored pairs, in map order and then list order. -/
def allConfigurations {κ : Type} (cache_ : Cache κ) :
    List (StreamExecutorConfig × StreamExecutor) :=
  cache_.flatMap (fun p => p.2.configurations)

/-- The key used to evaluate the model on concrete inputs: the two fields read
by the `std::hash` specialisation of lines 25-32. -/
def ordinalHashKey (config : StreamExecutorConfig) : Int × Nat :=
  (config.ordinal, config.hash)

/-- The lookup that `Get` performs in the list of one entry (lines 114-129). -/
def lookupIn (config : StreamExecutorConfig)
    (configurations : List (StreamExecutorConfig × StreamExecutor)) :
    StatusOr StreamExecutor :=
  if configurations.isEmpty then
    .error (noExecutorsRegistered config)
  else
    match configurations.find? (sameOptions config) with
    | some iter => .ok iter.2
    | none => .error noMatchingConfig

/-! ## Concrete data used to evaluate the cache model -/

/-- A config without live handle. -/
def configA : StreamExecutorConfig :=
  { ordinal := 0, hash := 7, plugin_config := ⟨1⟩, device_options := ⟨2⟩, gpu_stream := none }

/-- A config with the key of `configA` and other device options. -/
def configB : StreamExecutorConfig :=
  { ordinal := 0, hash := 7, plugin_config := ⟨1⟩, device_options := ⟨3⟩, gpu_stream := none }

/-- A config that only carries the live handle 42. -/
def configStream : StreamExecutorConfig :=
  { ordinal := 5, hash := 9, plugin_config := ⟨8⟩, device_options := ⟨8⟩, gpu_stream := some 42 }

/-- An executor that owns the stream 42. -/
def executorA : StreamExecutor := { id := 1, allocated_streams := [42] }

/-- An executor that owns no stream. -/
def executorB : StreamExecutor := { id := 2, allocated_streams := [] }

/-- A factory that builds `executorA`. -/
def factoryA : ExecutorFactory := fun _ => .ok executorA

/-- A factory that builds `executorB`. -/
def factoryB : ExecutorFactory := fun _ => .ok executorB

/-- The status returned by `factoryFail`. -/
def buildFailed : Status :=
  { code := error.Code.INTERNAL, message := "failed to build executor", args := [] }

/-- A factory that fails. -/
def factoryFail : ExecutorFactory := fun _ => .error buildFailed

/-- A cache with one entry that stores `executorA` for `configA`. -/
def cacheA : Cache (Int × Nat) :=
  [((0, 7), { configurations := [(configA, executorA)] })]

/-! ## Sequences of calls that may clear the cache -/

/-- A call of one of the three operations of the cache with its arguments. -/
inductive CacheOp where
  | get (config : StreamExecutorConfig)
  | getOrCreate (config : StreamExecutorConfig) (factory : ExecutorFactory)
  | destroyAllExecutors

/-- The cache after one operation. -/
def CacheOp.apply {κ : Type} [DecidableEq κ] (keyOf : StreamExecutorConfig → κ)
    (cache_ : Cache κ) : CacheOp → Cache κ
  | .get _ => cache_
  | .getOrCreate config factory => (GetOrCreate keyOf cache_ config factory).cache_
  | .destroyAllExecutors => DestroyAllExecutors cache_

/-- The cache after a sequence of operations, run from left to right. -/
def runOps {κ : Type} [DecidableEq κ] (keyOf : StreamExecutorConfig → κ)
    (cache_ : Cache κ) (ops : List CacheOp) : Cache κ :=
  ops.foldl (CacheOp.apply keyOf) cache_

/-- Two stored pairs whose configs have equal `plugin_config` and equal
`device_options`. -/
def sameStoredOptions (p q : StreamExecutorConfig × StreamExecutor) : Prop :=
  p.1.plugin_config = q.1.plugin_config ∧ p.1.device_options = q.1.device_options

/-- No entry of the cache holds, at two positions of its list, pairs whose
configs have equal `plugin_config` and equal `device_options`. -/
def EntriesUnique {κ : Type} (cache_ : Cache κ) : Prop :=
  ∀ p ∈ cache_, p.2.configurations.Pairwise (fun a b => ¬ sameStoredOptions a b)

end stream_executor

namespace tensorflow

open stream_executor (Status StatusOr)

/-! ## Data model of the Conv2D dimension resolver -/

/-- The values of `TensorFormat` named in `conv_ops.cc`. -/
inductive TensorFormat where
  | FORMAT_NHWC
  | FORMAT_NCHW
  | FORMAT_NCHW_VECT_C
deriving DecidableEq, Repr

/-- The values of `FilterTensorFormat` named in `conv_ops.cc`. -/
inductive FilterTensorFormat where
  | FORMAT_HWIO
  | FORMAT_OIHW
  | FORMAT_OHWI
  | FORMAT_OIHW_VECT_I
deriving DecidableEq, Repr

/-- The padding modes. -/
inductive Padding where
  | VALID
  | SAME
  | EXPLICIT
deriving DecidableEq, Repr

/-- A `Tensor`, reduced to the list of its dimension sizes (64-bit integers). -/
structure Tensor where
  dim_sizes : List Int
deriving DecidableEq, Repr

/-- The call `tensor.dims()`. -/
def Tensor.dims (t : Tensor) : Int := (t.dim_sizes.length : Int)

/-- The call `tensor.dim_size(i)`. -/
def Tensor.dim_size (t : Tensor) (i : Nat) : Int := t.dim_sizes.getD i 0

/-- The struct `Conv2DParameters`: the attributes read by `InitConv2DParameters`. -/
structure Conv2DParameters where
  dilations : List Int
  strides : List Int
  padding : Padding
  data_format : TensorFormat
  explicit_paddings : List Int
deriving DecidableEq, Repr

/-- The struct `Conv2DDimensions` filled by `ComputeConv2DDimension`
(lines 572-589). The first twelve fields are `int`, the last six `int64_t`. -/
structure Conv2DDimensions where
  batch : Int
  input_rows : Int
  input_cols : Int
  in_depth : Int
  filter_rows : Int
  filter_cols : Int
  patch_depth : Int
  out_depth : Int
  stride_rows : Int
  stride_cols : Int
  dilation_rows : Int
  dilation_cols : Int
  out_rows : Int
  out_cols : Int
  pad_rows_before : Int
  pad_rows_after : Int
  pad_cols_before : Int
  pad_cols_after : Int
deriving DecidableEq, Repr

/-- The helpers that `ComputeConv2DDimension` calls and that are declared
outside `conv_ops.cc` (in `tensor_format.h` and `bounds_check.h`); the
resolver is a function of them.
`GetTensorDim dims format c` is the entry of `dims` for the dimension `c`,
`GetFilterDim dims format c` the same for a filter shape,
`GetExplicitPaddingForDim paddings format c` the (before, after) pair of `c`,
`FastBoundsCheck index limit` the range test. -/
structure Externals where
  GetTensorDim : List Int → TensorFormat → Char → Int
  GetFilterDim : List Int → FilterTensorFormat → Char → Int
  GetExplicitPaddingForDim : List Int → TensorFormat → Char → Int × Int
  FastBoundsCheck : Int → Int → Bool

/-- The value `std::numeric_limits<int>::max()`. -/
def intMax : Int := 2147483647

/-- A `static_cast<int>` of a 64-bit value: reduction modulo `2^32` into the
range of a 32-bit signed integer. -/
def toInt32 (x : Int) : Int := (x + 2147483648) % 4294967296 - 2147483648

/-- The remainder `a % b` of C++, which truncates toward zero. -/
def cppMod (a b : Int) : Int := Int.tmod a b

namespace errors

/-- The call `errors::InvalidArgument(...)`: the text pieces joined, with the
numbers that are printed between them. -/
def InvalidArgument (message : String) (args : List Int) : Status :=
  { code := stream_executor.error.Code.INVALID_ARGUMENT, message := message, args := args }

end errors

/-- The macro `TF_REQUIRES(EXP, STATUS)` of lines 415-418: return `STATUS` from
the enclosing function unless `EXP` holds. -/
def TF_REQUIRES (exp : Bool) (status : Status) : StatusOr Unit :=
  if exp then .ok () else .error status

/-- The quotient `a / b` rounded up, for `b > 0`. -/
def ceilDiv (a b : Int) : Int := -((-a) / b)

/-- Modelled from the spec: `GetWindowedOutputSizeVerboseV2` is declared outside
the source files. Section 4.2 of the spec gives its result: the resolver
"rejects ... non-positive spatial strides/dilations"; "for VALID, output =
ceil((in - (filter-1)*dilation - 1 +1)/stride) with zero padding; for SAME,
output = ceil(in/stride) with padding distributed so that padding_after >=
padding_before by at most one unit when the total is odd; for EXPLICIT, the
caller-supplied before/after values are used directly and must be non-negative".
The spec does not give the total padding of SAME nor the output size of
EXPLICIT; the model takes the padding that lets the last window fit (never
negative) and the VALID size of the padded input.
The result is (output_size, padding_before, padding_after). -/
def GetWindowedOutputSizeVerboseV2 (input_size filter_size dilation_rate stride : Int)
    (padding_type : Padding) (padding_before padding_after : Int) :
    StatusOr (Int × Int × Int) :=
  if stride ≤ 0 then
    .error (errors.InvalidArgument "Stride must be > 0, but got " [stride])
  else if dilation_rate ≤ 0 then
    .error (errors.InvalidArgument "Dilation rate must be >= 1, but got " [dilation_rate])
  else
    match padding_type with
    | .VALID =>
      .ok (ceilDiv (input_size - (filter_size - 1) * dilation_rate - 1 + 1) stride, 0, 0)
    | .SAME =>
      let output_size := ceilDiv input_size stride
      let padding_needed :=
        max 0 ((output_size - 1) * stride + (filter_size - 1) * dilation_rate + 1 - input_size)
      .ok (output_size, padding_needed / 2, padding_needed - padding_needed / 2)
    | .EXPLICIT =>
      if padding_before < 0 ∨ padding_after < 0 then
        .error (errors.InvalidArgument "Explicit padding must be non-negative"
          [padding_before, padding_after])
      else
        .ok (ceilDiv (input_size + padding_before + padding_after
            - (filter_size - 1) * dilation_rate - 1 + 1) stride,
          padding_before, padding_after)

/-- The function `ComputeConv2DDimension` (lines 475-592). Where the source
leaves the four padding variables uninitialised (padding other than EXPLICIT)
the model passes 0; `GetWindowedOutputSizeVerboseV2` overwrites them. -/
def ComputeConv2DDimension (ext : Externals) (params : Conv2DParameters)
    (input filter : Tensor) : StatusOr Conv2DDimensions := do
  let required_dims : Nat :=
    if params.data_format = TensorFormat.FORMAT_NCHW_VECT_C then 5 else 4
  TF_REQUIRES (decide (input.dims = required_dims))
    (errors.InvalidArgument "convolution input must be %d-dimensional" [required_dims])
  TF_REQUIRES (decide (filter.dims = required_dims))
    (errors.InvalidArgument "convolution filter must be %d-dimensional" [required_dims])
  TF_REQUIRES ((List.range (required_dims - 1)).all
      (fun i => ext.FastBoundsCheck (filter.dim_size i) intMax))
    (errors.InvalidArgument "filter too large" [])
  let filter_format : FilterTensorFormat :=
    if params.data_format = TensorFormat.FORMAT_NCHW_VECT_C then
      FilterTensorFormat.FORMAT_OIHW_VECT_I
    else FilterTensorFormat.FORMAT_HWIO
  let in_depth_raw := ext.GetTensorDim input.dim_sizes params.data_format 'C'
  let patch_depth_raw := ext.GetFilterDim filter.dim_sizes filter_format 'I'
  TF_REQUIRES (ext.FastBoundsCheck in_depth_raw intMax)
    (errors.InvalidArgument "Input depth too large" [])
  TF_REQUIRES (ext.FastBoundsCheck patch_depth_raw intMax)
    (errors.InvalidArgument "Patch depth too large" [])
  let in_depth := toInt32 in_depth_raw
  let patch_depth := toInt32 patch_depth_raw
  TF_REQUIRES (decide (patch_depth > 0))
    (errors.InvalidArgument "filter depth must be stricly positive, got " [patch_depth])
  TF_REQUIRES (decide (cppMod in_depth patch_depth = 0))
    (errors.InvalidArgument "input depth must be evenly divisible by filter depth: %d vs %d"
      [in_depth, patch_depth])
  let out_depth := toInt32 (ext.GetFilterDim filter.dim_sizes filter_format 'O')
  let input_rows_raw := ext.GetTensorDim input.dim_sizes params.data_format 'H'
  TF_REQUIRES (ext.FastBoundsCheck input_rows_raw intMax)
    (errors.InvalidArgument "Input rows too large" [])
  let input_rows := toInt32 input_rows_raw
  let filter_rows := toInt32 (ext.GetFilterDim filter.dim_sizes filter_format 'H')
  let input_cols_raw := ext.GetTensorDim input.dim_sizes params.data_format 'W'
  TF_REQUIRES (ext.FastBoundsCheck input_cols_raw intMax)
    (errors.InvalidArgument "Input cols too large" [])
  let input_cols := toInt32 input_cols_raw
  let filter_cols := toInt32 (ext.GetFilterDim filter.dim_sizes filter_format 'W')
  let batch_raw := ext.GetTensorDim input.dim_sizes params.data_format 'N'
  TF_REQUIRES (ext.FastBoundsCheck batch_raw intMax)
    (errors.InvalidArgument "batch is too large" [])
  let batch := toInt32 batch_raw
  let stride_rows := ext.GetTensorDim params.strides params.data_format 'H'
  let stride_cols := ext.GetTensorDim params.strides params.data_format 'W'
  let dilation_rows := ext.GetTensorDim params.dilations params.data_format 'H'
  let dilation_cols := ext.GetTensorDim params.dilations params.data_format 'W'
  let pad_rows : Int × Int :=
    if params.padding = Padding.EXPLICIT then
      ext.GetExplicitPaddingForDim params.explicit_paddings params.data_format 'H'
    else (0, 0)
  let pad_cols : Int × Int :=
    if params.padding = Padding.EXPLICIT then
      ext.GetExplicitPaddingForDim params.explicit_paddings params.data_format 'W'
    else (0, 0)
  let rows ← GetWindowedOutputSizeVerboseV2 input_rows filter_rows dilation_rows stride_rows
    params.padding pad_rows.1 pad_rows.2
  let cols ← GetWindowedOutputSizeVerboseV2 input_cols filter_cols dilation_cols stride_cols
    params.padding pad_cols.1 pad_cols.2
  pure
    { batch := batch
      input_rows := input_rows
      input_cols := input_cols
      in_depth := in_depth
      filter_rows := filter_rows
      filter_cols := filter_cols
      patch_depth := patch_depth
      out_depth := out_depth
      stride_rows := stride_rows
      stride_cols := stride_cols
      dilation_rows := dilation_rows
      dilation_cols := dilation_cols
      out_rows := rows.1
      out_cols := cols.1
      pad_rows_before := rows.2.1
      pad_rows_after := rows.2.2
      pad_cols_before := cols.2.1
      pad_cols_after := cols.2.2 }

/-- The position of a dimension letter in the NHWC layout `[batch, in_rows,
in_cols, in_depth]` (comment of lines 607-608). -/
def nhwcIndex (c : Char) : Nat :=
  if c = 'N' then 0 else if c = 'H' then 1 else if c = 'W' then 2 else 3

/-- The position of a dimension letter in the HWIO layout `[filter_rows,
filter_cols, in_depth, out_depth]` (comment of lines 611-612). -/
def hwioIndex (c : Char) : Nat :=
  if c = 'H' then 0 else if c = 'W' then 1 else if c = 'I' then 2 else 3

/-- An instance of the outside helpers for NHWC tensors and HWIO filters, used
to evaluate the resolver on concrete inputs: dimensions are looked up by their
position, the paddings of a dimension are the two entries at twice its position
(as in lines 130-133), and the range test is `0 <= index < limit`. -/
def nhwcExternals : Externals :=
  { GetTensorDim := fun dims _ c => dims.getD (nhwcIndex c) 0
    GetFilterDim := fun dims _ c => dims.getD (hwioIndex c) 0
    GetExplicitPaddingForDim := fun paddings _ c =>
      (paddings.getD (2 * nhwcIndex c) 0, paddings.getD (2 * nhwcIndex c + 1) 0)
    FastBoundsCheck := fun index limit => decide (0 ≤ index) && decide (index < limit) }

/-- Scenario 2 of the spec: input `[2,8,8,8]`, stride 1, SAME. -/
def paramsSame : Conv2DParameters :=
  { dilations := [1, 1, 1, 1], strides := [1, 1, 1, 1], padding := Padding.SAME
    data_format := TensorFormat.FORMAT_NHWC, explicit_paddings := [] }

/-- A VALID convolution with stride 2 and dilation 1. -/
def paramsValid : Conv2DParameters :=
  { dilations := [1, 1, 1, 1], strides := [1, 2, 2, 1], padding := Padding.VALID
    data_format := TensorFormat.FORMAT_NHWC, explicit_paddings := [] }

/-- The input of scenario 2. -/
def input2888 : Tensor := { dim_sizes := [2, 8, 8, 8] }

/-- The filter of scenario 2. -/
def filter3348 : Tensor := { dim_sizes := [3, 3, 4, 8] }

/-- A SAME convolution with stride 2 and dilation 1. -/
def paramsSameStride2 : Conv2DParameters :=
  { dilations := [1, 1, 1, 1], strides := [1, 2, 2, 1], padding := Padding.SAME
    data_format := TensorFormat.FORMAT_NHWC, explicit_paddings := [] }

/-- The dimensions resolved for `paramsValid`, `input2888` and `filter3348`. -/
def resolvedValid : Conv2DDimensions :=
  { batch := 2, input_rows := 8, input_cols := 8, in_depth := 8
    filter_rows := 3, filter_cols := 3, patch_depth := 4, out_depth := 8
    stride_rows := 2, stride_cols := 2, dilation_rows := 1, dilation_cols := 1
    out_rows := 3, out_cols := 3
    pad_rows_before := 0, pad_rows_after := 0, pad_cols_before := 0, pad_cols_after := 0 }

/-- The dimensions resolved for `paramsSameStride2`, `input2888` and `filter3348`. -/
def resolvedSame : Conv2DDimensions :=
  { batch := 2, input_rows := 8, input_cols := 8, in_depth := 8
    filter_rows := 3, filter_cols := 3, patch_depth := 4, out_depth := 8
    stride_rows := 2, stride_cols := 2, dilation_rows := 1, dilation_cols := 1
    out_rows := 4, out_cols := 4
    pad_rows_before := 0, pad_rows_after := 1, pad_cols_before := 0, pad_cols_after := 1 }

/-! ## Further definitions for the dimension resolver -/

/-- The local `required_dims` of `ComputeConv2DDimension` (lines 478-479). -/
def requiredDims (params : Conv2DParameters) : Nat :=
  if params.data_format = TensorFormat.FORMAT_NCHW_VECT_C then 5 else 4

/-- The local `filter_format` of `ComputeConv2DDimension` (lines 495-498). -/
def filterFormat (params : Conv2DParameters) : FilterTensorFormat :=
  if params.data_format = TensorFormat.FORMAT_NCHW_VECT_C then
    FilterTensorFormat.FORMAT_OIHW_VECT_I
  else FilterTensorFormat.FORMAT_HWIO

/-- The assumption on the outside helper `FastBoundsCheck` under which a range
check of the resolver means what its message says: a value that passes is
non-negative and below the limit. -/
def Externals.FastBoundsCheckSound (ext : Externals) : Prop :=
  ∀ index limit, ext.FastBoundsCheck index limit = true → 0 ≤ index ∧ index < limit

/-- A VALID convolution with unit strides and dilations on NHWC tensors. -/
def paramsUnit : Conv2DParameters :=
  { dilations := [1, 1, 1, 1], strides := [1, 1, 1, 1], padding := Padding.VALID
    data_format := TensorFormat.FORMAT_NHWC, explicit_paddings := [] }

/-- An input with one element. -/
def input1111 : Tensor := { dim_sizes := [1, 1, 1, 1] }

/-- A 1x1 filter of depth 1 whose output depth `2^32 + 5` does not fit 32 bits. -/
def filterWide : Tensor := { dim_sizes := [1, 1, 1, 4294967301] }

/-- A filter of depth 3, which does not divide the depth 8 of `input2888`. -/
def filter3338 : Tensor := { dim_sizes := [3, 3, 3, 8] }

/-- The dimensions resolved for `paramsUnit`, `input1111` and `filterWide`: the
output depth is 5. -/
def resolvedWide : Conv2DDimensions :=
  { batch := 1, input_rows := 1, input_cols := 1, in_depth := 1
    filter_rows := 1, filter_cols := 1, patch_depth := 1, out_depth := 5
    stride_rows := 1, stride_cols := 1, dilation_rows := 1, dilation_cols := 1
    out_rows := 1, out_cols := 1
    pad_rows_before := 0, pad_rows_after := 0, pad_cols_before := 0, pad_cols_after := 0 }

/-! ## `InitConv2DParameters` -/

namespace errors

/-- The call `errors::Unimplemented(...)`. -/
def Unimplemented (message : String) (args : List Int) : Status :=
  { code := stream_executor.error.Code.UNIMPLEMENTED, message := message, args := args }

end errors

/-- The part of `OpKernelConstruction` that `InitConv2DParameters` reads: the
result of `GetAttr` for each attribute and of `HasAttr("explicit_paddings")`. -/
structure OpKernelConstruction where
  dilations : StatusOr (List Int)
  strides : StatusOr (List Int)
  padding : StatusOr Padding
  HasAttr_explicit_paddings : Bool
  explicit_paddings : StatusOr (List Int)
  data_format : StatusOr String

/-- The helpers that `InitConv2DParameters` calls and that are declared outside
`conv_ops.cc`: `FormatFromString` (here returning the format when the string
names one) and `CheckValidPadding`. -/
structure AttrExternals where
  FormatFromString : String → Option TensorFormat
  CheckValidPadding : Padding → List Int → Nat → TensorFormat → StatusOr Unit

/-- The function `InitConv2DParameters` (lines 420-473). -/
def InitConv2DParameters (ext : Externals) (aext : AttrExternals)
    (context : OpKernelConstruction) : StatusOr Conv2DParameters := do
  let dilations ← context.dilations
  let strides ← context.strides
  let padding ← context.padding
  let explicit_paddings ←
    (if context.HasAttr_explicit_paddings then context.explicit_paddings else pure [])
  let data_format_string ← context.data_format
  let data_format ←
    (match aext.FormatFromString data_format_string with
     | some format => pure format
     | none => Except.error (errors.InvalidArgument "Invalid data format" []))
  TF_REQUIRES (decide (dilations.length = 4))
    (errors.InvalidArgument "Sliding window dilations field must specify 4 dimensions" [])
  TF_REQUIRES (decide (strides.length = 4))
    (errors.InvalidArgument "Sliding window strides field must specify 4 dimensions" [])
  let stride_n := ext.GetTensorDim strides data_format 'N'
  let stride_c := ext.GetTensorDim strides data_format 'C'
  let stride_h := ext.GetTensorDim strides data_format 'H'
  let stride_w := ext.GetTensorDim strides data_format 'W'
  TF_REQUIRES (decide (stride_n = 1) && decide (stride_c = 1))
    (errors.Unimplemented
      "Current implementation does not yet support strides in the batch and depth dimensions."
      [])
  TF_REQUIRES (decide (stride_h > 0) && decide (stride_w > 0))
    (errors.InvalidArgument "Row and column strides should be larger than 0." [])
  let dilation_n := ext.GetTensorDim dilations data_format 'N'
  let dilation_c := ext.GetTensorDim dilations data_format 'C'
  let dilation_h := ext.GetTensorDim dilations data_format 'H'
  let dilation_w := ext.GetTensorDim dilations data_format 'W'
  TF_REQUIRES (decide (dilation_n = 1) && decide (dilation_c = 1))
    (errors.Unimplemented
      "Current implementation does not yet support dilations in the batch and depth dimensions."
      [])
  TF_REQUIRES (decide (dilation_h > 0) && decide (dilation_w > 0))
    (errors.InvalidArgument "Dilated rates should be larger than 0." [])
  let num_dims : Nat := if data_format = TensorFormat.FORMAT_NCHW_VECT_C then 5 else 4
  aext.CheckValidPadding padding explicit_paddings num_dims data_format
  pure
    { dilations := dilations, strides := strides, padding := padding
      data_format := data_format, explicit_paddings := explicit_paddings }

/-- An attribute set: every attribute can be read; `explicit_paddings` may be
absent. -/
def OpKernelConstruction.withAttrs (dilations strides : List Int) (padding : Padding)
    (explicit_paddings : Option (List Int)) (data_format : String) : OpKernelConstruction :=
  { dilations := .ok dilations
    strides := .ok strides
    padding := .ok padding
    HasAttr_explicit_paddings := explicit_paddings.isSome
    explicit_paddings := .ok (explicit_paddings.getD [])
    data_format := .ok data_format }

/-- An instance of the outside helpers of `InitConv2DParameters`, used to
evaluate it on concrete attribute sets: the three format names of `conv_ops.cc`
are recognised, and explicit paddings are accepted when they are absent for
SAME and VALID and, for EXPLICIT, are two non-negative values per dimension. -/
def nhwcAttrExternals : AttrExternals :=
  { FormatFromString := fun s =>
      if s = "NHWC" then some TensorFormat.FORMAT_NHWC
      else if s = "NCHW" then some TensorFormat.FORMAT_NCHW
      else if s = "NCHW_VECT_C" then some TensorFormat.FORMAT_NCHW_VECT_C
      else none
    CheckValidPadding := fun padding explicit_paddings num_dims _ =>
      match padding with
      | Padding.EXPLICIT =>
        if explicit_paddings.length = 2 * num_dims ∧ explicit_paddings.all (fun p => decide (0 ≤ p))
        then .ok ()
        else .error (errors.InvalidArgument "explicit_paddings attribute is malformed" [])
      | _ =>
        if explicit_paddings.isEmpty then .ok ()
        else .error (errors.InvalidArgument
          "explicit_paddings attribute must be empty if the padding attribute is not EXPLICIT"
          []) }

/-! ## The CPU kernel: `Conv2DOp::Compute` and its launchers -/

/-- The quotient `a / b` of C++, which truncates toward zero. -/
def cppDiv (a b : Int) : Int := Int.tdiv a b

/-- The call `tensor.NumElements()`. -/
def Tensor.NumElements (t : Tensor) : Int := t.dim_sizes.prod

/-- The numeric types for which the CPU kernel is registered (lines 690-694). -/
inductive DataType where
  | DT_BFLOAT16
  | DT_HALF
  | DT_FLOAT
  | DT_DOUBLE
  | DT_INT32
deriving DecidableEq, Repr

/-- What an execution of the kernel does, step by step: statuses set on the
context, tensors allocated, and functors run. `MatMulConvFunctor` carries the
three matrix shapes (output, input, filter); `CHECK_failure` is the abort inside
`shaped<T, 2>` when one of the three matrix views requested for
`MatMulConvFunctor` does not describe its tensor, with the three requested
shapes; `SpatialConvolution` is the call
made by `LaunchGeneric`, `groupSpatialConvolution i` the call made by
`LaunchGrouped` on the slices `chip<0>(i)`; the flag tells whether the
explicit paddings are passed. -/
inductive Event where
  | SetStatus (status : Status)
  | allocate_output (shape : List Int)
  | allocate_temp (shape : List Int)
  | SetZeroFunctor
  | DeepConv2D
  | MatMulConvFunctor (out_shape in_shape filter_shape : List Int)
  | CHECK_failure (out_shape in_shape filter_shape : List Int)
  | SpatialConvolution (explicit_padding : Bool)
  | shuffle (permutation : List Nat)
  | groupSpatialConvolution (i : Nat) (explicit_padding : Bool)
deriving DecidableEq, Repr

/-- The collaborators of the kernel that are declared outside `conv_ops.cc`:
`ShapeFromFormat`, the two allocators of `OpKernelContext` (which may fail), and
the applicability predicate `CanUseDeepConv2D` of the transform-domain kernel. -/
structure KernelEnv where
  ShapeFromFormat : TensorFormat → Int → Int → Int → Int → List Int
  allocate_output : List Int → StatusOr Unit
  allocate_temp : List Int → StatusOr Unit
  CanUseDeepConv2D : Int → Int → Int → Int → Int → Int → Int → Int → Bool

/-- Whether the view `tensor.shaped<T, 2>(sizes)` exists: the sizes are not
negative and their product is the number of elements of the tensor. Otherwise
`shaped` aborts. -/
def Tensor.shaped2 (t : Tensor) (sizes : List Int) : Bool :=
  sizes.all (fun s => decide (0 ≤ s)) && decide (sizes.prod = t.NumElements)

/-- The call of `MatMulConvFunctor` of lines 104-109 and of lines 120-124 as a
step: the three views `output->shaped<T, 2>(out_shape)`,
`input.shaped<T, 2>(in_shape)` and `filter.shaped<T, 2>(filter_shape)` are built
first; the functor runs when each of them exists, and the kernel aborts
otherwise. -/
def LaunchGeneric.matmulStep (output input filter : Tensor)
    (out_shape in_shape filter_shape : List Int) : List Event :=
  if output.shaped2 out_shape = true ∧ input.shaped2 in_shape = true ∧
      filter.shaped2 filter_shape = true then
    [Event.MatMulConvFunctor out_shape in_shape filter_shape]
  else [Event.CHECK_failure out_shape in_shape filter_shape]

/-- The functor `LaunchGeneric<CPUDevice, T>` (lines 80-142), called for NHWC
tensors only. `conv_width` and `k` are `int`. -/
def LaunchGeneric (input filter output : Tensor)
    (row_stride col_stride row_dilation col_dilation : Int) (padding : Padding) :
    List Event :=
  if filter.dim_size 0 = 1 ∧ filter.dim_size 1 = 1 ∧ row_stride = 1 ∧ col_stride = 1 ∧
      (padding = Padding.SAME ∨ padding = Padding.VALID) then
    let conv_width : Int :=
      (List.range 3).foldl (fun w i => toInt32 (w * output.dim_size i)) 1
    LaunchGeneric.matmulStep output input filter [conv_width, filter.dim_size 3]
      [conv_width, filter.dim_size 2] [filter.dim_size 2, filter.dim_size 3]
  else if filter.dim_size 0 = input.dim_size 1 ∧ filter.dim_size 1 = input.dim_size 2 ∧
      row_dilation = 1 ∧ col_dilation = 1 ∧ padding = Padding.VALID then
    let k : Int := toInt32 (filter.dim_size 0 * filter.dim_size 1 * filter.dim_size 2)
    LaunchGeneric.matmulStep output input filter [input.dim_size 0, filter.dim_size 3]
      [input.dim_size 0, k] [k, filter.dim_size 3]
  else
    [Event.SpatialConvolution (decide (padding = Padding.EXPLICIT))]

/-- The lambda `post_shuffle` of `LaunchGrouped` (lines 173-176). -/
def post_shuffle (num_groups : Int) (tensor : Tensor) : List Int :=
  [num_groups, tensor.dim_size 0, tensor.dim_size 1, tensor.dim_size 2,
    cppDiv (tensor.dim_size 3) num_groups]

/-- The lambda `pre_shuffle` of `LaunchGrouped` (lines 167-170). -/
def pre_shuffle (num_groups : Int) (tensor : Tensor) : List Int :=
  [tensor.dim_size 0, tensor.dim_size 1, tensor.dim_size 2, num_groups,
    cppDiv (tensor.dim_size 3) num_groups]

/-- The functor `LaunchGrouped<T>` (lines 148-242) as a sequence of steps. -/
def LaunchGrouped (env : KernelEnv) (input filter output : Tensor) (padding : Padding) :
    List Event :=
  let in_depth := input.dim_size 3
  let patch_depth := filter.dim_size 2
  let num_groups := cppDiv in_depth patch_depth
  match env.allocate_temp (post_shuffle num_groups input) with
  | .error status => [Event.SetStatus status]
  | .ok _ =>
    [Event.allocate_temp (post_shuffle num_groups input), Event.shuffle [3, 0, 1, 2, 4]] ++
    match env.allocate_temp (post_shuffle num_groups filter) with
    | .error status => [Event.SetStatus status]
    | .ok _ =>
      [Event.allocate_temp (post_shuffle num_groups filter), Event.shuffle [3, 0, 1, 2, 4]] ++
      match env.allocate_temp (post_shuffle num_groups output) with
      | .error status => [Event.SetStatus status]
      | .ok _ =>
        [Event.allocate_temp (post_shuffle num_groups output)] ++
        (List.range num_groups.toNat).map
          (fun i => Event.groupSpatialConvolution i (decide (padding = Padding.EXPLICIT))) ++
        [Event.shuffle [1, 2, 3, 0, 4]]

/-- The checks of `LaunchConv2DOp<CPUDevice, T>::operator()` (lines 254-302):
the status set by the first check that fails, `none` when all pass. -/
def LaunchConv2DOpCPU.check (ext : Externals) (input filter output : Tensor)
    (explicit_paddings : List Int) (data_format : TensorFormat) : Option Status :=
  if data_format ≠ TensorFormat.FORMAT_NHWC then
    some (errors.Unimplemented
      "The Conv2D op currently only supports the NHWC tensor format on the CPU." [])
  else if !(explicit_paddings.all (fun explicit_padding =>
      ext.FastBoundsCheck explicit_padding intMax)) then
    some (errors.InvalidArgument "filter too large" [])
  else
    let in_depth := input.dim_size 3
    let out_depth := output.dim_size 3
    let patch_depth := filter.dim_size 2
    if patch_depth ≤ 0 then
      some (errors.InvalidArgument "filter depth must be stricly positive, got " [patch_depth])
    else if cppMod in_depth patch_depth ≠ 0 then
      some (errors.InvalidArgument
        "input depth must be evenly divisible by filter depth: %d vs %d"
        [in_depth, patch_depth])
    else if filter.NumElements ≤ 0 then
      some (errors.InvalidArgument
        "filter must not have zero elements (i.e. all dimensions must be non-zero)" [])
    else
      let num_groups := cppDiv in_depth patch_depth
      if num_groups ≤ 0 then
        some (errors.InvalidArgument "number of groups must be stricly positive, got "
          [num_groups])
      else if cppMod out_depth num_groups ≠ 0 ∨ out_depth < num_groups then
        some (errors.InvalidArgument
          "output depth must be evenly divisible by number of groups: %d vs %d"
          [out_depth, num_groups])
      else none

/-- The functor `LaunchConv2DOp<CPUDevice, T>` (lines 246-314): its checks, then
`LaunchGrouped` when the input depth differs from the filter depth and
`LaunchGeneric` otherwise (lines 304-312). -/
def LaunchConv2DOpCPU (ext : Externals) (env : KernelEnv) (input filter : Tensor)
    (row_dilation col_dilation row_stride col_stride : Int) (padding : Padding)
    (explicit_paddings : List Int) (output : Tensor) (data_format : TensorFormat) :
    List Event :=
  match LaunchConv2DOpCPU.check ext input filter output explicit_paddings data_format with
  | some status => [Event.SetStatus status]
  | none =>
    if input.dim_size 3 ≠ filter.dim_size 2 then
      LaunchGrouped env input filter output padding
    else
      LaunchGeneric input filter output row_stride col_stride row_dilation col_dilation padding

/-- The function `LaunchDeepConvOp<CPUDevice, T>::Run` (lines 359-413): whether
the transform-domain kernel takes the convolution. Only the specialisation for
`float` can return true; `out_rows` and `out_cols` are passed as `int`. -/
def LaunchDeepConvOp.Run (env : KernelEnv) (dtype : DataType) (dimensions : Conv2DDimensions)
    (data_format : TensorFormat) : Bool :=
  match dtype with
  | DataType.DT_FLOAT =>
    if data_format ≠ TensorFormat.FORMAT_NHWC ∨ dimensions.dilation_rows ≠ 1 ∨
        dimensions.dilation_cols ≠ 1 ∨
        env.CanUseDeepConv2D dimensions.stride_rows dimensions.stride_cols
          dimensions.filter_rows dimensions.filter_cols dimensions.in_depth
          dimensions.out_depth (toInt32 dimensions.out_rows) (toInt32 dimensions.out_cols)
          = false then
      false
    else true
  | _ => false

/-- The output shape computed by `Conv2DOp::Compute` (lines 619-621). -/
def outShape (env : KernelEnv) (params : Conv2DParameters) (dimensions : Conv2DDimensions) :
    List Int :=
  env.ShapeFromFormat params.data_format dimensions.batch dimensions.out_rows
    dimensions.out_cols dimensions.out_depth

/-- The method `Conv2DOp<CPUDevice, T>::Compute` (lines 606-670) as the sequence
of its steps. -/
def Conv2DOp.Compute (ext : Externals) (env : KernelEnv) (dtype : DataType)
    (params : Conv2DParameters) (input filter : Tensor) : List Event :=
  match ComputeConv2DDimension ext params input filter with
  | .error status => [Event.SetStatus status]
  | .ok dimensions =>
    let out_shape := outShape env params dimensions
    match env.allocate_output out_shape with
    | .error status => [Event.SetStatus status]
    | .ok _ =>
      Event.allocate_output out_shape ::
        (if out_shape.prod = 0 then []
         else if input.NumElements = 0 then [Event.SetZeroFunctor]
         else if params.padding ≠ Padding.EXPLICIT ∧
             LaunchDeepConvOp.Run env dtype dimensions params.data_format = true then
           [Event.DeepConv2D]
         else
           LaunchConv2DOpCPU ext env input filter dimensions.dilation_rows
             dimensions.dilation_cols dimensions.stride_rows dimensions.stride_cols
             params.padding params.explicit_paddings { dim_sizes := out_shape }
             params.data_format)

/-- An environment used to evaluate the kernel on concrete inputs: the shape of
an NHWC tensor is `[batch, rows, cols, depth]`, allocations succeed, and the
transform-domain kernel is never applicable. -/
def nhwcEnv : KernelEnv :=
  { ShapeFromFormat := fun _ n h w c => [n, h, w, c]
    allocate_output := fun _ => .ok ()
    allocate_temp := fun _ => .ok ()
    CanUseDeepConv2D := fun _ _ _ _ _ _ _ _ => false }

/-- The environment `nhwcEnv` with the transform-domain kernel enabled for 3x3
filters with unit strides. -/
def deepConvEnv : KernelEnv :=
  { nhwcEnv with
    CanUseDeepConv2D := fun stride_rows stride_cols filter_rows filter_cols _ _ _ _ =>
      decide (stride_rows = 1) && decide (stride_cols = 1) &&
        decide (filter_rows = 3) && decide (filter_cols = 3) }

/-- A filter of depth 4 with 7 output channels: with an input of depth 8 there
are 2 groups, which do not divide 7. -/
def filter3347 : Tensor := { dim_sizes := [3, 3, 4, 7] }

/-- The dimensions resolved for `paramsSame`, `input2888` and `filter3347`. -/
def resolved3347 : Conv2DDimensions :=
  { batch := 2, input_rows := 8, input_cols := 8, in_depth := 8
    filter_rows := 3, filter_cols := 3, patch_depth := 4, out_depth := 7
    stride_rows := 1, stride_cols := 1, dilation_rows := 1, dilation_cols := 1
    out_rows := 8, out_cols := 8
    pad_rows_before := 1, pad_rows_after := 1, pad_cols_before := 1, pad_cols_after := 1 }

/-- The dimensions resolved for scenario 2 (`paramsSame`, `input2888`,
`filter3348`). -/
def resolved3348 : Conv2DDimensions :=
  { batch := 2, input_rows := 8, input_cols := 8, in_depth := 8
    filter_rows := 3, filter_cols := 3, patch_depth := 4, out_depth := 8
    stride_rows := 1, stride_cols := 1, dilation_rows := 1, dilation_cols := 1
    out_rows := 8, out_cols := 8
    pad_rows_before := 1, pad_rows_after := 1, pad_cols_before := 1, pad_cols_after := 1 }

/-- The input of scenario 1. -/
def input1553 : Tensor := { dim_sizes := [1, 5, 5, 3] }

/-- The filter of scenario 1. -/
def filter1134 : Tensor := { dim_sizes := [1, 1, 3, 4] }

/-- An input of depth 4. -/
def input1554 : Tensor := { dim_sizes := [1, 5, 5, 4] }

/-- A 1x1 filter of depth 2: with `input1554` there are 2 groups. -/
def filter1124 : Tensor := { dim_sizes := [1, 1, 2, 4] }

/-- The assumption that the outside helper `FastBoundsCheck` is the range test
of an index against a limit: it holds exactly when `0 <= index < limit`. -/
def Externals.FastBoundsCheckExact (ext : Externals) : Prop :=
  ∀ index limit, ext.FastBoundsCheck index limit = true ↔ (0 ≤ index ∧ index < limit)

/-- The status set by the loop of lines 262-267. -/
def explicitPaddingRejected : Status := errors.InvalidArgument "filter too large" []

/-- The output tensor of scenario 2. -/
def output2888 : Tensor := { dim_sizes := [2, 8, 8, 8] }

/-- Explicit paddings whose row padding before is `2^31 - 1`. -/
def paddingsIntMax : List Int := [0, 0, 2147483647, 0, 0, 0, 0, 0]

/-- Explicit paddings with a negative value. -/
def paddingsNegative : List Int := [0, 0, 1, -1, 0, 0, 0, 0]

/-- Explicit paddings within range. -/
def paddingsSmall : List Int := [0, 0, 1, 2, 3, 4, 0, 0]

/-- Whether a step is a call of `MatMulConvFunctor`. -/
def Event.isMatMul : Event → Bool
  | Event.MatMulConvFunctor _ _ _ => true
  | _ => false

/-- Whether a step is a call of `SpatialConvolution` made by `LaunchGrouped`. -/
def Event.isGrouped : Event → Bool
  | Event.groupSpatialConvolution _ _ => true
  | _ => false

/-- The dimensions resolved for scenario 1 (`paramsUnit`, `input1553`,
`filter1134`). -/
def resolved1134 : Conv2DDimensions :=
  { batch := 1, input_rows := 5, input_cols := 5, in_depth := 3
    filter_rows := 1, filter_cols := 1, patch_depth := 3, out_depth := 4
    stride_rows := 1, stride_cols := 1, dilation_rows := 1, dilation_cols := 1
    out_rows := 5, out_cols := 5
    pad_rows_before := 0, pad_rows_after := 0, pad_cols_before := 0, pad_cols_after := 0 }

/-- An input of depth 64. -/
def input28864 : Tensor := { dim_sizes := [2, 8, 8, 64] }

/-- A 3x3 filter of depth 32 with 64 output channels: with `input28864` there
are 2 groups. -/
def filter333264 : Tensor := { dim_sizes := [3, 3, 32, 64] }

/-! ## Tensor contents and Eigen expressions

The value-level model used for the grouped path and the matrix-multiply
shortcuts. A tensor is a shape with a row-major buffer; an Eigen expression
(`tensor<T,4>()`, `shaped<T,5>(dims)`, `shuffle`, `chip`) is a shape with a
coefficient function on index vectors. -/

/-- A tensor with its contents: the dimension sizes and the row-major buffer. -/
structure TensorBuf (α : Type) where
  dim_sizes : List Nat
  flat : Nat → α

/-- The call `tensor.dim_size(i)` on a tensor with contents. -/
def TensorBuf.dim_size {α : Type} (t : TensorBuf α) (i : Nat) : Nat := t.dim_sizes.getD i 0

/-- An Eigen tensor expression of rank `n`. -/
structure Expr (n : Nat) (α : Type) where
  dims : Fin n → Nat
  coeff : (Fin n → Nat) → α

/-- The row-major offset of a 4-D index. -/
def index4 (dims idx : Fin 4 → Nat) : Nat :=
  ((idx 0 * dims 1 + idx 1) * dims 2 + idx 2) * dims 3 + idx 3

/-- The row-major offset of a 5-D index. -/
def index5 (dims idx : Fin 5 → Nat) : Nat :=
  (((idx 0 * dims 1 + idx 1) * dims 2 + idx 2) * dims 3 + idx 3) * dims 4 + idx 4

/-- The 5-D index of a row-major offset. -/
def unravel5 (dims : Fin 5 → Nat) (k : Nat) : Fin 5 → Nat :=
  ![k / dims 4 / dims 3 / dims 2 / dims 1, k / dims 4 / dims 3 / dims 2 % dims 1,
    k / dims 4 / dims 3 % dims 2, k / dims 4 % dims 3, k % dims 4]

/-- A list of dimension sizes read as a function of the dimension. -/
def dimsFn {n : Nat} (dims : List Nat) : Fin n → Nat := fun j => dims.getD j 0

/-- The view `tensor.tensor<T, 4>()`. -/
def TensorBuf.tensor4 {α : Type} (t : TensorBuf α) : Expr 4 α :=
  { dims := dimsFn t.dim_sizes
    coeff := fun idx => t.flat (index4 (dimsFn t.dim_sizes) idx) }

/-- The view `tensor.shaped<T, 5>(dims)`: the same buffer read with other
dimension sizes. -/
def TensorBuf.shaped5 {α : Type} (t : TensorBuf α) (dims : List Nat) : Expr 5 α :=
  { dims := dimsFn dims
    coeff := fun idx => t.flat (index5 (dimsFn dims) idx) }

/-- The view `tensor.tensor<T, 5>()`. -/
def TensorBuf.tensor5 {α : Type} (t : TensorBuf α) : Expr 5 α := t.shaped5 t.dim_sizes

/-- The assignment `view.device(d) = expr` to the 5-D view, of the dimension
sizes `dims`, of a tensor of the dimension sizes `dim_sizes`: the buffer holds
the coefficients of the expression in row-major order. Positions beyond the
number of elements are never read. -/
def Expr.assign5 {α : Type} (dim_sizes dims : List Nat) (e : Expr 5 α) : TensorBuf α :=
  { dim_sizes := dim_sizes
    flat := fun k => e.coeff (unravel5 (dimsFn dims) k) }

/-- The source index of Eigen's `shuffle`: entry `i` of the result index is
entry `shuffle[i]` of the source index. -/
def shuffleIndex {n : Nat} (shuffle : Fin n → Fin n) (idx : Fin n → Nat) : Fin n → Nat :=
  fun j => ∑ i : Fin n, if shuffle i = j then idx i else 0

/-- The expression `expr.shuffle(shuffle)`: dimension `i` of the result is
dimension `shuffle[i]` of the source. -/
def Expr.shuffle {n : Nat} {α : Type} (e : Expr n α) (shuffle : Fin n → Fin n) : Expr n α :=
  { dims := fun i => e.dims (shuffle i)
    coeff := fun idx => e.coeff (shuffleIndex shuffle idx) }

/-- The expression `expr.chip<0>(i)`: the slice at offset `i` of dimension 0. -/
def Expr.chip0 {α : Type} (e : Expr 5 α) (i : Nat) : Expr 4 α :=
  { dims := fun j => e.dims j.succ
    coeff := fun idx => e.coeff (Fin.cons i idx) }

/-- The functor `SpatialConvolution` with its strides, dilations and padding
fixed: from the input and filter expressions and the dimension sizes of the
output slice to the coefficient written at each output index. It is declared
outside `conv_ops.cc` and is a parameter. -/
abbrev SpatialConvolutionFn (α : Type) : Type :=
  Expr 4 α → Expr 4 α → (Fin 4 → Nat) → (Fin 4 → Nat) → α

/-- An index that lies within the dimension sizes. -/
def InRange {n : Nat} (dims idx : Fin n → Nat) : Prop := ∀ j, idx j < dims j

/-- The assumption that the functor reads its two arguments within their
dimension sizes only: expressions of equal dimension sizes that agree on every
index in range give the same result. -/
def SpatialConvolutionFn.Local {α : Type} (conv : SpatialConvolutionFn α) : Prop :=
  ∀ (a a' b b' : Expr 4 α) (out_dims idx : Fin 4 → Nat),
    a.dims = a'.dims → b.dims = b'.dims →
    (∀ i, InRange a.dims i → a.coeff i = a'.coeff i) →
    (∀ i, InRange b.dims i → b.coeff i = b'.coeff i) →
    conv a b out_dims idx = conv a' b' out_dims idx

/-- The permutation `shuffle({3, 0, 1, 2, 4})` of line 164. -/
def groupShuffle : Fin 5 → Fin 5 := ![3, 0, 1, 2, 4]

/-- The permutation `rev_shuffle({1, 2, 3, 0, 4})` of line 238. -/
def groupRevShuffle : Fin 5 → Fin 5 := ![1, 2, 3, 0, 4]

/-- The lambda `pre_shuffle` of lines 167-170 on a tensor with contents. -/
def TensorBuf.pre_shuffle {α : Type} (num_groups : Nat) (tensor : TensorBuf α) : List Nat :=
  [tensor.dim_size 0, tensor.dim_size 1, tensor.dim_size 2, num_groups,
    tensor.dim_size 3 / num_groups]

/-- The lambda `post_shuffle` of lines 173-176 on a tensor with contents. -/
def TensorBuf.post_shuffle {α : Type} (num_groups : Nat) (tensor : TensorBuf α) : List Nat :=
  [num_groups, tensor.dim_size 0, tensor.dim_size 1, tensor.dim_size 2,
    tensor.dim_size 3 / num_groups]

/-- The values that `LaunchGrouped` (lines 148-242) writes: the tensor `output`
after the call. The temporaries `input_shuffled`, `filter_shuffled` and
`output_shuffled` are tensors of the `post_shuffle` sizes; for each group `i`,
slice `i` of `output_shuffled` is written by `SpatialConvolution` on the slices
`i` of the other two (lines 208-235). -/
def LaunchGrouped.output {α : Type} (conv : SpatialConvolutionFn α)
    (input filter output : TensorBuf α) : TensorBuf α :=
  let in_depth := input.dim_size 3
  let patch_depth := filter.dim_size 2
  let num_groups := in_depth / patch_depth
  let input_shuffled : TensorBuf α :=
    Expr.assign5 (input.post_shuffle num_groups) (input.post_shuffle num_groups)
      ((input.shaped5 (input.pre_shuffle num_groups)).shuffle groupShuffle)
  let filter_shuffled : TensorBuf α :=
    Expr.assign5 (filter.post_shuffle num_groups) (filter.post_shuffle num_groups)
      ((filter.shaped5 (filter.pre_shuffle num_groups)).shuffle groupShuffle)
  let output_shuffled : TensorBuf α :=
    Expr.assign5 (output.post_shuffle num_groups) (output.post_shuffle num_groups)
      { dims := dimsFn (output.post_shuffle num_groups)
        coeff := fun idx =>
          conv (input_shuffled.tensor5.chip0 (idx 0)) (filter_shuffled.tensor5.chip0 (idx 0))
            (fun j => dimsFn (output.post_shuffle num_groups) j.succ)
            (fun j => idx j.succ) }
  Expr.assign5 output.dim_sizes (output.pre_shuffle num_groups)
    (output_shuffled.tensor5.shuffle groupRevShuffle)

/-- The restriction of a 4-D expression to the `size` entries of its last
dimension that start at `i * size`: depth channels `[i*size, (i+1)*size)` of an
NHWC input, output channels `[i*size, (i+1)*size)` of an HWIO filter. -/
def Expr.channelSlice {α : Type} (e : Expr 4 α) (i size : Nat) : Expr 4 α :=
  { dims := ![e.dims 0, e.dims 1, e.dims 2, size]
    coeff := fun idx => e.coeff ![idx 0, idx 1, idx 2, i * size + idx 3] }

/-- The coefficient of a zero-padded NHWC input: `row` and `col` are positions in
the padded image whose first `pad_top` rows and `pad_left` columns are padding;
outside the image the value is 0. -/
def Expr.paddedAt {α : Type} [Zero α] (input : Expr 4 α) (b row col c pad_top pad_left : Nat) :
    α :=
  if b < input.dims 0 ∧ pad_top ≤ row ∧ row - pad_top < input.dims 1 ∧
      pad_left ≤ col ∧ col - pad_left < input.dims 2 ∧ c < input.dims 3 then
    input.coeff ![b, row - pad_top, col - pad_left, c]
  else 0

/-- The reference direct spatial convolution of an NHWC input with an HWIO
filter: `out[b,r,c,o]` is the sum over the filter window `(fr, fc)` and the
filter depth `i` of `in[b, r*stride + fr*dilation - pad, c*stride + fc*dilation
- pad, i] * filter[fr, fc, i, o]`, the input being zero outside its extent. -/
def referenceConv {α : Type} [Semiring α]
    (stride_rows stride_cols dilation_rows dilation_cols pad_top pad_left : Nat) :
    SpatialConvolutionFn α :=
  fun input filter _ idx =>
    ∑ fr ∈ Finset.range (filter.dims 0), ∑ fc ∈ Finset.range (filter.dims 1),
      ∑ i ∈ Finset.range (filter.dims 2),
        input.paddedAt (idx 0) (idx 1 * stride_rows + fr * dilation_rows)
            (idx 2 * stride_cols + fc * dilation_cols) i pad_top pad_left
          * (if idx 3 < filter.dims 3 then filter.coeff ![fr, fc, i, idx 3] else 0)

/-- An input `[1,1,1,2]` with the values 3 and 5 in its two channels. -/
def bufInput : TensorBuf Int :=
  { dim_sizes := [1, 1, 1, 2], flat := fun k => if k = 0 then 3 else 5 }

/-- A filter `[1,1,1,2]` with the values 7 and 11 for its two output channels. -/
def bufFilter : TensorBuf Int :=
  { dim_sizes := [1, 1, 1, 2], flat := fun k => if k = 0 then 7 else 11 }

/-- An output `[1,1,1,2]` before the call. -/
def bufOutput : TensorBuf Int :=
  { dim_sizes := [1, 1, 1, 2], flat := fun _ => 0 }

/-! ## The matrix-multiply shortcut for 1x1 filters, with contents -/

/-- The row-major offset of a 2-D index. -/
def index2 (dims idx : Fin 2 → Nat) : Nat := idx 0 * dims 1 + idx 1

/-- The call `tensor.NumElements()` on a tensor with contents. -/
def TensorBuf.NumElements {α : Type} (t : TensorBuf α) : Nat := t.dim_sizes.prod

/-- The view `tensor.shaped<T, 2>(sizes)`: the same buffer read as a matrix. The
view exists when the sizes are non-negative and describe the number of elements
of the tensor; otherwise there is none. -/
def TensorBuf.shaped2 {α : Type} (t : TensorBuf α) (sizes : List Int) : Option (Expr 2 α) :=
  if (∀ s ∈ sizes, 0 ≤ s) ∧ sizes.prod = (t.NumElements : Int) then
    some
      { dims := fun j => (sizes.getD j 0).toNat
        coeff := fun idx => t.flat (index2 (fun j => (sizes.getD j 0).toNat) idx) }
  else none

/-- Modelled from the spec: `MatMulConvFunctor` is declared outside the source
files (in `conv_2d.h`); the spec calls it "a dense matrix multiply over flattened
spatial x batch rows against the filter matrix". With the contraction pair
`(1, 0)` of lines 102-103, entry `(m, n)` of the product is the sum over `k` of
`in0(m, k) * in1(k, n)`. -/
def MatMulConvFunctor {α : Type} [Semiring α] (in0 in1 : Expr 2 α) : Expr 2 α :=
  { dims := ![in0.dims 0, in1.dims 1]
    coeff := fun idx => ∑ k ∈ Finset.range (in0.dims 1), in0.coeff ![idx 0, k] * in1.coeff ![k, idx 1] }

/-- The local `conv_width` of `LaunchGeneric` (lines 97-100), an `int`. -/
def convWidth {α : Type} (output : TensorBuf α) : Int :=
  (List.range 3).foldl (fun w i => toInt32 (w * (output.dim_size i : Int))) 1

/-- The call of `MatMulConvFunctor` on the three matrix views `out`, `in0` and
`in1` (lines 104-109 and 120-124): the tensor `output` after the call, when the
three views exist. -/
def LaunchGeneric.matmul {α : Type} [Semiring α] (output_dim_sizes : List Nat) :
    Option (Expr 2 α) → Option (Expr 2 α) → Option (Expr 2 α) → Option (TensorBuf α)
  | some out, some in0, some in1 =>
    some
      { dim_sizes := output_dim_sizes
        flat := fun k => (MatMulConvFunctor in0 in1).coeff ![k / out.dims 1, k % out.dims 1] }
  | _, _, _ => none

/-- The values written by the first branch of `LaunchGeneric` (lines 89-109):
the tensor `output` after the matrix multiplication, when the three matrix views
exist. -/
def LaunchGeneric.pointwise_output {α : Type} [Semiring α]
    (input filter output : TensorBuf α) : Option (TensorBuf α) :=
  let conv_width := convWidth output
  LaunchGeneric.matmul output.dim_sizes
    (output.shaped2 [conv_width, (filter.dim_size 3 : Int)])
    (input.shaped2 [conv_width, (filter.dim_size 2 : Int)])
    (filter.shaped2 [(filter.dim_size 2 : Int), (filter.dim_size 3 : Int)])

/-- An NHWC tensor `[641, 6700417, 1, 1]` of ones: it has `2^32 + 1` positions. -/
def bufHuge : TensorBuf Int :=
  { dim_sizes := [641, 6700417, 1, 1], flat := fun _ => 1 }

/-- The 1x1 filter `[1, 1, 1, 1]` with the value 1. -/
def bufFilterOne : TensorBuf Int :=
  { dim_sizes := [1, 1, 1, 1], flat := fun _ => 1 }

/-- An NHWC input `[1, 1, 2, 2]`: two positions with the channel values (1, 2)
and (3, 4). -/
def bufInput22 : TensorBuf Int :=
  { dim_sizes := [1, 1, 2, 2], flat := fun k => (k : Int) + 1 }

/-- A 1x1 filter `[1, 1, 2, 1]` with the weights 10 and 100. -/
def bufFilter21 : TensorBuf Int :=
  { dim_sizes := [1, 1, 2, 1], flat := fun k => if k = 0 then 10 else 100 }

/-- An output `[1, 1, 2, 1]` before the call. -/
def bufOutput21 : TensorBuf Int :=
  { dim_sizes := [1, 1, 2, 1], flat := fun _ => 0 }

/-- The values written by the second branch of `LaunchGeneric` (lines 110-124):
the tensor `output` after the matrix multiplication, when the three matrix views
exist. The local `k` is an `int`. -/
def LaunchGeneric.fullextent_output {α : Type} [Semiring α]
    (input filter output : TensorBuf α) : Option (TensorBuf α) :=
  let k : Int :=
    toInt32 ((filter.dim_size 0 : Int) * (filter.dim_size 1 : Int) * (filter.dim_size 2 : Int))
  LaunchGeneric.matmul output.dim_sizes
    (output.shaped2 [(input.dim_size 0 : Int), (filter.dim_size 3 : Int)])
    (input.shaped2 [(input.dim_size 0 : Int), k])
    (filter.shaped2 [k, (filter.dim_size 3 : Int)])

/-- An NHWC input `[1, 65536, 65536, 1]` of ones: it has `2^32` positions. -/
def bufFull : TensorBuf Int :=
  { dim_sizes := [1, 65536, 65536, 1], flat := fun _ => 1 }

/-- A filter `[65536, 65536, 1, 1]` of ones, as large as `bufFull`. -/
def bufFilterFull : TensorBuf Int :=
  { dim_sizes := [65536, 65536, 1, 1], flat := fun _ => 1 }

/-- An output `[1, 1, 1, 1]` before the call. -/
def bufOutputOne : TensorBuf Int :=
  { dim_sizes := [1, 1, 1, 1], flat := fun _ => 0 }

/-- The shape of `bufHuge`: `641 * 6700417 = 2^32 + 1` positions of depth 1. -/
def inputHuge : Tensor := { dim_sizes := [641, 6700417, 1, 1] }

/-- A 1x1 filter of depth 1 with one output channel. -/
def filter1111 : Tensor := { dim_sizes := [1, 1, 1, 1] }

/-- The shape of `bufFull`. -/
def inputFull : Tensor := { dim_sizes := [1, 65536, 65536, 1] }

/-- The shape of `bufFilterFull`. -/
def filterFull : Tensor := { dim_sizes := [65536, 65536, 1, 1] }

/-- An EXPLICIT convolution with unit strides and dilations that pads one row and
one column on every side. -/
def paramsExplicit : Conv2DParameters :=
  { dilations := [1, 1, 1, 1], strides := [1, 1, 1, 1], padding := Padding.EXPLICIT
    data_format := TensorFormat.FORMAT_NHWC, explicit_paddings := [0, 0, 1, 1, 1, 1, 0, 0] }

/-- An input without elements: no rows and no columns. -/
def inputEmpty : Tensor := { dim_sizes := [1, 0, 0, 1] }

/-- The dimensions resolved for `paramsExplicit`, `inputEmpty` and `filter1111`:
the output `[1, 2, 2, 1]` consists of padding. -/
def resolvedEmpty : Conv2DDimensions :=
  { batch := 1, input_rows := 0, input_cols := 0, in_depth := 1
    filter_rows := 1, filter_cols := 1, patch_depth := 1, out_depth := 1
    stride_rows := 1, stride_cols := 1, dilation_rows := 1, dilation_cols := 1
    out_rows := 2, out_cols := 2
    pad_rows_before := 1, pad_rows_after := 1, pad_cols_before := 1, pad_cols_after := 1 }

/-! ## The GPU launcher: workspace limit, compute layout, padding correction -/

/-- The result of 64-bit signed arithmetic: reduction modulo `2^64` into the
range of an `int64_t`. -/
def toInt64 (x : Int) : Int :=
  (x + 9223372036854775808) % 18446744073709551616 - 9223372036854775808

/-- The helpers of `GetDnnWorkspaceLimit` that are declared outside
`conv_ops.cc`: `getenv` (`none` is the null pointer) and
`strings::safe_strto64` (`none` when it returns false, otherwise the 64-bit value
it stores). -/
structure EnvExternals where
  getenv : String → Option String
  safe_strto64 : String → Option Int

/-- The function `GetDnnWorkspaceLimit` (lines 705-720). The product of line 713
is a product of 64-bit integers. -/
def GetDnnWorkspaceLimit (env : EnvExternals) (envvar_in_mb : String)
    (default_value_in_bytes : Int) : Int :=
  match env.getenv envvar_in_mb with
  | some workspace_limit_in_mb_str =>
    if workspace_limit_in_mb_str ≠ "" then
      match env.safe_strto64 workspace_limit_in_mb_str with
      | some scratch_limit_in_mb => toInt64 (scratch_limit_in_mb * 1048576)
      | none => default_value_in_bytes
    else default_value_in_bytes
  | none => default_value_in_bytes

/-- The function `GetDnnWorkspaceLimitOrDefault` (lines 722-725); `1LL << 33` is
8589934592. -/
def GetDnnWorkspaceLimitOrDefault (env : EnvExternals) : Int :=
  GetDnnWorkspaceLimit env "TF_CUDNN_WORKSPACE_LIMIT_IN_MB" 8589934592

/-- An environment in which `TF_CUDNN_WORKSPACE_LIMIT_IN_MB` is set to
`8796093022208` (`2^43`), which `safe_strto64` parses. -/
def envHuge : EnvExternals :=
  { getenv := fun name =>
      if name = "TF_CUDNN_WORKSPACE_LIMIT_IN_MB" then some "8796093022208" else none
    safe_strto64 := fun s => if s = "8796093022208" then some 8796093022208 else none }

/-- An environment in which `TF_CUDNN_WORKSPACE_LIMIT_IN_MB` is set to `4096`. -/
def env4096 : EnvExternals :=
  { getenv := fun name => if name = "TF_CUDNN_WORKSPACE_LIMIT_IN_MB" then some "4096" else none
    safe_strto64 := fun s => if s = "4096" then some 4096 else none }

/-- What lines 812-822 read of the build and of the device. With `GOOGLE_CUDA`
the stream reports whether its compute capability is at least Volta; a build
without it (ROCm) has no CUDA compute capability. -/
inductive GpuBuild where
  | GOOGLE_CUDA (IsAtLeastVolta : Bool)
  | TENSORFLOW_USE_ROCM
deriving DecidableEq, Repr

/-- The local `compute_in_nhwc` of lines 812-822. -/
def compute_in_nhwc (build : GpuBuild) (dtype : DataType) : Bool :=
  match build with
  | GpuBuild.GOOGLE_CUDA IsAtLeastVolta => decide (dtype = DataType.DT_HALF) && IsAtLeastVolta
  | GpuBuild.TENSORFLOW_USE_ROCM => false

/-- The local `compute_data_format` of lines 828-830. -/
def compute_data_format (build : GpuBuild) (dtype : DataType) (data_format : TensorFormat) :
    TensorFormat :=
  if compute_in_nhwc build dtype = true ∧ data_format = TensorFormat.FORMAT_NHWC then
    TensorFormat.FORMAT_NHWC
  else TensorFormat.FORMAT_NCHW

/-- The lambda `transform_filter` of lines 987-1006: the shape of the
transformed filter, or the status of the failed allocation. -/
def transform_filter (env : KernelEnv) (filter : Tensor) (dst_format : FilterTensorFormat) :
    StatusOr (List Int) :=
  let dst_shape : List Int :=
    if dst_format = FilterTensorFormat.FORMAT_OIHW then
      [filter.dim_size 3, filter.dim_size 2, filter.dim_size 0, filter.dim_size 1]
    else [filter.dim_size 3, filter.dim_size 0, filter.dim_size 1, filter.dim_size 2]
  match env.allocate_temp dst_shape with
  | .error status => .error status
  | .ok _ => .ok dst_shape

/-- The branch of lines 1008-1016: the format the filter is transformed to with
the shape of the transformed filter, or the status set. -/
def LaunchConv2DOpGPU.transformFilter (env : KernelEnv) (filter : Tensor)
    (compute_data_format : TensorFormat) : StatusOr (FilterTensorFormat × List Int) :=
  if compute_data_format = TensorFormat.FORMAT_NCHW then
    match transform_filter env filter FilterTensorFormat.FORMAT_OIHW with
    | .error status => .error status
    | .ok shape => .ok (FilterTensorFormat.FORMAT_OIHW, shape)
  else if compute_data_format = TensorFormat.FORMAT_NHWC then
    match transform_filter env filter FilterTensorFormat.FORMAT_OHWI with
    | .error status => .error status
    | .ok shape => .ok (FilterTensorFormat.FORMAT_OHWI, shape)
  else .error (errors.InvalidArgument "Invalid compute data format: " [])

/-- The call of `functor::PadInput` of lines 903-909: the four paddings, which
are passed as `int`, and the shape of `transformed_input`. -/
structure PadInputCall where
  input_pad_top : Int
  input_pad_left : Int
  input_pad_bottom : Int
  input_pad_right : Int
  transformed_input : List Int
deriving DecidableEq, Repr

/-- What lines 862-914 leave behind: the call of `PadInput` when it was made, the
input extents `in_rows` and `in_cols` after the block, and the paddings
`common_padding_rows` and `common_padding_cols` that lines 981-982 give to the
convolution descriptor. -/
structure PaddedInput where
  pad_input : Option PadInputCall
  in_rows : Int
  in_cols : Int
  common_padding_rows : Int
  common_padding_cols : Int
deriving DecidableEq, Repr

/-- The status of line 900. -/
def paddingTooLarge : Status := errors.InvalidArgument "Padding is too large." []

/-- Lines 862-914 of `LaunchConv2DOp<GPUDevice, T>::operator()`, from the four
paddings returned by `GetWindowedOutputSizeVerboseV2` (lines 849-860), which are
never negative, so that their differences are exact; the sums of lines 882-883
are 64-bit sums. -/
def LaunchConv2DOpGPU.padInput (ext : Externals) (env : KernelEnv) (data_format : TensorFormat)
    (in_batch in_rows in_cols in_depths : Int)
    (padding_top padding_bottom padding_left padding_right : Int) : StatusOr PaddedInput :=
  let common_padding_rows := min padding_top padding_bottom
  let common_padding_cols := min padding_left padding_right
  if padding_top ≠ padding_bottom ∨ padding_left ≠ padding_right then
    let padding_rows_diff : Int := (padding_bottom - padding_top).natAbs
    let padding_cols_diff : Int := (padding_right - padding_left).natAbs
    let new_in_rows := toInt64 (in_rows + padding_rows_diff)
    let new_in_cols := toInt64 (in_cols + padding_cols_diff)
    let shape := env.ShapeFromFormat data_format in_batch new_in_rows new_in_cols in_depths
    match env.allocate_temp shape with
    | .error status => .error status
    | .ok _ =>
      let input_pad_top := padding_top - common_padding_rows
      let input_pad_bottom := padding_bottom - common_padding_rows
      let input_pad_left := padding_left - common_padding_cols
      let input_pad_right := padding_right - common_padding_cols
      let in_bounds :=
        ext.FastBoundsCheck input_pad_top intMax && ext.FastBoundsCheck input_pad_bottom intMax &&
          ext.FastBoundsCheck input_pad_left intMax && ext.FastBoundsCheck input_pad_right intMax
      if !in_bounds then .error paddingTooLarge
      else
        .ok
          { pad_input :=
              some
                { input_pad_top := toInt32 input_pad_top
                  input_pad_left := toInt32 input_pad_left
                  input_pad_bottom := toInt32 input_pad_bottom
                  input_pad_right := toInt32 input_pad_right
                  transformed_input := shape }
            in_rows := new_in_rows
            in_cols := new_in_cols
            common_padding_rows := common_padding_rows
            common_padding_cols := common_padding_cols }
  else
    .ok
      { pad_input := none
        in_rows := in_rows
        in_cols := in_cols
        common_padding_rows := common_padding_rows
        common_padding_cols := common_padding_cols }

/-- The assumption that the outside helpers `GetTensorDim` and `GetFilterDim`
read the dimensions of an NHWC shape and of an HWIO filter shape by position
(comments of lines 607-608 and 611-612). -/
def Externals.ReadsNHWC (ext : Externals) : Prop :=
  (∀ dims c, ext.GetTensorDim dims TensorFormat.FORMAT_NHWC c = dims.getD (nhwcIndex c) 0) ∧
  (∀ dims c, ext.GetFilterDim dims FilterTensorFormat.FORMAT_HWIO c
    = dims.getD (hwioIndex c) 0)

end tensorflow

namespace stream_executor

/-! ## Lemmas on the cache operations -/

theorem findEntry_nil {κ : Type} [DecidableEq κ] (k : κ) :
    findEntry ([] : Cache κ) k = none := rfl

theorem findEntry_cons {κ : Type} [DecidableEq κ] (k k' : κ) (e : Entry) (rest : Cache κ) :
    findEntry ((k', e) :: rest) k = if k' = k then some e else findEntry rest k := by
  unfold findEntry
  by_cases h : k' = k <;> simp [List.find?, h]

theorem findEntry_append_singleton {κ : Type} [DecidableEq κ] (cache_ : Cache κ)
    (k k' : κ) (e : Entry) :
    findEntry (cache_ ++ [(k', e)]) k
      = match findEntry cache_ k with
        | some e0 => some e0
        | none => if k' = k then some e else none := by
  induction cache_ with
  | nil => simp [findEntry_cons, findEntry_nil]
  | cons p rest ih =>
    obtain ⟨k0, e0⟩ := p
    rw [List.cons_append, findEntry_cons, findEntry_cons]
    by_cases h : k0 = k
    · simp [h]
    · simp [h, ih]

theorem Get_of_no_stream {κ : Type} [DecidableEq κ] (keyOf : StreamExecutorConfig → κ)
    (cache_ : Cache κ) (config : StreamExecutorConfig) (h : config.gpu_stream = none) :
    Get keyOf cache_ config = lookupIn config (configurationsAt cache_ (keyOf config)) := by
  unfold Get lookupIn configurationsAt entryAt
  rw [h]
  cases hfe : findEntry cache_ (keyOf config) with
  | none => simp
  | some entry => simp

theorem configurationsAt_insertIfAbsent {κ : Type} [DecidableEq κ] (cache_ : Cache κ)
    (k k' : κ) :
    configurationsAt (insertIfAbsent cache_ k) k' = configurationsAt cache_ k' := by
  unfold configurationsAt entryAt insertIfAbsent
  cases hk : findEntry cache_ k with
  | some e => simp
  | none =>
    simp only [findEntry_append_singleton]
    cases hk' : findEntry cache_ k' with
    | some e' => simp
    | none =>
      by_cases h : k = k'
      · simp [h]
      · simp [h]

theorem findEntry_insertIfAbsent_self {κ : Type} [DecidableEq κ] (cache_ : Cache κ) (k : κ) :
    findEntry (insertIfAbsent cache_ k) k = some (entryAt cache_ k) := by
  unfold insertIfAbsent entryAt
  cases hk : findEntry cache_ k with
  | some e => simp [hk]
  | none => simp [findEntry_append_singleton, hk]

theorem findStreamOwner_append_empty {κ : Type} (gpu_stream : Nat) (cache_ : Cache κ) (k : κ) :
    findStreamOwner gpu_stream (cache_ ++ [(k, { configurations := [] })])
      = findStreamOwner gpu_stream cache_ := by
  induction cache_ with
  | nil => simp [findStreamOwner]
  | cons p rest ih =>
    obtain ⟨k0, e0⟩ := p
    simp only [List.cons_append, findStreamOwner, List.append_eq, ih]

theorem findStreamOwner_insertIfAbsent {κ : Type} [DecidableEq κ] (gpu_stream : Nat)
    (cache_ : Cache κ) (k : κ) :
    findStreamOwner gpu_stream (insertIfAbsent cache_ k) = findStreamOwner gpu_stream cache_ := by
  unfold insertIfAbsent
  cases hk : findEntry cache_ k with
  | some e => simp
  | none => simp [findStreamOwner_append_empty]

theorem Get_insertIfAbsent {κ : Type} [DecidableEq κ] (keyOf : StreamExecutorConfig → κ)
    (cache_ : Cache κ) (k : κ) (config : StreamExecutorConfig) :
    Get keyOf (insertIfAbsent cache_ k) config = Get keyOf cache_ config := by
  cases hs : config.gpu_stream with
  | none =>
    rw [Get_of_no_stream keyOf _ config hs, Get_of_no_stream keyOf _ config hs,
      configurationsAt_insertIfAbsent]
  | some s =>
    unfold Get
    simp only [hs, findStreamOwner_insertIfAbsent]

theorem findEntry_emplaceBack {κ : Type} [DecidableEq κ] (k k' : κ)
    (item : StreamExecutorConfig × StreamExecutor) (cache_ : Cache κ) :
    findEntry (emplaceBack k item cache_) k'
      = if k' = k then
          (findEntry cache_ k).map (fun e => { configurations := e.configurations ++ [item] })
        else findEntry cache_ k' := by
  induction cache_ with
  | nil => simp [emplaceBack, findEntry_nil]
  | cons p rest ih =>
    obtain ⟨k0, e0⟩ := p
    unfold emplaceBack
    by_cases h0 : k0 = k
    · subst h0
      by_cases h1 : k' = k0
      · subst h1
        simp [findEntry_cons]
      · have h2 : ¬ k0 = k' := fun h => h1 h.symm
        simp [findEntry_cons, h1, h2]
    · by_cases h1 : k' = k
      · subst h1
        simp [h0, findEntry_cons, ih]
      · by_cases h2 : k0 = k'
        · simp [h0, h1, h2, findEntry_cons]
        · simp [h0, h1, h2, findEntry_cons, ih]

theorem configurationsAt_emplaceBack {κ : Type} [DecidableEq κ] (k k' : κ)
    (item : StreamExecutorConfig × StreamExecutor) (cache_ : Cache κ) (e : Entry)
    (he : findEntry cache_ k = some e) :
    configurationsAt (emplaceBack k item cache_) k'
      = if k' = k then configurationsAt cache_ k ++ [item] else configurationsAt cache_ k' := by
  unfold configurationsAt entryAt
  rw [findEntry_emplaceBack]
  by_cases h : k' = k
  · simp [h, he]
  · simp [h]

theorem sameOptions_self (config : StreamExecutorConfig) (executor : StreamExecutor) :
    sameOptions config (config, executor) = true := by
  simp [sameOptions]

theorem lookupIn_of_find {config : StreamExecutorConfig}
    {l : List (StreamExecutorConfig × StreamExecutor)}
    {iter : StreamExecutorConfig × StreamExecutor}
    (h : l.find? (sameOptions config) = some iter) : lookupIn config l = .ok iter.2 := by
  unfold lookupIn
  cases l with
  | nil => simp at h
  | cons a t => simp only [List.isEmpty_cons, Bool.false_eq_true, if_false, h]

theorem lookupIn_ok_iff (config : StreamExecutorConfig)
    (l : List (StreamExecutorConfig × StreamExecutor)) (r : StreamExecutor) :
    lookupIn config l = .ok r ↔
      ∃ iter, l.find? (sameOptions config) = some iter ∧ iter.2 = r := by
  constructor
  · intro h
    unfold lookupIn at h
    cases l with
    | nil => simp at h
    | cons a t =>
      simp only [List.isEmpty_cons, Bool.false_eq_true, if_false] at h
      cases hf : List.find? (sameOptions config) (a :: t) with
      | none => rw [hf] at h; simp at h
      | some iter =>
        rw [hf] at h
        refine ⟨iter, rfl, ?_⟩
        simpa using h
  · rintro ⟨iter, hf, rfl⟩
    exact lookupIn_of_find hf

theorem lookupIn_append {config : StreamExecutorConfig}
    {l : List (StreamExecutorConfig × StreamExecutor)} {r : StreamExecutor}
    (h : lookupIn config l = .ok r) (t : List (StreamExecutorConfig × StreamExecutor)) :
    lookupIn config (l ++ t) = .ok r := by
  obtain ⟨iter, hf, hr⟩ := (lookupIn_ok_iff config l r).1 h
  refine (lookupIn_ok_iff config (l ++ t) r).2 ⟨iter, ?_, hr⟩
  rw [List.find?_append, hf]
  rfl

theorem entryAt_insertIfAbsent {κ : Type} [DecidableEq κ] (cache_ : Cache κ) (k : κ) :
    (entryAt (insertIfAbsent cache_ k) k).configurations = configurationsAt cache_ k :=
  configurationsAt_insertIfAbsent cache_ k k

theorem GetOrCreate_hit {κ : Type} [DecidableEq κ] (keyOf : StreamExecutorConfig → κ)
    (cache_ : Cache κ) (config : StreamExecutorConfig) (factory : ExecutorFactory)
    (executor : StreamExecutor) (hget : Get keyOf cache_ config = .ok executor) :
    GetOrCreate keyOf cache_ config factory
      = { result := .ok executor, cache_ := cache_, factory_calls := 0 } := by
  unfold GetOrCreate
  rw [hget]

theorem GetOrCreate_rescan_hit {κ : Type} [DecidableEq κ] (keyOf : StreamExecutorConfig → κ)
    (cache_ : Cache κ) (config : StreamExecutorConfig) (factory : ExecutorFactory)
    (st : Status) (iter : StreamExecutorConfig × StreamExecutor)
    (hget : Get keyOf cache_ config = .error st)
    (hfind : (configurationsAt cache_ (keyOf config)).find? (sameOptions config) = some iter) :
    GetOrCreate keyOf cache_ config factory
      = { result := .ok iter.2, cache_ := insertIfAbsent cache_ (keyOf config),
          factory_calls := 0 } := by
  unfold GetOrCreate
  rw [hget]
  simp only [entryAt_insertIfAbsent, hfind]

theorem GetOrCreate_failed {κ : Type} [DecidableEq κ] (keyOf : StreamExecutorConfig → κ)
    (cache_ : Cache κ) (config : StreamExecutorConfig) (factory : ExecutorFactory)
    (st status : Status)
    (hget : Get keyOf cache_ config = .error st)
    (hfind : (configurationsAt cache_ (keyOf config)).find? (sameOptions config) = none)
    (hfac : factory () = .error status) :
    GetOrCreate keyOf cache_ config factory
      = { result := .error status, cache_ := insertIfAbsent cache_ (keyOf config),
          factory_calls := 1 } := by
  unfold GetOrCreate
  rw [hget]
  simp only [entryAt_insertIfAbsent, hfind, hfac]

theorem GetOrCreate_created {κ : Type} [DecidableEq κ] (keyOf : StreamExecutorConfig → κ)
    (cache_ : Cache κ) (config : StreamExecutorConfig) (factory : ExecutorFactory)
    (st : Status) (executor : StreamExecutor)
    (hget : Get keyOf cache_ config = .error st)
    (hfind : (configurationsAt cache_ (keyOf config)).find? (sameOptions config) = none)
    (hfac : factory () = .ok executor) :
    GetOrCreate keyOf cache_ config factory
      = { result := .ok executor
          cache_ := emplaceBack (keyOf config) (config, executor)
            (insertIfAbsent cache_ (keyOf config))
          factory_calls := 1 } := by
  unfold GetOrCreate
  rw [hget]
  simp only [entryAt_insertIfAbsent, hfind, hfac]

/-- The four ways a call of `GetOrCreate` can go. -/
theorem GetOrCreate_cases {κ : Type} [DecidableEq κ] (keyOf : StreamExecutorConfig → κ)
    (cache_ : Cache κ) (config : StreamExecutorConfig) (factory : ExecutorFactory) :
    (∃ executor, Get keyOf cache_ config = .ok executor ∧
      GetOrCreate keyOf cache_ config factory
        = { result := .ok executor, cache_ := cache_, factory_calls := 0 }) ∨
    (∃ st iter, Get keyOf cache_ config = .error st ∧
      (configurationsAt cache_ (keyOf config)).find? (sameOptions config) = some iter ∧
      GetOrCreate keyOf cache_ config factory
        = { result := .ok iter.2, cache_ := insertIfAbsent cache_ (keyOf config),
            factory_calls := 0 }) ∨
    (∃ st status, Get keyOf cache_ config = .error st ∧
      (configurationsAt cache_ (keyOf config)).find? (sameOptions config) = none ∧
      factory () = .error status ∧
      GetOrCreate keyOf cache_ config factory
        = { result := .error status, cache_ := insertIfAbsent cache_ (keyOf config),
            factory_calls := 1 }) ∨
    (∃ st executor, Get keyOf cache_ config = .error st ∧
      (configurationsAt cache_ (keyOf config)).find? (sameOptions config) = none ∧
      factory () = .ok executor ∧
      GetOrCreate keyOf cache_ config factory
        = { result := .ok executor
            cache_ := emplaceBack (keyOf config) (config, executor)
              (insertIfAbsent cache_ (keyOf config))
            factory_calls := 1 }) := by
  cases hget : Get keyOf cache_ config with
  | ok executor => exact Or.inl ⟨executor, rfl, GetOrCreate_hit _ _ _ _ _ hget⟩
  | error st =>
    cases hfind : (configurationsAt cache_ (keyOf config)).find? (sameOptions config) with
    | some iter =>
      exact Or.inr (Or.inl ⟨st, iter, rfl, rfl, GetOrCreate_rescan_hit _ _ _ _ _ _ hget hfind⟩)
    | none =>
      cases hfac : factory () with
      | error status =>
        exact Or.inr (Or.inr (Or.inl
          ⟨st, status, rfl, rfl, rfl, GetOrCreate_failed _ _ _ _ _ _ hget hfind hfac⟩))
      | ok executor =>
        exact Or.inr (Or.inr (Or.inr
          ⟨st, executor, rfl, rfl, rfl, GetOrCreate_created _ _ _ _ _ _ hget hfind hfac⟩))

/-- One call of `GetOrCreate` only appends to the stored lists. -/
theorem GetOrCreate_configurationsAt {κ : Type} [DecidableEq κ]
    (keyOf : StreamExecutorConfig → κ) (cache_ : Cache κ) (config : StreamExecutorConfig)
    (factory : ExecutorFactory) (k : κ) :
    ∃ t, configurationsAt (GetOrCreate keyOf cache_ config factory).cache_ k
      = configurationsAt cache_ k ++ t := by
  rcases GetOrCreate_cases keyOf cache_ config factory with
    ⟨executor, _, h⟩ | ⟨st, iter, _, _, h⟩ | ⟨st, status, _, _, _, h⟩ | ⟨st, executor, _, _, _, h⟩
  · exact ⟨[], by rw [h]; simp⟩
  · exact ⟨[], by rw [h]; simp [configurationsAt_insertIfAbsent]⟩
  · exact ⟨[], by rw [h]; simp [configurationsAt_insertIfAbsent]⟩
  · rw [h]
    simp only
    rw [configurationsAt_emplaceBack _ _ _ _ _ (findEntry_insertIfAbsent_self cache_ _)]
    by_cases hk : k = keyOf config
    · exact ⟨[(config, executor)], by simp [hk, configurationsAt_insertIfAbsent]⟩
    · exact ⟨[], by simp [hk, configurationsAt_insertIfAbsent]⟩

theorem findEntry_insertIfAbsent_isSome {κ : Type} [DecidableEq κ] (cache_ : Cache κ)
    (k k' : κ) (h : (findEntry cache_ k').isSome = true) :
    (findEntry (insertIfAbsent cache_ k) k').isSome = true := by
  unfold insertIfAbsent
  cases hk : findEntry cache_ k with
  | some e => simpa using h
  | none =>
    simp only [findEntry_append_singleton]
    cases hk' : findEntry cache_ k' with
    | some e' => simp
    | none => rw [hk'] at h; simp at h

theorem findEntry_emplaceBack_isSome {κ : Type} [DecidableEq κ] (cache_ : Cache κ)
    (k k' : κ) (item : StreamExecutorConfig × StreamExecutor)
    (h : (findEntry cache_ k').isSome = true) :
    (findEntry (emplaceBack k item cache_) k').isSome = true := by
  rw [findEntry_emplaceBack]
  by_cases hk : k' = k
  · subst hk
    simpa using h
  · simpa [hk] using h

/-- One call of `GetOrCreate` removes no entry. -/
theorem GetOrCreate_findEntry_isSome {κ : Type} [DecidableEq κ]
    (keyOf : StreamExecutorConfig → κ) (cache_ : Cache κ) (config : StreamExecutorConfig)
    (factory : ExecutorFactory) (k : κ) (h : (findEntry cache_ k).isSome = true) :
    (findEntry (GetOrCreate keyOf cache_ config factory).cache_ k).isSome = true := by
  rcases GetOrCreate_cases keyOf cache_ config factory with
    ⟨executor, _, hg⟩ | ⟨st, iter, _, _, hg⟩ | ⟨st, status, _, _, _, hg⟩ |
    ⟨st, executor, _, _, _, hg⟩
  · rw [hg]; exact h
  · rw [hg]; exact findEntry_insertIfAbsent_isSome _ _ _ h
  · rw [hg]; exact findEntry_insertIfAbsent_isSome _ _ _ h
  · rw [hg]
    exact findEntry_emplaceBack_isSome _ _ _ _ (findEntry_insertIfAbsent_isSome _ _ _ h)

/-- After a successful `GetOrCreate` without live handle, `Get` finds the
returned executor. -/
theorem Get_after_GetOrCreate {κ : Type} [DecidableEq κ]
    (keyOf : StreamExecutorConfig → κ) (cache_ : Cache κ) (config : StreamExecutorConfig)
    (factory : ExecutorFactory) (r : StreamExecutor) (hs : config.gpu_stream = none)
    (h : (GetOrCreate keyOf cache_ config factory).result = .ok r) :
    Get keyOf (GetOrCreate keyOf cache_ config factory).cache_ config = .ok r := by
  rcases GetOrCreate_cases keyOf cache_ config factory with
    ⟨executor, hget, hg⟩ | ⟨st, iter, hget, hfind, hg⟩ | ⟨st, status, _, _, _, hg⟩ |
    ⟨st, executor, hget, hfind, hfac, hg⟩
  · rw [hg] at h ⊢
    simp only at h ⊢
    rw [hget]; exact h
  · rw [hg] at h ⊢
    simp only at h ⊢
    rw [Get_insertIfAbsent, Get_of_no_stream keyOf _ _ hs, lookupIn_of_find hfind]
    exact h
  · rw [hg] at h
    simp at h
  · rw [hg] at h ⊢
    simp only at h ⊢
    have hr : executor = r := by simpa using h
    subst hr
    rw [Get_of_no_stream keyOf _ _ hs,
      configurationsAt_emplaceBack _ _ _ _ _ (findEntry_insertIfAbsent_self cache_ _)]
    simp only [if_true, configurationsAt_insertIfAbsent]
    refine (lookupIn_ok_iff _ _ _).2 ⟨(config, executor), ?_, rfl⟩
    rw [List.find?_append, hfind]
    simp [List.find?, sameOptions_self]

/-! ## Properties of the executor cache -/

/-- C1 (cache identity, sequential): for a config without live handle, when
`GetOrCreate` returns an executor `r`, an immediately following `GetOrCreate`
for the same config returns `r` again, does not invoke its factory, and leaves
the cache as it is. -/
theorem GetOrCreate_twice_same_executor {κ : Type} [DecidableEq κ]
    (keyOf : StreamExecutorConfig → κ) (cache_ : Cache κ) (k : StreamExecutorConfig)
    (f f' : ExecutorFactory) (r : StreamExecutor)
    (hk : k.gpu_stream = none)
    (h : (GetOrCreate keyOf cache_ k f).result = .ok r) :
    (GetOrCreate keyOf (GetOrCreate keyOf cache_ k f).cache_ k f').result = .ok r ∧
    (GetOrCreate keyOf (GetOrCreate keyOf cache_ k f).cache_ k f').factory_calls = 0 ∧
    (GetOrCreate keyOf (GetOrCreate keyOf cache_ k f).cache_ k f').cache_
      = (GetOrCreate keyOf cache_ k f).cache_ := by
  have hget := Get_after_GetOrCreate keyOf cache_ k f r hk h
  rw [GetOrCreate_hit keyOf _ k f' r hget]
  exact ⟨rfl, rfl, rfl⟩

/-- An instance of C1: two calls for `configA` on the empty cache, the second with
another factory. -/
theorem GetOrCreate_twice_same_executor_witness :
    configA.gpu_stream = none ∧
    (GetOrCreate ordinalHashKey [] configA factoryA).result = .ok executorA ∧
    (GetOrCreate ordinalHashKey (GetOrCreate ordinalHashKey [] configA factoryA).cache_
      configA factoryB).result = .ok executorA ∧
    (GetOrCreate ordinalHashKey (GetOrCreate ordinalHashKey [] configA factoryA).cache_
      configA factoryB).factory_calls = 0 ∧
    (GetOrCreate ordinalHashKey (GetOrCreate ordinalHashKey [] configA factoryA).cache_
      configA factoryB).cache_ = (GetOrCreate ordinalHashKey [] configA factoryA).cache_ :=
  ⟨rfl, rfl,
    GetOrCreate_twice_same_executor ordinalHashKey [] configA factoryA factoryB executorA rfl rfl⟩

/-- C2 (negative results are not cached): for a config without live handle
and without matching stored pair, when the factory `f` fails, `GetOrCreate`
fails with the status of `f`; a following `GetOrCreate` for the same config
invokes its factory `g` exactly once, returns the executor of `g` when `g`
succeeds and the status of `g` when `g` fails. -/
theorem GetOrCreate_retries_after_failure {κ : Type} [DecidableEq κ]
    (keyOf : StreamExecutorConfig → κ) (cache_ : Cache κ) (k : StreamExecutorConfig)
    (f g : ExecutorFactory) (status : Status)
    (hk : k.gpu_stream = none)
    (hmiss : (configurationsAt cache_ (keyOf k)).find? (sameOptions k) = none)
    (hf : f () = .error status) :
    (GetOrCreate keyOf cache_ k f).result = .error status ∧
    (GetOrCreate keyOf (GetOrCreate keyOf cache_ k f).cache_ k g).factory_calls = 1 ∧
    (GetOrCreate keyOf (GetOrCreate keyOf cache_ k f).cache_ k g).result = g () := by
  have hget : ∃ st, Get keyOf cache_ k = .error st := by
    rw [Get_of_no_stream keyOf _ _ hk]
    cases hl : lookupIn k (configurationsAt cache_ (keyOf k)) with
    | error st => exact ⟨st, rfl⟩
    | ok r =>
      obtain ⟨iter, hfind, _⟩ := (lookupIn_ok_iff _ _ _).1 hl
      rw [hmiss] at hfind
      simp at hfind
  obtain ⟨st, hget⟩ := hget
  rw [GetOrCreate_failed keyOf cache_ k f st status hget hmiss hf]
  simp only [true_and]
  have hget' : Get keyOf (insertIfAbsent cache_ (keyOf k)) k = .error st := by
    rw [Get_insertIfAbsent]; exact hget
  have hmiss' : (configurationsAt (insertIfAbsent cache_ (keyOf k)) (keyOf k)).find?
      (sameOptions k) = none := by
    rw [configurationsAt_insertIfAbsent]; exact hmiss
  cases hg : g () with
  | error sg =>
    rw [GetOrCreate_failed keyOf _ k g st sg hget' hmiss' hg]
    exact ⟨rfl, rfl⟩
  | ok executor =>
    rw [GetOrCreate_created keyOf _ k g st executor hget' hmiss' hg]
    exact ⟨rfl, rfl⟩

/-- An instance of C2: `configB` misses in `cacheA`, the first factory fails and
the second builds `executorB`. -/
theorem GetOrCreate_retries_after_failure_witness :
    configB.gpu_stream = none ∧
    (configurationsAt cacheA (ordinalHashKey configB)).find? (sameOptions configB) = none ∧
    factoryFail () = .error buildFailed ∧
    (GetOrCreate ordinalHashKey cacheA configB factoryFail).result = .error buildFailed ∧
    (GetOrCreate ordinalHashKey (GetOrCreate ordinalHashKey cacheA configB factoryFail).cache_
      configB factoryB).factory_calls = 1 ∧
    (GetOrCreate ordinalHashKey (GetOrCreate ordinalHashKey cacheA configB factoryFail).cache_
      configB factoryB).result = factoryB () :=
  ⟨rfl, rfl, rfl,
    GetOrCreate_retries_after_failure ordinalHashKey cacheA configB factoryFail factoryB
      buildFailed rfl rfl rfl⟩

/-- C3 (atomicity on construction failure): when `GetOrCreate` invokes its
factory and the factory returns an error, `GetOrCreate` returns exactly that
error, the list of pairs stored under every key is the same after the call as
before it, and `Get` returns the same result after the call as before it for
every config. -/
theorem GetOrCreate_failure_leaves_cache {κ : Type} [DecidableEq κ]
    (keyOf : StreamExecutorConfig → κ) (cache_ : Cache κ) (config : StreamExecutorConfig)
    (factory : ExecutorFactory) (status : Status)
    (hf : factory () = .error status)
    (hcall : (GetOrCreate keyOf cache_ config factory).factory_calls = 1) :
    (GetOrCreate keyOf cache_ config factory).result = .error status ∧
    (∀ k, configurationsAt (GetOrCreate keyOf cache_ config factory).cache_ k
      = configurationsAt cache_ k) ∧
    (∀ c, Get keyOf (GetOrCreate keyOf cache_ config factory).cache_ c
      = Get keyOf cache_ c) := by
  rcases GetOrCreate_cases keyOf cache_ config factory with
    ⟨executor, _, hg⟩ | ⟨st, iter, _, _, hg⟩ | ⟨st, status', _, _, hfac, hg⟩ |
    ⟨st, executor, _, _, hfac, hg⟩
  · rw [hg] at hcall; simp at hcall
  · rw [hg] at hcall; simp at hcall
  · rw [hg]
    rw [hf] at hfac
    have hst : status = status' := by simpa using hfac
    subst hst
    exact ⟨rfl, fun k => configurationsAt_insertIfAbsent _ _ _,
      fun c => Get_insertIfAbsent _ _ _ _⟩
  · rw [hf] at hfac; simp at hfac

/-- An instance of C3: a failing construction for a key that had no entry. -/
theorem GetOrCreate_failure_leaves_cache_witness :
    factoryFail () = .error buildFailed ∧
    (GetOrCreate ordinalHashKey [] configA factoryFail).factory_calls = 1 ∧
    (GetOrCreate ordinalHashKey [] configA factoryFail).result = .error buildFailed ∧
    (∀ k, configurationsAt (GetOrCreate ordinalHashKey [] configA factoryFail).cache_ k
      = configurationsAt [] k) ∧
    (∀ c, Get ordinalHashKey (GetOrCreate ordinalHashKey [] configA factoryFail).cache_ c
      = Get ordinalHashKey [] c) :=
  ⟨rfl, rfl,
    GetOrCreate_failure_leaves_cache ordinalHashKey [] configA factoryFail buildFailed
      rfl rfl⟩

theorem findStreamOwner_eq_find {κ : Type} (gpu_stream : Nat) (cache_ : Cache κ) :
    findStreamOwner gpu_stream cache_
      = ((allConfigurations cache_).find? (fun p => p.2.FindAllocatedStream gpu_stream)).map
          (fun p => p.2) := by
  induction cache_ with
  | nil => rfl
  | cons p rest ih =>
    obtain ⟨k0, e0⟩ := p
    unfold allConfigurations at ih ⊢
    rw [List.flatMap_cons, List.find?_append]
    unfold findStreamOwner
    cases hf : List.find? (fun p => p.2.FindAllocatedStream gpu_stream) e0.configurations with
    | some q => simp
    | none => simp [ih]

/-- C5 (reverse lookup by live handle): for a config whose `gpu_stream` is set,
`Get` returns the first stored executor, in map order and then list order, for
which `FindAllocatedStream` succeeds, and NOT_FOUND when no stored executor owns
the stream; the result is the same for every config with that `gpu_stream` and
for every choice of key. -/
theorem Get_by_stream {κ : Type} [DecidableEq κ]
    (keyOf : StreamExecutorConfig → κ) (cache_ : Cache κ) (config : StreamExecutorConfig)
    (gpu_stream : Nat) (hs : config.gpu_stream = some gpu_stream) :
    Get keyOf cache_ config
      = (match (allConfigurations cache_).find?
            (fun p => p.2.FindAllocatedStream gpu_stream) with
         | some p => .ok p.2
         | none => .error (noExecutorsOwnStream gpu_stream)) ∧
    (noExecutorsOwnStream gpu_stream).code = error.Code.NOT_FOUND ∧
    (∀ (keyOf' : StreamExecutorConfig → κ) (config' : StreamExecutorConfig),
      config'.gpu_stream = some gpu_stream →
      Get keyOf' cache_ config' = Get keyOf cache_ config) := by
  refine ⟨?_, rfl, ?_⟩
  · unfold Get
    rw [hs]
    simp only [findStreamOwner_eq_find]
    cases (allConfigurations cache_).find? (fun p => p.2.FindAllocatedStream gpu_stream) with
    | none => rfl
    | some p => rfl
  · intro keyOf' config' hs'
    unfold Get
    rw [hs, hs']

/-- An instance of C5: the stream 42 is found although the key and the options of
`configStream` match nothing stored. -/
theorem Get_by_stream_witness :
    configStream.gpu_stream = some 42 ∧
    Get ordinalHashKey cacheA configStream = .ok executorA :=
  ⟨rfl, (Get_by_stream ordinalHashKey cacheA configStream 42 rfl).1⟩

/-- The stored lists only grow along a sequence of calls, and no entry
disappears. -/
theorem runCalls_grows {κ : Type} [DecidableEq κ]
    (keyOf : StreamExecutorConfig → κ) (calls : List Call) (cache_ : Cache κ) (k : κ) :
    configurationsAt cache_ k <+: configurationsAt (runCalls keyOf cache_ calls) k ∧
    ((findEntry cache_ k).isSome = true →
      (findEntry (runCalls keyOf cache_ calls) k).isSome = true) := by
  induction calls generalizing cache_ with
  | nil => exact ⟨List.prefix_refl _, fun h => h⟩
  | cons call rest ih =>
    have hrun : runCalls keyOf cache_ (call :: rest)
        = runCalls keyOf (Call.apply keyOf cache_ call) rest := rfl
    rw [hrun]
    obtain ⟨ih1, ih2⟩ := ih (Call.apply keyOf cache_ call)
    cases call with
    | get c => exact ⟨ih1, ih2⟩
    | getOrCreate c factory =>
      obtain ⟨t, ht⟩ := GetOrCreate_configurationsAt keyOf cache_ c factory k
      refine ⟨List.IsPrefix.trans ⟨t, ht.symm⟩ ih1, fun h => ih2 ?_⟩
      exact GetOrCreate_findEntry_isSome keyOf cache_ c factory k h

/-- C6 (published resources stay retrievable): for a config `c` without live
handle, when `Get` returns the executor `r`, it still returns `r` after any
sequence of `Get` and `GetOrCreate` calls; along such a sequence every stored
list is extended at its end only and every key that has an entry keeps one. -/
theorem Get_stable_under_calls {κ : Type} [DecidableEq κ]
    (keyOf : StreamExecutorConfig → κ) (cache_ : Cache κ) (calls : List Call)
    (c : StreamExecutorConfig) (r : StreamExecutor)
    (hs : c.gpu_stream = none) (hget : Get keyOf cache_ c = .ok r) :
    Get keyOf (runCalls keyOf cache_ calls) c = .ok r ∧
    (∀ k, configurationsAt cache_ k <+: configurationsAt (runCalls keyOf cache_ calls) k) ∧
    (∀ k, (findEntry cache_ k).isSome = true →
      (findEntry (runCalls keyOf cache_ calls) k).isSome = true) := by
  refine ⟨?_, fun k => (runCalls_grows keyOf calls cache_ k).1,
    fun k => (runCalls_grows keyOf calls cache_ k).2⟩
  rw [Get_of_no_stream keyOf _ _ hs] at hget ⊢
  obtain ⟨t, ht⟩ := (runCalls_grows keyOf calls cache_ (keyOf c)).1
  rw [← ht]
  exact lookupIn_append hget t

/-- An instance of C6: `executorA` stays retrievable across four calls, among
them a failed and a successful construction under the same key. -/
theorem Get_stable_under_calls_witness :
    configA.gpu_stream = none ∧
    Get ordinalHashKey cacheA configA = .ok executorA ∧
    Get ordinalHashKey
      (runCalls ordinalHashKey cacheA
        [.getOrCreate configB factoryFail, .getOrCreate configB factoryB, .get configStream,
         .getOrCreate configStream factoryB])
      configA = .ok executorA :=
  ⟨rfl, rfl,
    (Get_stable_under_calls ordinalHashKey cacheA
      [.getOrCreate configB factoryFail, .getOrCreate configB factoryB, .get configStream,
       .getOrCreate configStream factoryB] configA executorA (by rfl) (by rfl)).1⟩

/-- C7 (clear empties the cache): after `DestroyAllExecutors`, `Get` returns
NOT_FOUND for every config, with or without live handle, and a following
`GetOrCreate` on any config invokes its factory once and returns what the
factory returns. -/
theorem DestroyAllExecutors_empties {κ : Type} [DecidableEq κ]
    (keyOf : StreamExecutorConfig → κ) (cache_ : Cache κ) (config : StreamExecutorConfig)
    (factory : ExecutorFactory) :
    (∃ st, Get keyOf (DestroyAllExecutors cache_) config = .error st ∧
      st.code = error.Code.NOT_FOUND) ∧
    (GetOrCreate keyOf (DestroyAllExecutors cache_) config factory).factory_calls = 1 ∧
    (GetOrCreate keyOf (DestroyAllExecutors cache_) config factory).result = factory () := by
  have hget : ∃ st, Get keyOf (DestroyAllExecutors cache_) config = .error st ∧
      st.code = error.Code.NOT_FOUND := by
    unfold DestroyAllExecutors Get
    cases config.gpu_stream with
    | none => exact ⟨_, rfl, rfl⟩
    | some s => exact ⟨_, rfl, rfl⟩
  obtain ⟨st, hst, hcode⟩ := hget
  refine ⟨⟨st, hst, hcode⟩, ?_⟩
  have hfind : (configurationsAt (DestroyAllExecutors cache_) (keyOf config)).find?
      (sameOptions config) = none := rfl
  cases hf : factory () with
  | error status =>
    rw [GetOrCreate_failed keyOf _ config factory st status hst hfind hf]
    exact ⟨rfl, rfl⟩
  | ok executor =>
    rw [GetOrCreate_created keyOf _ config factory st executor hst hfind hf]
    exact ⟨rfl, rfl⟩

theorem find_sameOptions_none {config : StreamExecutorConfig}
    {l : List (StreamExecutorConfig × StreamExecutor)}
    (h : l.find? (sameOptions config) = none) (executor : StreamExecutor) :
    ∀ a ∈ l, ¬ sameStoredOptions a (config, executor) := by
  intro a ha hs
  have := List.find?_eq_none.mp h a ha
  apply this
  unfold sameOptions
  simp [hs.1, hs.2]

theorem EntriesUnique_emplaceBack {κ : Type} [DecidableEq κ] (k : κ)
    (config : StreamExecutorConfig) (executor : StreamExecutor) (cache_ : Cache κ)
    (hu : EntriesUnique cache_)
    (hfind : (configurationsAt cache_ k).find? (sameOptions config) = none) :
    EntriesUnique (emplaceBack k (config, executor) cache_) := by
  induction cache_ with
  | nil => exact hu
  | cons p rest ih =>
    obtain ⟨k0, e0⟩ := p
    unfold emplaceBack
    by_cases hk : k0 = k
    · rw [if_pos hk]
      intro q hq
      rcases List.mem_cons.mp hq with rfl | hq
      · have h0 := hu (k0, e0) (List.mem_cons_self _ _)
        have hfind0 : e0.configurations.find? (sameOptions config) = none := by
          simpa [configurationsAt, entryAt, findEntry_cons, hk] using hfind
        simp only
        rw [List.pairwise_append]
        refine ⟨h0, List.pairwise_singleton _ _, ?_⟩
        intro a ha b hb
        rw [List.mem_singleton.mp hb]
        exact find_sameOptions_none hfind0 executor a ha
      · exact hu q (List.mem_cons_of_mem _ hq)
    · rw [if_neg hk]
      intro q hq
      rcases List.mem_cons.mp hq with rfl | hq
      · exact hu (k0, e0) (List.mem_cons_self _ _)
      · refine ih (fun q hq => hu q (List.mem_cons_of_mem _ hq)) ?_ q hq
        simpa [configurationsAt, entryAt, findEntry_cons, hk] using hfind

theorem EntriesUnique_insertIfAbsent {κ : Type} [DecidableEq κ] (k : κ) (cache_ : Cache κ)
    (hu : EntriesUnique cache_) : EntriesUnique (insertIfAbsent cache_ k) := by
  unfold insertIfAbsent
  cases findEntry cache_ k with
  | some e => exact hu
  | none =>
    intro q hq
    rcases List.mem_append.mp hq with hq | hq
    · exact hu q hq
    · rw [List.mem_singleton.mp hq]
      exact List.Pairwise.nil

theorem EntriesUnique_GetOrCreate {κ : Type} [DecidableEq κ]
    (keyOf : StreamExecutorConfig → κ) (cache_ : Cache κ) (config : StreamExecutorConfig)
    (factory : ExecutorFactory) (hu : EntriesUnique cache_) :
    EntriesUnique (GetOrCreate keyOf cache_ config factory).cache_ := by
  rcases GetOrCreate_cases keyOf cache_ config factory with
    ⟨executor, _, h⟩ | ⟨st, iter, _, _, h⟩ | ⟨st, status, _, _, _, h⟩ |
    ⟨st, executor, _, hfind, _, h⟩
  · rw [h]; exact hu
  · rw [h]; exact EntriesUnique_insertIfAbsent _ _ hu
  · rw [h]; exact EntriesUnique_insertIfAbsent _ _ hu
  · rw [h]
    refine EntriesUnique_emplaceBack _ _ _ _ (EntriesUnique_insertIfAbsent _ _ hu) ?_
    rw [configurationsAt_insertIfAbsent]
    exact hfind

theorem EntriesUnique_runOps {κ : Type} [DecidableEq κ]
    (keyOf : StreamExecutorConfig → κ) (ops : List CacheOp) (cache_ : Cache κ)
    (hu : EntriesUnique cache_) : EntriesUnique (runOps keyOf cache_ ops) := by
  induction ops generalizing cache_ with
  | nil => exact hu
  | cons op rest ih =>
    have hrun : runOps keyOf cache_ (op :: rest)
        = runOps keyOf (CacheOp.apply keyOf cache_ op) rest := rfl
    rw [hrun]
    apply ih
    cases op with
    | get c => exact hu
    | getOrCreate c factory => exact EntriesUnique_GetOrCreate keyOf cache_ c factory hu
    | destroyAllExecutors => intro q hq; cases hq

/-- C26 (entry uniqueness invariant): in every cache state reached from the
empty cache by a sequence of `Get`, `GetOrCreate` and `DestroyAllExecutors`
calls, no entry holds two stored pairs (at different positions of its list)
whose configs have equal `plugin_config` and equal `device_options`. -/
theorem runOps_entries_unique {κ : Type} [DecidableEq κ]
    (keyOf : StreamExecutorConfig → κ) (ops : List CacheOp) :
    ∀ k e, (k, e) ∈ runOps keyOf ([] : Cache κ) ops →
      ∀ i j (hi : i < e.configurations.length) (hj : j < e.configurations.length), i ≠ j →
        ¬ ((e.configurations.get ⟨i, hi⟩).1.plugin_config
              = (e.configurations.get ⟨j, hj⟩).1.plugin_config ∧
           (e.configurations.get ⟨i, hi⟩).1.device_options
              = (e.configurations.get ⟨j, hj⟩).1.device_options) := by
  intro k e hmem i j hi hj hij hsame
  have hu : EntriesUnique (runOps keyOf ([] : Cache κ) ops) :=
    EntriesUnique_runOps keyOf ops [] (fun q hq => by cases hq)
  have hp := hu (k, e) hmem
  rw [List.pairwise_iff_get] at hp
  rcases Nat.lt_or_gt_of_ne hij with hlt | hgt
  · exact hp ⟨i, hi⟩ ⟨j, hj⟩ hlt hsame
  · exact hp ⟨j, hj⟩ ⟨i, hi⟩ hgt ⟨hsame.1.symm, hsame.2.symm⟩

/-- An instance of C26: after a construction, a clear, and three more calls of
which one repeats the options of a stored pair, the entry of key `(0, 7)` holds
the pairs of `configA` and `configB`, whose `device_options` differ. -/
theorem runOps_entries_unique_witness :
    ((0, 7), ({ configurations := [(configA, executorA), (configB, executorB)] } : Entry))
        ∈ runOps ordinalHashKey ([] : Cache (Int × Nat))
          [.getOrCreate configA factoryA, .destroyAllExecutors, .getOrCreate configA factoryA,
           .getOrCreate configA factoryB, .getOrCreate configB factoryB] ∧
    ¬ (configA.plugin_config = configB.plugin_config ∧
       configA.device_options = configB.device_options) :=
  ⟨by decide,
    runOps_entries_unique ordinalHashKey
      [.getOrCreate configA factoryA, .destroyAllExecutors, .getOrCreate configA factoryA,
       .getOrCreate configA factoryB, .getOrCreate configB factoryB]
      (0, 7) { configurations := [(configA, executorA), (configB, executorB)] } (by decide)
      0 1 (by decide) (by decide) (by decide)⟩

/-- C27 (a live handle bypasses the key): when some stored executor owns the
`gpu_stream` of the config, `GetOrCreate` returns the first such executor in
map order and then list order, does not invoke the factory and leaves the cache
as it is, whatever the key, `plugin_config` and `device_options` of the config
are. -/
theorem GetOrCreate_by_stream {κ : Type} [DecidableEq κ]
    (keyOf : StreamExecutorConfig → κ) (cache_ : Cache κ) (config : StreamExecutorConfig)
    (factory : ExecutorFactory) (gpu_stream : Nat) (p : StreamExecutorConfig × StreamExecutor)
    (hs : config.gpu_stream = some gpu_stream)
    (hp : p ∈ allConfigurations cache_)
    (hown : p.2.FindAllocatedStream gpu_stream = true) :
    ∃ q, (allConfigurations cache_).find? (fun p => p.2.FindAllocatedStream gpu_stream) = some q ∧
      q ∈ allConfigurations cache_ ∧ q.2.FindAllocatedStream gpu_stream = true ∧
      GetOrCreate keyOf cache_ config factory
        = { result := .ok q.2, cache_ := cache_, factory_calls := 0 } := by
  cases hf : (allConfigurations cache_).find? (fun p => p.2.FindAllocatedStream gpu_stream) with
  | none =>
    have := List.find?_eq_none.mp hf p hp
    exact absurd hown this
  | some q =>
    refine ⟨q, rfl, List.mem_of_find?_eq_some hf, ?_, ?_⟩
    · have h := List.find?_some hf
      exact h
    · apply GetOrCreate_hit
      unfold Get
      rw [hs]
      simp only [findStreamOwner_eq_find, hf, Option.map]

/-- An instance of C27: `configStream` has a key and options that match nothing
stored in `cacheA`, and the failing factory is not invoked. -/
theorem GetOrCreate_by_stream_witness :
    configStream.gpu_stream = some 42 ∧
    (configA, executorA) ∈ allConfigurations cacheA ∧
    executorA.FindAllocatedStream 42 = true ∧
    findEntry cacheA (ordinalHashKey configStream) = none ∧
    sameOptions configStream (configA, executorA) = false ∧
    ∃ q, (allConfigurations cacheA).find? (fun p => p.2.FindAllocatedStream 42) = some q ∧
      q ∈ allConfigurations cacheA ∧ q.2.FindAllocatedStream 42 = true ∧
      GetOrCreate ordinalHashKey cacheA configStream factoryFail
        = { result := .ok q.2, cache_ := cacheA, factory_calls := 0 } :=
  ⟨rfl, by decide, by decide, by decide, by decide,
    GetOrCreate_by_stream ordinalHashKey cacheA configStream factoryFail 42
      (configA, executorA) (by rfl) (by decide) (by decide)⟩

end stream_executor

namespace tensorflow

open stream_executor (Status StatusOr)

/-! ## Lemmas on the dimension resolver -/

theorem TF_REQUIRES_bind_ok {α : Type} (b : Bool) (s : Status) (f : Unit → StatusOr α) (a : α)
    (h : (TF_REQUIRES b s >>= f) = .ok a) : b = true ∧ f () = .ok a := by
  cases b with
  | false => simp [TF_REQUIRES, bind, Except.bind] at h
  | true => exact ⟨rfl, by simpa [TF_REQUIRES, bind, Except.bind] using h⟩

theorem StatusOr_bind_ok {α β : Type} (x : StatusOr α) (f : α → StatusOr β) (b : β)
    (h : (x >>= f) = .ok b) : ∃ a, x = .ok a ∧ f a = .ok b := by
  cases x with
  | error e => simp [bind, Except.bind] at h
  | ok a => exact ⟨a, rfl, by simpa [bind, Except.bind] using h⟩

/-- A successful resolution stores, for each spatial axis, the result of
`GetWindowedOutputSizeVerboseV2` on the resolved sizes of that axis. -/
theorem ComputeConv2DDimension_ok_windows {ext : Externals} {params : Conv2DParameters}
    {input filter : Tensor} {d : Conv2DDimensions}
    (h : ComputeConv2DDimension ext params input filter = .ok d) :
    (∃ pb pa, GetWindowedOutputSizeVerboseV2 d.input_rows d.filter_rows d.dilation_rows
        d.stride_rows params.padding pb pa
      = .ok (d.out_rows, d.pad_rows_before, d.pad_rows_after)) ∧
    (∃ pb pa, GetWindowedOutputSizeVerboseV2 d.input_cols d.filter_cols d.dilation_cols
        d.stride_cols params.padding pb pa
      = .ok (d.out_cols, d.pad_cols_before, d.pad_cols_after)) := by
  unfold ComputeConv2DDimension at h
  obtain ⟨-, h⟩ := TF_REQUIRES_bind_ok _ _ _ _ h
  obtain ⟨-, h⟩ := TF_REQUIRES_bind_ok _ _ _ _ h
  obtain ⟨-, h⟩ := TF_REQUIRES_bind_ok _ _ _ _ h
  obtain ⟨-, h⟩ := TF_REQUIRES_bind_ok _ _ _ _ h
  obtain ⟨-, h⟩ := TF_REQUIRES_bind_ok _ _ _ _ h
  obtain ⟨-, h⟩ := TF_REQUIRES_bind_ok _ _ _ _ h
  obtain ⟨-, h⟩ := TF_REQUIRES_bind_ok _ _ _ _ h
  obtain ⟨-, h⟩ := TF_REQUIRES_bind_ok _ _ _ _ h
  obtain ⟨-, h⟩ := TF_REQUIRES_bind_ok _ _ _ _ h
  obtain ⟨-, h⟩ := TF_REQUIRES_bind_ok _ _ _ _ h
  obtain ⟨rows, hrows, h⟩ := StatusOr_bind_ok _ _ _ h
  obtain ⟨cols, hcols, h⟩ := StatusOr_bind_ok _ _ _ h
  have hd := Except.ok.inj h
  subst hd
  exact ⟨⟨_, _, hrows⟩, ⟨_, _, hcols⟩⟩

theorem GetWindowedOutputSizeVerboseV2_ok_pos {input_size filter_size dilation_rate stride : Int}
    {padding_type : Padding} {pb pa : Int} {r : Int × Int × Int}
    (h : GetWindowedOutputSizeVerboseV2 input_size filter_size dilation_rate stride
      padding_type pb pa = .ok r) : 0 < stride ∧ 0 < dilation_rate := by
  unfold GetWindowedOutputSizeVerboseV2 at h
  by_cases hs : stride ≤ 0
  · simp [hs] at h
  · by_cases hd : dilation_rate ≤ 0
    · simp [hs, hd] at h
    · exact ⟨by omega, by omega⟩

theorem GetWindowedOutputSizeVerboseV2_valid {input_size filter_size dilation_rate stride : Int}
    {pb pa : Int} {r : Int × Int × Int}
    (h : GetWindowedOutputSizeVerboseV2 input_size filter_size dilation_rate stride
      Padding.VALID pb pa = .ok r) :
    r = (ceilDiv (input_size - (filter_size - 1) * dilation_rate - 1 + 1) stride, 0, 0) := by
  obtain ⟨hs, hd⟩ := GetWindowedOutputSizeVerboseV2_ok_pos h
  unfold GetWindowedOutputSizeVerboseV2 at h
  rw [if_neg (by omega), if_neg (by omega)] at h
  exact (Except.ok.inj h).symm

theorem GetWindowedOutputSizeVerboseV2_same {input_size filter_size dilation_rate stride : Int}
    {pb pa : Int} {r : Int × Int × Int}
    (h : GetWindowedOutputSizeVerboseV2 input_size filter_size dilation_rate stride
      Padding.SAME pb pa = .ok r) :
    r.1 = ceilDiv input_size stride ∧
    ∃ total : Int, 0 ≤ total ∧ r.2.1 = total / 2 ∧ r.2.2 = total - total / 2 := by
  obtain ⟨hs, hd⟩ := GetWindowedOutputSizeVerboseV2_ok_pos h
  unfold GetWindowedOutputSizeVerboseV2 at h
  rw [if_neg (by omega), if_neg (by omega)] at h
  have hr := (Except.ok.inj h).symm
  subst hr
  exact ⟨rfl, _, le_max_left _ _, rfl, rfl⟩

/-- The integer `ceilDiv a b` is the ceiling of the rational quotient. -/
theorem ceilDiv_eq_ceil (a b : Int) (hb : 0 < b) : ceilDiv a b = ⌈(a : ℚ) / (b : ℚ)⌉ := by
  obtain ⟨n, rfl⟩ := Int.eq_ofNat_of_zero_le (le_of_lt hb)
  unfold ceilDiv
  have h1 : ⌈(a : ℚ) / ((n : ℤ) : ℚ)⌉ = -⌊-((a : ℚ) / ((n : ℤ) : ℚ))⌋ := by
    rw [Int.floor_neg, neg_neg]
  rw [h1, ← neg_div, ← Int.cast_neg, Int.cast_natCast, Rat.floor_intCast_div_natCast]

/-- Integer division by a positive number is the floor of the rational quotient. -/
theorem ediv_eq_floor (a b : Int) (hb : 0 < b) : a / b = ⌊(a : ℚ) / (b : ℚ)⌋ := by
  obtain ⟨n, rfl⟩ := Int.eq_ofNat_of_zero_le (le_of_lt hb)
  rw [Int.cast_natCast, Rat.floor_intCast_div_natCast]

/-- For integers, rounding `a / b` up is rounding `(a - 1) / b` down and adding 1. -/
theorem ceilDiv_eq_floor_add_one (a b : Int) (hb : 0 < b) : ceilDiv a b = (a - 1) / b + 1 := by
  unfold ceilDiv
  have h1 := Int.emod_add_ediv (a - 1) b
  have h2 := Int.emod_nonneg (a - 1) (ne_of_gt hb)
  have h3 := Int.emod_lt_of_pos (a - 1) hb
  have h4 : (-a) / b = -((a - 1) / b) - 1 ∧ (-a) % b = b - (a - 1) % b - 1 := by
    rw [Int.ediv_emod_unique hb]
    refine ⟨?_, by omega, by omega⟩
    have h5 : b * (-((a - 1) / b) - 1) = -(b * ((a - 1) / b)) - b := by ring
    rw [h5]
    omega
  rw [h4.1]
  ring

/-! ## Properties of the dimension resolver -/

/-- C9 (shape algebra): whenever `ComputeConv2DDimension` succeeds, the resolved
strides and dilations are at least 1 and, with `in`, `filter`, `stride`,
`dilation` the resolved sizes of a spatial axis: under VALID the output size of
the axis is `floor((in - (filter-1)*dilation - 1)/stride) + 1`, which is
`ceil((in - (filter-1)*dilation)/stride)`, and both paddings are 0; under SAME
the output size is `ceil(in/stride)`. Floor and ceiling are those of the
rational quotient. -/
theorem ComputeConv2DDimension_output_size (ext : Externals) (params : Conv2DParameters)
    (input filter : Tensor) (d : Conv2DDimensions)
    (h : ComputeConv2DDimension ext params input filter = .ok d) :
    (1 ≤ d.stride_rows ∧ 1 ≤ d.stride_cols ∧ 1 ≤ d.dilation_rows ∧ 1 ≤ d.dilation_cols) ∧
    (params.padding = Padding.VALID →
      d.out_rows = ⌊((d.input_rows - (d.filter_rows - 1) * d.dilation_rows - 1 : Int) : ℚ)
          / (d.stride_rows : ℚ)⌋ + 1 ∧
      d.out_rows = ⌈((d.input_rows - (d.filter_rows - 1) * d.dilation_rows : Int) : ℚ)
          / (d.stride_rows : ℚ)⌉ ∧
      d.out_cols = ⌊((d.input_cols - (d.filter_cols - 1) * d.dilation_cols - 1 : Int) : ℚ)
          / (d.stride_cols : ℚ)⌋ + 1 ∧
      d.out_cols = ⌈((d.input_cols - (d.filter_cols - 1) * d.dilation_cols : Int) : ℚ)
          / (d.stride_cols : ℚ)⌉ ∧
      d.pad_rows_before = 0 ∧ d.pad_rows_after = 0 ∧
      d.pad_cols_before = 0 ∧ d.pad_cols_after = 0) ∧
    (params.padding = Padding.SAME →
      d.out_rows = ⌈(d.input_rows : ℚ) / (d.stride_rows : ℚ)⌉ ∧
      d.out_cols = ⌈(d.input_cols : ℚ) / (d.stride_cols : ℚ)⌉) := by
  obtain ⟨⟨pbr, par, hrows⟩, ⟨pbc, pac, hcols⟩⟩ := ComputeConv2DDimension_ok_windows h
  obtain ⟨hsr, hdr⟩ := GetWindowedOutputSizeVerboseV2_ok_pos hrows
  obtain ⟨hsc, hdc⟩ := GetWindowedOutputSizeVerboseV2_ok_pos hcols
  refine ⟨⟨hsr, hsc, hdr, hdc⟩, ?_, ?_⟩
  · intro hv
    rw [hv] at hrows hcols
    have hr := GetWindowedOutputSizeVerboseV2_valid hrows
    have hc := GetWindowedOutputSizeVerboseV2_valid hcols
    simp only [Prod.mk.injEq] at hr hc
    obtain ⟨hr1, hr2, hr3⟩ := hr
    obtain ⟨hc1, hc2, hc3⟩ := hc
    have er : d.input_rows - (d.filter_rows - 1) * d.dilation_rows - 1 + 1
        = d.input_rows - (d.filter_rows - 1) * d.dilation_rows := by ring
    have ec : d.input_cols - (d.filter_cols - 1) * d.dilation_cols - 1 + 1
        = d.input_cols - (d.filter_cols - 1) * d.dilation_cols := by ring
    rw [er] at hr1
    rw [ec] at hc1
    refine ⟨?_, ?_, ?_, ?_, hr2, hr3, hc2, hc3⟩
    · rw [← ediv_eq_floor _ _ hsr, ← ceilDiv_eq_floor_add_one _ _ hsr]
      exact hr1
    · rw [← ceilDiv_eq_ceil _ _ hsr]
      exact hr1
    · rw [← ediv_eq_floor _ _ hsc, ← ceilDiv_eq_floor_add_one _ _ hsc]
      exact hc1
    · rw [← ceilDiv_eq_ceil _ _ hsc]
      exact hc1
  · intro hv
    rw [hv] at hrows hcols
    obtain ⟨hr1, -⟩ := GetWindowedOutputSizeVerboseV2_same hrows
    obtain ⟨hc1, -⟩ := GetWindowedOutputSizeVerboseV2_same hcols
    simp only at hr1 hc1
    exact ⟨by rw [← ceilDiv_eq_ceil _ _ hsr]; exact hr1,
      by rw [← ceilDiv_eq_ceil _ _ hsc]; exact hc1⟩

/-- An instance of C9: input `[2,8,8,8]`, filter `[3,3,4,8]`, stride 2, VALID
resolves to 3 output rows and columns. -/
theorem ComputeConv2DDimension_output_size_witness :
    ComputeConv2DDimension nhwcExternals paramsValid input2888 filter3348 = .ok resolvedValid ∧
    resolvedValid.out_rows = 3 ∧
    (paramsValid.padding = Padding.VALID →
      resolvedValid.out_rows
        = ⌊((resolvedValid.input_rows - (resolvedValid.filter_rows - 1)
              * resolvedValid.dilation_rows - 1 : Int) : ℚ)
            / (resolvedValid.stride_rows : ℚ)⌋ + 1 ∧
      resolvedValid.out_rows
        = ⌈((resolvedValid.input_rows - (resolvedValid.filter_rows - 1)
              * resolvedValid.dilation_rows : Int) : ℚ)
            / (resolvedValid.stride_rows : ℚ)⌉ ∧
      resolvedValid.out_cols
        = ⌊((resolvedValid.input_cols - (resolvedValid.filter_cols - 1)
              * resolvedValid.dilation_cols - 1 : Int) : ℚ)
            / (resolvedValid.stride_cols : ℚ)⌋ + 1 ∧
      resolvedValid.out_cols
        = ⌈((resolvedValid.input_cols - (resolvedValid.filter_cols - 1)
              * resolvedValid.dilation_cols : Int) : ℚ)
            / (resolvedValid.stride_cols : ℚ)⌉ ∧
      resolvedValid.pad_rows_before = 0 ∧ resolvedValid.pad_rows_after = 0 ∧
      resolvedValid.pad_cols_before = 0 ∧ resolvedValid.pad_cols_after = 0) :=
  ⟨by rfl, by rfl,
    (ComputeConv2DDimension_output_size nhwcExternals paramsValid input2888 filter3348
      resolvedValid (by rfl)).2.1⟩

/-- C10 (SAME padding split): whenever `ComputeConv2DDimension` succeeds with
SAME padding, on each spatial axis both resolved paddings are non-negative,
`padding_after >= padding_before`, `padding_after - padding_before <= 1`, and
the two differ exactly when their sum, the total padding of the axis, is odd. -/
theorem ComputeConv2DDimension_same_padding_split (ext : Externals)
    (params : Conv2DParameters) (input filter : Tensor) (d : Conv2DDimensions)
    (h : ComputeConv2DDimension ext params input filter = .ok d)
    (hsame : params.padding = Padding.SAME) :
    (0 ≤ d.pad_rows_before ∧ 0 ≤ d.pad_rows_after ∧
      d.pad_rows_before ≤ d.pad_rows_after ∧ d.pad_rows_after - d.pad_rows_before ≤ 1 ∧
      (d.pad_rows_before ≠ d.pad_rows_after ↔ Odd (d.pad_rows_before + d.pad_rows_after))) ∧
    (0 ≤ d.pad_cols_before ∧ 0 ≤ d.pad_cols_after ∧
      d.pad_cols_before ≤ d.pad_cols_after ∧ d.pad_cols_after - d.pad_cols_before ≤ 1 ∧
      (d.pad_cols_before ≠ d.pad_cols_after ↔ Odd (d.pad_cols_before + d.pad_cols_after))) := by
  obtain ⟨⟨pbr, par, hrows⟩, ⟨pbc, pac, hcols⟩⟩ := ComputeConv2DDimension_ok_windows h
  rw [hsame] at hrows hcols
  obtain ⟨-, tr, htr, hr1, hr2⟩ := GetWindowedOutputSizeVerboseV2_same hrows
  obtain ⟨-, tc, htc, hc1, hc2⟩ := GetWindowedOutputSizeVerboseV2_same hcols
  simp only at hr1 hr2 hc1 hc2
  refine ⟨⟨by omega, by omega, by omega, by omega, ?_⟩,
    ⟨by omega, by omega, by omega, by omega, ?_⟩⟩
  · rw [Int.odd_iff]
    omega
  · rw [Int.odd_iff]
    omega

/-- An instance of C10: input `[2,8,8,8]`, filter `[3,3,4,8]`, stride 2, SAME
resolves to the paddings 0 before and 1 after. -/
theorem ComputeConv2DDimension_same_padding_split_witness :
    ComputeConv2DDimension nhwcExternals paramsSameStride2 input2888 filter3348
      = .ok resolvedSame ∧
    paramsSameStride2.padding = Padding.SAME ∧
    resolvedSame.pad_rows_before = 0 ∧ resolvedSame.pad_rows_after = 1 ∧
    (0 ≤ resolvedSame.pad_rows_before ∧ 0 ≤ resolvedSame.pad_rows_after ∧
      resolvedSame.pad_rows_before ≤ resolvedSame.pad_rows_after ∧
      resolvedSame.pad_rows_after - resolvedSame.pad_rows_before ≤ 1 ∧
      (resolvedSame.pad_rows_before ≠ resolvedSame.pad_rows_after ↔
        Odd (resolvedSame.pad_rows_before + resolvedSame.pad_rows_after))) :=
  ⟨by rfl, rfl, by rfl, by rfl,
    (ComputeConv2DDimension_same_padding_split nhwcExternals paramsSameStride2 input2888
      filter3348 resolvedSame (by rfl) rfl).1⟩

/-! ## The checks of the dimension resolver -/

theorem TF_REQUIRES_bind_error {α : Type} (b : Bool) (s : Status) (f : Unit → StatusOr α)
    (st : Status) (h : (TF_REQUIRES b s >>= f) = .error st) :
    (b = false ∧ st = s) ∨ (b = true ∧ f () = .error st) := by
  cases b with
  | false =>
    left
    simp only [TF_REQUIRES, bind, Except.bind] at h
    exact ⟨rfl, (Except.error.inj h).symm⟩
  | true => exact Or.inr ⟨rfl, by simpa [TF_REQUIRES, bind, Except.bind] using h⟩

theorem StatusOr_bind_error {α β : Type} (x : StatusOr α) (f : α → StatusOr β) (st : Status)
    (h : (x >>= f) = .error st) : x = .error st ∨ ∃ a, x = .ok a ∧ f a = .error st := by
  cases x with
  | error e =>
    left
    simp only [bind, Except.bind] at h
    rw [Except.error.inj h]
  | ok a => exact Or.inr ⟨a, rfl, by simpa [bind, Except.bind] using h⟩

theorem GetWindowedOutputSizeVerboseV2_error_code {input_size filter_size dilation_rate
    stride : Int} {padding_type : Padding} {pb pa : Int} {st : Status}
    (h : GetWindowedOutputSizeVerboseV2 input_size filter_size dilation_rate stride
      padding_type pb pa = .error st) :
    st.code = stream_executor.error.Code.INVALID_ARGUMENT := by
  unfold GetWindowedOutputSizeVerboseV2 at h
  split at h
  · rw [← Except.error.inj h]; rfl
  · split at h
    · rw [← Except.error.inj h]; rfl
    · split at h
      · simp at h
      · simp at h
      · split at h
        · rw [← Except.error.inj h]; rfl
        · simp at h

/-- Every error of `ComputeConv2DDimension` is an InvalidArgument. -/
theorem ComputeConv2DDimension_error_code {ext : Externals} {params : Conv2DParameters}
    {input filter : Tensor} {st : Status}
    (h : ComputeConv2DDimension ext params input filter = .error st) :
    st.code = stream_executor.error.Code.INVALID_ARGUMENT := by
  unfold ComputeConv2DDimension at h
  rcases TF_REQUIRES_bind_error _ _ _ _ h with ⟨-, rfl⟩ | ⟨-, h⟩
  · rfl
  rcases TF_REQUIRES_bind_error _ _ _ _ h with ⟨-, rfl⟩ | ⟨-, h⟩
  · rfl
  rcases TF_REQUIRES_bind_error _ _ _ _ h with ⟨-, rfl⟩ | ⟨-, h⟩
  · rfl
  rcases TF_REQUIRES_bind_error _ _ _ _ h with ⟨-, rfl⟩ | ⟨-, h⟩
  · rfl
  rcases TF_REQUIRES_bind_error _ _ _ _ h with ⟨-, rfl⟩ | ⟨-, h⟩
  · rfl
  rcases TF_REQUIRES_bind_error _ _ _ _ h with ⟨-, rfl⟩ | ⟨-, h⟩
  · rfl
  rcases TF_REQUIRES_bind_error _ _ _ _ h with ⟨-, rfl⟩ | ⟨-, h⟩
  · rfl
  rcases TF_REQUIRES_bind_error _ _ _ _ h with ⟨-, rfl⟩ | ⟨-, h⟩
  · rfl
  rcases TF_REQUIRES_bind_error _ _ _ _ h with ⟨-, rfl⟩ | ⟨-, h⟩
  · rfl
  rcases TF_REQUIRES_bind_error _ _ _ _ h with ⟨-, rfl⟩ | ⟨-, h⟩
  · rfl
  rcases StatusOr_bind_error _ _ _ h with h | ⟨rows, -, h⟩
  · exact GetWindowedOutputSizeVerboseV2_error_code h
  rcases StatusOr_bind_error _ _ _ h with h | ⟨cols, -, h⟩
  · exact GetWindowedOutputSizeVerboseV2_error_code h
  · simp [pure, Except.pure] at h

/-- What a successful resolution tells about the checks of lines 481-544 and
about the first eight fields. -/
theorem ComputeConv2DDimension_ok_checks {ext : Externals} {params : Conv2DParameters}
    {input filter : Tensor} {d : Conv2DDimensions}
    (h : ComputeConv2DDimension ext params input filter = .ok d) :
    input.dims = requiredDims params ∧ filter.dims = requiredDims params ∧
    (∀ i, i < requiredDims params - 1 →
      ext.FastBoundsCheck (filter.dim_size i) intMax = true) ∧
    ext.FastBoundsCheck (ext.GetTensorDim input.dim_sizes params.data_format 'C') intMax
      = true ∧
    ext.FastBoundsCheck (ext.GetFilterDim filter.dim_sizes (filterFormat params) 'I') intMax
      = true ∧
    ext.FastBoundsCheck (ext.GetTensorDim input.dim_sizes params.data_format 'H') intMax
      = true ∧
    ext.FastBoundsCheck (ext.GetTensorDim input.dim_sizes params.data_format 'W') intMax
      = true ∧
    ext.FastBoundsCheck (ext.GetTensorDim input.dim_sizes params.data_format 'N') intMax
      = true ∧
    0 < d.patch_depth ∧ cppMod d.in_depth d.patch_depth = 0 ∧
    d.in_depth = toInt32 (ext.GetTensorDim input.dim_sizes params.data_format 'C') ∧
    d.patch_depth = toInt32 (ext.GetFilterDim filter.dim_sizes (filterFormat params) 'I') ∧
    d.out_depth = toInt32 (ext.GetFilterDim filter.dim_sizes (filterFormat params) 'O') ∧
    d.input_rows = toInt32 (ext.GetTensorDim input.dim_sizes params.data_format 'H') ∧
    d.filter_rows = toInt32 (ext.GetFilterDim filter.dim_sizes (filterFormat params) 'H') ∧
    d.input_cols = toInt32 (ext.GetTensorDim input.dim_sizes params.data_format 'W') ∧
    d.filter_cols = toInt32 (ext.GetFilterDim filter.dim_sizes (filterFormat params) 'W') ∧
    d.batch = toInt32 (ext.GetTensorDim input.dim_sizes params.data_format 'N') := by
  unfold ComputeConv2DDimension at h
  obtain ⟨h1, h⟩ := TF_REQUIRES_bind_ok _ _ _ _ h
  obtain ⟨h2, h⟩ := TF_REQUIRES_bind_ok _ _ _ _ h
  obtain ⟨h3, h⟩ := TF_REQUIRES_bind_ok _ _ _ _ h
  obtain ⟨h4, h⟩ := TF_REQUIRES_bind_ok _ _ _ _ h
  obtain ⟨h5, h⟩ := TF_REQUIRES_bind_ok _ _ _ _ h
  obtain ⟨h6, h⟩ := TF_REQUIRES_bind_ok _ _ _ _ h
  obtain ⟨h7, h⟩ := TF_REQUIRES_bind_ok _ _ _ _ h
  obtain ⟨h8, h⟩ := TF_REQUIRES_bind_ok _ _ _ _ h
  obtain ⟨h9, h⟩ := TF_REQUIRES_bind_ok _ _ _ _ h
  obtain ⟨h10, h⟩ := TF_REQUIRES_bind_ok _ _ _ _ h
  obtain ⟨rows, -, h⟩ := StatusOr_bind_ok _ _ _ h
  obtain ⟨cols, -, h⟩ := StatusOr_bind_ok _ _ _ h
  have hd := Except.ok.inj h
  subst hd
  refine ⟨of_decide_eq_true h1, of_decide_eq_true h2, ?_, h4, h5, h8, h9, h10,
    of_decide_eq_true h6, of_decide_eq_true h7, rfl, rfl, rfl, rfl, rfl, rfl, rfl, rfl⟩
  intro i hi
  rw [List.all_eq_true] at h3
  exact h3 i (List.mem_range.2 hi)

theorem toInt32_of_inRange {x : Int} (h0 : 0 ≤ x) (h1 : x < intMax) : toInt32 x = x := by
  unfold toInt32
  unfold intMax at h1
  omega

theorem nhwcExternals_sound : nhwcExternals.FastBoundsCheckSound := by
  intro index limit h
  simpa [nhwcExternals] using h

/-- The five directly checked fields are not truncated when `FastBoundsCheck`
is sound. -/
theorem ComputeConv2DDimension_checked_fields_exact {ext : Externals}
    (hfb : ext.FastBoundsCheckSound) {params : Conv2DParameters}
    {input filter : Tensor} {d : Conv2DDimensions}
    (h : ComputeConv2DDimension ext params input filter = .ok d) :
    d.in_depth = ext.GetTensorDim input.dim_sizes params.data_format 'C' ∧
    d.patch_depth = ext.GetFilterDim filter.dim_sizes (filterFormat params) 'I' ∧
    d.input_rows = ext.GetTensorDim input.dim_sizes params.data_format 'H' ∧
    d.input_cols = ext.GetTensorDim input.dim_sizes params.data_format 'W' ∧
    d.batch = ext.GetTensorDim input.dim_sizes params.data_format 'N' := by
  obtain ⟨-, -, -, hc, hi, hh, hw, hn, -, -, e1, e2, -, e4, -, e6, -, e8⟩ :=
    ComputeConv2DDimension_ok_checks h
  rw [e1, e2, e4, e6, e8]
  exact ⟨toInt32_of_inRange (hfb _ _ hc).1 (hfb _ _ hc).2,
    toInt32_of_inRange (hfb _ _ hi).1 (hfb _ _ hi).2,
    toInt32_of_inRange (hfb _ _ hh).1 (hfb _ _ hh).2,
    toInt32_of_inRange (hfb _ _ hw).1 (hfb _ _ hw).2,
    toInt32_of_inRange (hfb _ _ hn).1 (hfb _ _ hn).2⟩

/-- C11 (no truncation of dimensions), evaluated where it fails: for the NHWC
input `[1,1,1,1]` and the HWIO filter `[1,1,1,2^32+5]` the resolver succeeds and
the resolved output depth is 5, not the filter's output depth `2^32+5`. The loop
of lines 489-493 checks the filter dimensions 0, 1 and 2 only. -/
theorem ComputeConv2DDimension_out_depth_truncated :
    nhwcExternals.GetFilterDim filterWide.dim_sizes (filterFormat paramsUnit) 'O'
      = 4294967301 ∧
    ComputeConv2DDimension nhwcExternals paramsUnit input1111 filterWide = .ok resolvedWide ∧
    resolvedWide.out_depth = 5 :=
  ⟨by rfl, by rfl, by rfl⟩

/-- C12 (resolver rejection): with a sound `FastBoundsCheck`,
`ComputeConv2DDimension` returns an InvalidArgument error whenever the input or
the filter does not have the required rank (4, or 5 for NCHW_VECT_C), the filter
depth is `<= 0`, or the filter depth does not divide the input depth; and on
success `patch_depth > 0` and `in_depth % patch_depth == 0`. -/
theorem ComputeConv2DDimension_rejects (ext : Externals) (hfb : ext.FastBoundsCheckSound)
    (params : Conv2DParameters) (input filter : Tensor) :
    ((input.dims ≠ requiredDims params ∨ filter.dims ≠ requiredDims params ∨
        ext.GetFilterDim filter.dim_sizes (filterFormat params) 'I' ≤ 0 ∨
        ¬ (ext.GetFilterDim filter.dim_sizes (filterFormat params) 'I'
            ∣ ext.GetTensorDim input.dim_sizes params.data_format 'C')) →
      ∃ st, ComputeConv2DDimension ext params input filter = .error st ∧
        st.code = stream_executor.error.Code.INVALID_ARGUMENT) ∧
    (∀ d, ComputeConv2DDimension ext params input filter = .ok d →
      0 < d.patch_depth ∧ cppMod d.in_depth d.patch_depth = 0 ∧
      d.in_depth % d.patch_depth = 0) := by
  have hok : ∀ d, ComputeConv2DDimension ext params input filter = .ok d →
      0 < d.patch_depth ∧ cppMod d.in_depth d.patch_depth = 0 ∧
      d.in_depth % d.patch_depth = 0 ∧
      d.in_depth = ext.GetTensorDim input.dim_sizes params.data_format 'C' ∧
      d.patch_depth = ext.GetFilterDim filter.dim_sizes (filterFormat params) 'I' := by
    intro d h
    obtain ⟨-, -, -, hc, -, -, -, -, hp, hm, -⟩ := ComputeConv2DDimension_ok_checks h
    obtain ⟨e1, e2, -⟩ := ComputeConv2DDimension_checked_fields_exact hfb h
    have h0 : 0 ≤ d.in_depth := by rw [e1]; exact (hfb _ _ hc).1
    refine ⟨hp, hm, ?_, e1, e2⟩
    unfold cppMod at hm
    rw [Int.tmod_eq_emod h0 (le_of_lt hp)] at hm
    exact hm
  refine ⟨?_, fun d h => ⟨(hok d h).1, (hok d h).2.1, (hok d h).2.2.1⟩⟩
  intro hbad
  cases hres : ComputeConv2DDimension ext params input filter with
  | error st => exact ⟨st, rfl, ComputeConv2DDimension_error_code hres⟩
  | ok d =>
    exfalso
    obtain ⟨hr1, hr2, -⟩ := ComputeConv2DDimension_ok_checks hres
    obtain ⟨hp, -, hm, e1, e2⟩ := hok d hres
    rcases hbad with hb | hb | hb | hb
    · exact hb hr1
    · exact hb hr2
    · rw [← e2] at hb
      omega
    · rw [← e1, ← e2] at hb
      exact hb (Int.dvd_of_emod_eq_zero hm)

/-- An instance of C12: the filter depth 3 does not divide the input depth 8. -/
theorem ComputeConv2DDimension_rejects_witness :
    nhwcExternals.FastBoundsCheckSound ∧
    ¬ (nhwcExternals.GetFilterDim filter3338.dim_sizes (filterFormat paramsSame) 'I'
        ∣ nhwcExternals.GetTensorDim input2888.dim_sizes paramsSame.data_format 'C') ∧
    ∃ st, ComputeConv2DDimension nhwcExternals paramsSame input2888 filter3338 = .error st ∧
      st.code = stream_executor.error.Code.INVALID_ARGUMENT :=
  ⟨nhwcExternals_sound, by decide,
    (ComputeConv2DDimension_rejects nhwcExternals nhwcExternals_sound paramsSame input2888
      filter3338).1 (Or.inr (Or.inr (Or.inr (by decide))))⟩

/-! ## Properties of `InitConv2DParameters` -/

theorem TF_REQUIRES_false_bind {α : Type} (s : Status) (f : Unit → StatusOr α) :
    (TF_REQUIRES false s >>= f) = .error s := rfl

theorem TF_REQUIRES_true_bind {α : Type} (s : Status) (f : Unit → StatusOr α) :
    (TF_REQUIRES true s >>= f) = f () := rfl

/-- The value of `InitConv2DParameters` on an attribute set whose data format is
valid: the six checks of lines 438-466 in their order, then `CheckValidPadding`. -/
theorem InitConv2DParameters_withAttrs (ext : Externals) (aext : AttrExternals)
    (dilations strides : List Int) (padding : Padding)
    (explicit_paddings : Option (List Int)) (data_format_string : String)
    (data_format : TensorFormat)
    (hfmt : aext.FormatFromString data_format_string = some data_format) :
    InitConv2DParameters ext aext
        (OpKernelConstruction.withAttrs dilations strides padding explicit_paddings
          data_format_string)
      = (TF_REQUIRES (decide (dilations.length = 4))
          (errors.InvalidArgument "Sliding window dilations field must specify 4 dimensions" [])
        >>= fun _ =>
        TF_REQUIRES (decide (strides.length = 4))
          (errors.InvalidArgument "Sliding window strides field must specify 4 dimensions" [])
        >>= fun _ =>
        TF_REQUIRES (decide (ext.GetTensorDim strides data_format 'N' = 1) &&
            decide (ext.GetTensorDim strides data_format 'C' = 1))
          (errors.Unimplemented
            "Current implementation does not yet support strides in the batch and depth dimensions."
            [])
        >>= fun _ =>
        TF_REQUIRES (decide (ext.GetTensorDim strides data_format 'H' > 0) &&
            decide (ext.GetTensorDim strides data_format 'W' > 0))
          (errors.InvalidArgument "Row and column strides should be larger than 0." [])
        >>= fun _ =>
        TF_REQUIRES (decide (ext.GetTensorDim dilations data_format 'N' = 1) &&
            decide (ext.GetTensorDim dilations data_format 'C' = 1))
          (errors.Unimplemented
            "Current implementation does not yet support dilations in the batch and depth dimensions."
            [])
        >>= fun _ =>
        TF_REQUIRES (decide (ext.GetTensorDim dilations data_format 'H' > 0) &&
            decide (ext.GetTensorDim dilations data_format 'W' > 0))
          (errors.InvalidArgument "Dilated rates should be larger than 0." [])
        >>= fun _ =>
        aext.CheckValidPadding padding (explicit_paddings.getD [])
          (if data_format = TensorFormat.FORMAT_NCHW_VECT_C then 5 else 4) data_format
        >>= fun _ =>
        pure
          { dilations := dilations, strides := strides, padding := padding
            data_format := data_format, explicit_paddings := explicit_paddings.getD [] }) := by
  unfold InitConv2DParameters OpKernelConstruction.withAttrs
  cases explicit_paddings with
  | none => simp only [hfmt, bind, Except.bind, pure, Except.pure]; rfl
  | some l => simp only [hfmt, bind, Except.bind, pure, Except.pure]; rfl

theorem InitConv2DParameters_invalid_format (ext : Externals) (aext : AttrExternals)
    (dilations strides : List Int) (padding : Padding)
    (explicit_paddings : Option (List Int)) (data_format_string : String)
    (hfmt : aext.FormatFromString data_format_string = none) :
    InitConv2DParameters ext aext
        (OpKernelConstruction.withAttrs dilations strides padding explicit_paddings
          data_format_string)
      = .error (errors.InvalidArgument "Invalid data format" []) := by
  unfold InitConv2DParameters OpKernelConstruction.withAttrs
  cases explicit_paddings with
  | none => simp only [hfmt, bind, Except.bind, pure, Except.pure]; rfl
  | some l => simp only [hfmt, bind, Except.bind, pure, Except.pure]; rfl

/-- C14 as stated fails: the attribute set with strides `[2,1,1,1]` (batch
stride 2) makes `InitConv2DParameters` fail with Unimplemented, not with
InvalidArgument. -/
theorem InitConv2DParameters_batch_stride_unimplemented :
    nhwcExternals.GetTensorDim [2, 1, 1, 1] TensorFormat.FORMAT_NHWC 'N' ≠ 1 ∧
    ∃ st, InitConv2DParameters nhwcExternals nhwcAttrExternals
        (OpKernelConstruction.withAttrs [1, 1, 1, 1] [2, 1, 1, 1] Padding.SAME none "NHWC")
      = .error st ∧
      st.code = stream_executor.error.Code.UNIMPLEMENTED ∧
      st.code ≠ stream_executor.error.Code.INVALID_ARGUMENT :=
  ⟨by decide, _, by rfl, by rfl, by decide⟩

/-- C14 as amended: for every attribute set, `InitConv2DParameters` fails with
InvalidArgument when strides or dilations do not have 4 entries. When both have
4 entries and the data format is valid, the checks run in the order strides
batch/depth, strides spatial, dilations batch/depth, dilations spatial, and the
first violated one decides the error: a batch or depth component different from
1 gives Unimplemented, a spatial component `<= 0` gives InvalidArgument. -/
theorem InitConv2DParameters_malformed (ext : Externals) (aext : AttrExternals)
    (dilations strides : List Int) (padding : Padding)
    (explicit_paddings : Option (List Int)) (data_format_string : String) :
    ((dilations.length ≠ 4 ∨ strides.length ≠ 4) →
      ∃ st, InitConv2DParameters ext aext
          (OpKernelConstruction.withAttrs dilations strides padding explicit_paddings
            data_format_string) = .error st ∧
        st.code = stream_executor.error.Code.INVALID_ARGUMENT) ∧
    (∀ data_format, aext.FormatFromString data_format_string = some data_format →
      dilations.length = 4 → strides.length = 4 →
      ((ext.GetTensorDim strides data_format 'N' ≠ 1 ∨
          ext.GetTensorDim strides data_format 'C' ≠ 1) →
        ∃ st, InitConv2DParameters ext aext
            (OpKernelConstruction.withAttrs dilations strides padding explicit_paddings
              data_format_string) = .error st ∧
          st.code = stream_executor.error.Code.UNIMPLEMENTED) ∧
      (ext.GetTensorDim strides data_format 'N' = 1 →
        ext.GetTensorDim strides data_format 'C' = 1 →
        (ext.GetTensorDim strides data_format 'H' ≤ 0 ∨
          ext.GetTensorDim strides data_format 'W' ≤ 0) →
        ∃ st, InitConv2DParameters ext aext
            (OpKernelConstruction.withAttrs dilations strides padding explicit_paddings
              data_format_string) = .error st ∧
          st.code = stream_executor.error.Code.INVALID_ARGUMENT) ∧
      (ext.GetTensorDim strides data_format 'N' = 1 →
        ext.GetTensorDim strides data_format 'C' = 1 →
        0 < ext.GetTensorDim strides data_format 'H' →
        0 < ext.GetTensorDim strides data_format 'W' →
        (ext.GetTensorDim dilations data_format 'N' ≠ 1 ∨
          ext.GetTensorDim dilations data_format 'C' ≠ 1) →
        ∃ st, InitConv2DParameters ext aext
            (OpKernelConstruction.withAttrs dilations strides padding explicit_paddings
              data_format_string) = .error st ∧
          st.code = stream_executor.error.Code.UNIMPLEMENTED) ∧
      (ext.GetTensorDim strides data_format 'N' = 1 →
        ext.GetTensorDim strides data_format 'C' = 1 →
        0 < ext.GetTensorDim strides data_format 'H' →
        0 < ext.GetTensorDim strides data_format 'W' →
        ext.GetTensorDim dilations data_format 'N' = 1 →
        ext.GetTensorDim dilations data_format 'C' = 1 →
        (ext.GetTensorDim dilations data_format 'H' ≤ 0 ∨
          ext.GetTensorDim dilations data_format 'W' ≤ 0) →
        ∃ st, InitConv2DParameters ext aext
            (OpKernelConstruction.withAttrs dilations strides padding explicit_paddings
              data_format_string) = .error st ∧
          st.code = stream_executor.error.Code.INVALID_ARGUMENT)) := by
  constructor
  · intro hlen
    cases hfmt : aext.FormatFromString data_format_string with
    | none =>
      rw [InitConv2DParameters_invalid_format _ _ _ _ _ _ _ hfmt]
      exact ⟨_, rfl, rfl⟩
    | some data_format =>
      rw [InitConv2DParameters_withAttrs _ _ _ _ _ _ _ _ hfmt]
      by_cases hd : dilations.length = 4
      · have hs : ¬ strides.length = 4 := by
          rcases hlen with h | h
          · exact absurd hd h
          · exact h
        rw [decide_eq_true hd, TF_REQUIRES_true_bind, decide_eq_false hs,
          TF_REQUIRES_false_bind]
        exact ⟨_, rfl, rfl⟩
      · rw [decide_eq_false hd, TF_REQUIRES_false_bind]
        exact ⟨_, rfl, rfl⟩
  · intro data_format hfmt hd hs
    rw [InitConv2DParameters_withAttrs _ _ _ _ _ _ _ _ hfmt, decide_eq_true hd,
      TF_REQUIRES_true_bind, decide_eq_true hs, TF_REQUIRES_true_bind]
    refine ⟨?_, ?_, ?_, ?_⟩
    · intro hbad
      have hb : (decide (ext.GetTensorDim strides data_format 'N' = 1) &&
          decide (ext.GetTensorDim strides data_format 'C' = 1)) = false := by
        rcases hbad with h | h <;> simp [h]
      rw [hb, TF_REQUIRES_false_bind]
      exact ⟨_, rfl, rfl⟩
    · intro hn hc hbad
      have hb : (decide (ext.GetTensorDim strides data_format 'H' > 0) &&
          decide (ext.GetTensorDim strides data_format 'W' > 0)) = false := by
        rcases hbad with h | h <;> simp [h]
      simp only [hn, hc, decide_True, Bool.and_self, TF_REQUIRES_true_bind]
      rw [hb, TF_REQUIRES_false_bind]
      exact ⟨_, rfl, rfl⟩
    · intro hn hc hh hw hbad
      have hb : (decide (ext.GetTensorDim dilations data_format 'N' = 1) &&
          decide (ext.GetTensorDim dilations data_format 'C' = 1)) = false := by
        rcases hbad with h | h <;> simp [h]
      simp only [hn, hc, decide_True, Bool.and_self, TF_REQUIRES_true_bind, gt_iff_lt, hh, hw]
      rw [hb, TF_REQUIRES_false_bind]
      exact ⟨_, rfl, rfl⟩
    · intro hn hc hh hw hdn hdc hbad
      have hb : (decide (ext.GetTensorDim dilations data_format 'H' > 0) &&
          decide (ext.GetTensorDim dilations data_format 'W' > 0)) = false := by
        rcases hbad with h | h <;> simp [h]
      simp only [hn, hc, decide_True, Bool.and_self, TF_REQUIRES_true_bind, gt_iff_lt, hh, hw,
        hdn, hdc]
      simp only [gt_iff_lt] at hb
      rw [hb, TF_REQUIRES_false_bind]
      exact ⟨_, rfl, rfl⟩

/-- An instance of the amended C14: strides with three entries give
InvalidArgument, and a row stride 0 with unit batch and depth strides gives
InvalidArgument. -/
theorem InitConv2DParameters_malformed_witness :
    ([1, 1, 1, 1].length ≠ 4 ∨ [1, 1, 1].length ≠ 4) ∧
    (∃ st, InitConv2DParameters nhwcExternals nhwcAttrExternals
        (OpKernelConstruction.withAttrs [1, 1, 1, 1] [1, 1, 1] Padding.SAME none "NHWC")
      = .error st ∧ st.code = stream_executor.error.Code.INVALID_ARGUMENT) ∧
    (∃ st, InitConv2DParameters nhwcExternals nhwcAttrExternals
        (OpKernelConstruction.withAttrs [1, 1, 1, 1] [1, 0, 1, 1] Padding.SAME none "NHWC")
      = .error st ∧ st.code = stream_executor.error.Code.INVALID_ARGUMENT) :=
  ⟨by decide,
    (InitConv2DParameters_malformed nhwcExternals nhwcAttrExternals [1, 1, 1, 1] [1, 1, 1]
      Padding.SAME none "NHWC").1 (by decide),
    ((InitConv2DParameters_malformed nhwcExternals nhwcAttrExternals [1, 1, 1, 1] [1, 0, 1, 1]
      Padding.SAME none "NHWC").2 TensorFormat.FORMAT_NHWC (by rfl) (by rfl) (by rfl)).2.1
      (by rfl) (by rfl) (Or.inl (by decide))⟩

/-! ## Properties of the CPU launcher -/

theorem nhwcExternals_exact : nhwcExternals.FastBoundsCheckExact := by
  intro index limit
  simp [nhwcExternals]

/-- What the launcher knows when all its checks pass. -/
theorem LaunchConv2DOpCPU_check_none {ext : Externals} {input filter output : Tensor}
    {explicit_paddings : List Int} {data_format : TensorFormat}
    (h : LaunchConv2DOpCPU.check ext input filter output explicit_paddings data_format = none) :
    data_format = TensorFormat.FORMAT_NHWC ∧
    (∀ p ∈ explicit_paddings, ext.FastBoundsCheck p intMax = true) ∧
    0 < filter.dim_size 2 ∧
    cppMod (input.dim_size 3) (filter.dim_size 2) = 0 ∧
    0 < filter.NumElements ∧
    0 < cppDiv (input.dim_size 3) (filter.dim_size 2) ∧
    cppMod (output.dim_size 3) (cppDiv (input.dim_size 3) (filter.dim_size 2)) = 0 ∧
    cppDiv (input.dim_size 3) (filter.dim_size 2) ≤ output.dim_size 3 := by
  unfold LaunchConv2DOpCPU.check at h
  split at h
  · simp at h
  rename_i h1
  split at h
  · simp at h
  rename_i h2
  simp only at h
  split at h
  · simp at h
  rename_i h3
  split at h
  · simp at h
  rename_i h4
  split at h
  · simp at h
  rename_i h5
  split at h
  · simp at h
  rename_i h6
  split at h
  · simp at h
  rename_i h7
  refine ⟨by simpa using h1, ?_, by omega, by simpa using h4, by omega, by omega, ?_, ?_⟩
  · intro p hp
    have h2' : explicit_paddings.all (fun q => ext.FastBoundsCheck q intMax) = true := by
      simpa using h2
    exact (List.all_eq_true.1 h2') p hp
  · by_contra hne
    exact h7 (Or.inl hne)
  · by_contra hlt
    exact h7 (Or.inr (by omega))

/-- C13 as stated fails: for the input `[2,8,8,8]` and the filter `[3,3,4,7]` the
resolver succeeds with 2 groups and output depth 7, which 2 does not divide. -/
theorem ComputeConv2DDimension_out_depth_not_divisible :
    ComputeConv2DDimension nhwcExternals paramsSame input2888 filter3347 = .ok resolved3347 ∧
    ¬ (resolved3347.in_depth / resolved3347.patch_depth ∣ resolved3347.out_depth) :=
  ⟨by rfl, by decide⟩

/-- C13 as amended: whenever `ComputeConv2DDimension` succeeds and the checks of
the CPU launcher pass on NHWC tensors whose depths are the resolved ones (input
dimension 3, filter dimension 2, dimension 3 of the output of the resolved
shape), the resolved output depth is divisible by the group count
`in_depth / patch_depth` and is at least the group count. -/
theorem LaunchConv2DOpCPU_out_depth_divisible (ext : Externals) (env : KernelEnv)
    (params : Conv2DParameters) (input filter : Tensor) (d : Conv2DDimensions)
    (h : ComputeConv2DDimension ext params input filter = .ok d)
    (hin : input.dim_size 3 = d.in_depth) (hpatch : filter.dim_size 2 = d.patch_depth)
    (hout : Tensor.dim_size { dim_sizes := outShape env params d } 3 = d.out_depth)
    (hcheck : LaunchConv2DOpCPU.check ext input filter { dim_sizes := outShape env params d }
      params.explicit_paddings params.data_format = none) :
    d.in_depth / d.patch_depth ∣ d.out_depth ∧
    d.out_depth % (d.in_depth / d.patch_depth) = 0 ∧
    d.in_depth / d.patch_depth ≤ d.out_depth := by
  obtain ⟨-, -, -, -, -, -, -, -, hp, -⟩ := ComputeConv2DDimension_ok_checks h
  obtain ⟨-, -, -, -, -, hg, hm, hle⟩ := LaunchConv2DOpCPU_check_none hcheck
  rw [hin, hpatch] at hg hm hle
  rw [hout] at hm hle
  unfold cppDiv at hg hm hle
  unfold cppMod at hm
  have hin0 : 0 ≤ d.in_depth := by
    by_contra hneg
    have h1 : d.in_depth.tdiv d.patch_depth = -((-d.in_depth).tdiv d.patch_depth) := by
      rw [Int.neg_tdiv, neg_neg]
    have h2 := Int.tdiv_nonneg (a := -d.in_depth) (b := d.patch_depth) (by omega) (by omega)
    omega
  have hdiv : d.in_depth.tdiv d.patch_depth = d.in_depth / d.patch_depth :=
    Int.tdiv_eq_ediv hin0 (le_of_lt hp)
  rw [hdiv] at hg hm hle
  have hdvd : d.in_depth / d.patch_depth ∣ d.out_depth := Int.dvd_of_tmod_eq_zero hm
  exact ⟨hdvd, Int.emod_eq_zero_of_dvd hdvd, hle⟩

/-- An instance of the amended C13: scenario 2, with 2 groups and output depth 8. -/
theorem LaunchConv2DOpCPU_out_depth_divisible_witness :
    ComputeConv2DDimension nhwcExternals paramsSame input2888 filter3348 = .ok resolved3348 ∧
    LaunchConv2DOpCPU.check nhwcExternals input2888 filter3348
      { dim_sizes := outShape nhwcEnv paramsSame resolved3348 }
      paramsSame.explicit_paddings paramsSame.data_format = none ∧
    (resolved3348.in_depth / resolved3348.patch_depth ∣ resolved3348.out_depth ∧
      resolved3348.out_depth % (resolved3348.in_depth / resolved3348.patch_depth) = 0 ∧
      resolved3348.in_depth / resolved3348.patch_depth ≤ resolved3348.out_depth) :=
  ⟨by rfl, by rfl,
    LaunchConv2DOpCPU_out_depth_divisible nhwcExternals nhwcEnv paramsSame input2888 filter3348
      resolved3348 (by rfl) (by rfl) (by rfl) (by rfl) (by rfl)⟩

/-- The loop of lines 262-267: on NHWC tensors the launcher stops with the
status `explicitPaddingRejected`, and runs nothing, exactly when some explicit
padding fails `FastBoundsCheck(explicit_padding, INT_MAX)`. -/
theorem LaunchConv2DOpCPU_padding_check (ext : Externals) (env : KernelEnv)
    (input filter output : Tensor)
    (row_dilation col_dilation row_stride col_stride : Int) (padding : Padding)
    (explicit_paddings : List Int) :
    ((∃ p ∈ explicit_paddings, ext.FastBoundsCheck p intMax = false) →
      LaunchConv2DOpCPU ext env input filter row_dilation col_dilation row_stride col_stride
        padding explicit_paddings output TensorFormat.FORMAT_NHWC
        = [Event.SetStatus explicitPaddingRejected]) ∧
    ((∀ p ∈ explicit_paddings, ext.FastBoundsCheck p intMax = true) →
      LaunchConv2DOpCPU.check ext input filter output explicit_paddings
        TensorFormat.FORMAT_NHWC ≠ some explicitPaddingRejected) := by
  constructor
  · rintro ⟨p, hp, hbad⟩
    have hall : explicit_paddings.all (fun q => ext.FastBoundsCheck q intMax) = false := by
      rw [List.all_eq_false]
      exact ⟨p, hp, by simp [hbad]⟩
    unfold LaunchConv2DOpCPU LaunchConv2DOpCPU.check
    simp [hall, explicitPaddingRejected]
  · intro hgood
    have hall : explicit_paddings.all (fun q => ext.FastBoundsCheck q intMax) = true :=
      List.all_eq_true.2 hgood
    intro hck
    unfold LaunchConv2DOpCPU.check at hck
    rw [hall] at hck
    simp only [ne_eq, not_true_eq_false, if_false, Bool.not_true, Bool.false_eq_true] at hck
    repeat' split at hck
    all_goals simp [explicitPaddingRejected, errors.InvalidArgument] at hck

/-- C15 as stated fails: all values of `paddingsIntMax` lie in `[0, 2^31 - 1]`,
and the launcher rejects the list with the status of the padding loop. -/
theorem LaunchConv2DOpCPU_rejects_padding_intMax :
    (∀ p ∈ paddingsIntMax, 0 ≤ p ∧ p ≤ 2147483647) ∧
    LaunchConv2DOpCPU nhwcExternals nhwcEnv input2888 filter3348 1 1 1 1 Padding.EXPLICIT
      paddingsIntMax output2888 TensorFormat.FORMAT_NHWC
      = [Event.SetStatus explicitPaddingRejected] ∧
    explicitPaddingRejected.code = stream_executor.error.Code.INVALID_ARGUMENT :=
  ⟨by decide, by rfl, by rfl⟩

/-- C15 as amended: when `FastBoundsCheck` is the range test `0 <= index < limit`,
for NHWC input the CPU launcher sets an InvalidArgument status and runs nothing
else whenever some explicit padding value is negative or at least `2^31 - 1`
(in particular when it does not fit a 32-bit signed int), and it never rejects
on padding grounds a list all of whose values lie in `[0, 2^31 - 2]`. -/
theorem LaunchConv2DOpCPU_padding_bounds (ext : Externals) (hfb : ext.FastBoundsCheckExact)
    (env : KernelEnv) (input filter output : Tensor)
    (row_dilation col_dilation row_stride col_stride : Int) (padding : Padding)
    (explicit_paddings : List Int) :
    ((∃ p ∈ explicit_paddings, p < 0 ∨ 2147483647 ≤ p) →
      LaunchConv2DOpCPU ext env input filter row_dilation col_dilation row_stride col_stride
        padding explicit_paddings output TensorFormat.FORMAT_NHWC
        = [Event.SetStatus explicitPaddingRejected] ∧
      explicitPaddingRejected.code = stream_executor.error.Code.INVALID_ARGUMENT) ∧
    ((∀ p ∈ explicit_paddings, 0 ≤ p ∧ p ≤ 2147483646) →
      LaunchConv2DOpCPU.check ext input filter output explicit_paddings
        TensorFormat.FORMAT_NHWC ≠ some explicitPaddingRejected) := by
  obtain ⟨hbad, hgood⟩ := LaunchConv2DOpCPU_padding_check ext env input filter output
    row_dilation col_dilation row_stride col_stride padding explicit_paddings
  constructor
  · rintro ⟨p, hp, hrange⟩
    refine ⟨hbad ⟨p, hp, ?_⟩, rfl⟩
    cases hc : ext.FastBoundsCheck p intMax with
    | false => rfl
    | true =>
      have := (hfb p intMax).1 hc
      unfold intMax at this
      omega
  · intro hrange
    have hall : ∀ p ∈ explicit_paddings, ext.FastBoundsCheck p intMax = true := by
      intro p hp
      obtain ⟨h0, h1⟩ := hrange p hp
      exact (hfb p intMax).2 ⟨h0, by unfold intMax; omega⟩
    exact hgood hall

/-- An instance of the amended C15: a list with the value -1 is rejected, and the
list `[0,0,1,2,3,4,0,0]` is not rejected on padding grounds. -/
theorem LaunchConv2DOpCPU_padding_bounds_witness :
    nhwcExternals.FastBoundsCheckExact ∧
    (∃ p ∈ paddingsNegative, p < 0 ∨ 2147483647 ≤ p) ∧
    (LaunchConv2DOpCPU nhwcExternals nhwcEnv input2888 filter3348 1 1 1 1 Padding.EXPLICIT
        paddingsNegative output2888 TensorFormat.FORMAT_NHWC
        = [Event.SetStatus explicitPaddingRejected] ∧
      explicitPaddingRejected.code = stream_executor.error.Code.INVALID_ARGUMENT) ∧
    (∀ p ∈ paddingsSmall, 0 ≤ p ∧ p ≤ 2147483646) ∧
    LaunchConv2DOpCPU.check nhwcExternals input2888 filter3348 output2888 paddingsSmall
      TensorFormat.FORMAT_NHWC ≠ some explicitPaddingRejected :=
  ⟨nhwcExternals_exact, by decide,
    (LaunchConv2DOpCPU_padding_bounds nhwcExternals nhwcExternals_exact nhwcEnv input2888
      filter3348 output2888 1 1 1 1 Padding.EXPLICIT paddingsNegative).1 (by decide),
    by decide,
    (LaunchConv2DOpCPU_padding_bounds nhwcExternals nhwcExternals_exact nhwcEnv input2888
      filter3348 output2888 1 1 1 1 Padding.EXPLICIT paddingsSmall).2 (by decide)⟩

/-! ## Properties of `Conv2DOp::Compute` on the CPU -/

/-- The steps of `Compute` once the dimensions are resolved, the output is
allocated, neither the output nor the input is empty and the transform-domain
kernel does not take the convolution: the output allocation, then the launcher. -/
theorem Compute_reaches_launcher {ext : Externals} {env : KernelEnv} {dtype : DataType}
    {params : Conv2DParameters} {input filter : Tensor} {d : Conv2DDimensions}
    (hd : ComputeConv2DDimension ext params input filter = .ok d)
    (halloc : env.allocate_output (outShape env params d) = .ok ())
    (hout : (outShape env params d).prod ≠ 0) (hin : input.NumElements ≠ 0)
    (hdeep : ¬ (params.padding ≠ Padding.EXPLICIT ∧
      LaunchDeepConvOp.Run env dtype d params.data_format = true)) :
    Conv2DOp.Compute ext env dtype params input filter
      = Event.allocate_output (outShape env params d) ::
          LaunchConv2DOpCPU ext env input filter d.dilation_rows d.dilation_cols
            d.stride_rows d.stride_cols params.padding params.explicit_paddings
            { dim_sizes := outShape env params d } params.data_format := by
  unfold Conv2DOp.Compute
  simp only [hd, halloc]
  rw [if_neg hout, if_neg hin, if_neg hdeep]

theorem matmulStep_no_status (output input filter : Tensor)
    (out_shape in_shape filter_shape : List Int) (st : Status) :
    Event.SetStatus st ∉ LaunchGeneric.matmulStep output input filter out_shape in_shape
      filter_shape := by
  unfold LaunchGeneric.matmulStep
  split
  · simp
  · simp

theorem LaunchGeneric_no_status (input filter output : Tensor)
    (row_stride col_stride row_dilation col_dilation : Int) (padding : Padding) (st : Status) :
    Event.SetStatus st ∉ LaunchGeneric input filter output row_stride col_stride row_dilation
      col_dilation padding := by
  unfold LaunchGeneric
  split
  · exact matmulStep_no_status _ _ _ _ _ _ _
  · split
    · exact matmulStep_no_status _ _ _ _ _ _ _
    · simp

theorem LaunchGrouped_status {env : KernelEnv} {input filter output : Tensor}
    {padding : Padding} {st : Status}
    (h : Event.SetStatus st ∈ LaunchGrouped env input filter output padding) :
    ∃ shape, env.allocate_temp shape = .error st := by
  unfold LaunchGrouped at h
  simp only at h
  split at h
  · rename_i s hs
    simp only [List.mem_singleton, Event.SetStatus.injEq] at h
    exact ⟨_, by rw [hs, h]⟩
  · split at h
    · rename_i s hs
      simp only [List.mem_append, List.mem_cons, List.mem_singleton, Event.SetStatus.injEq,
        reduceCtorEq, false_or, List.not_mem_nil, or_false] at h
      exact ⟨_, by rw [hs, h]⟩
    · split at h
      · rename_i s hs
        simp only [List.mem_append, List.mem_cons, List.mem_singleton, Event.SetStatus.injEq,
          reduceCtorEq, false_or, List.not_mem_nil, or_false] at h
        exact ⟨_, by rw [hs, h]⟩
      · simp at h

/-- C16 as stated fails: for the input `[2,8,8,8]` and the filter `[3,3,4,7]` the
kernel allocates the output `[2,8,8,7]` and then sets an InvalidArgument status. -/
theorem Compute_invalid_argument_after_allocation :
    ∃ st, Conv2DOp.Compute nhwcExternals nhwcEnv DataType.DT_FLOAT paramsSame input2888
        filter3347 = [Event.allocate_output [2, 8, 8, 7], Event.SetStatus st] ∧
      st.code = stream_executor.error.Code.INVALID_ARGUMENT :=
  ⟨_, by rfl, by rfl⟩

/-- C16 as amended: when the allocators never fail with InvalidArgument, every
InvalidArgument status set during `Conv2DOp::Compute` on the CPU is either the
error of `ComputeConv2DDimension`, set before anything is allocated, or the
status of a failed check of the CPU launcher, set right after the output tensor
is allocated and before any temporary tensor is allocated or any functor runs. -/
theorem Compute_invalid_argument_order (ext : Externals) (env : KernelEnv)
    (dtype : DataType) (params : Conv2DParameters) (input filter : Tensor) (st : Status)
    (hao : ∀ shape s, env.allocate_output shape = .error s →
      s.code ≠ stream_executor.error.Code.INVALID_ARGUMENT)
    (hat : ∀ shape s, env.allocate_temp shape = .error s →
      s.code ≠ stream_executor.error.Code.INVALID_ARGUMENT)
    (hcode : st.code = stream_executor.error.Code.INVALID_ARGUMENT)
    (hmem : Event.SetStatus st ∈ Conv2DOp.Compute ext env dtype params input filter) :
    (ComputeConv2DDimension ext params input filter = .error st ∧
      Conv2DOp.Compute ext env dtype params input filter = [Event.SetStatus st]) ∨
    (∃ d, ComputeConv2DDimension ext params input filter = .ok d ∧
      LaunchConv2DOpCPU.check ext input filter { dim_sizes := outShape env params d }
        params.explicit_paddings params.data_format = some st ∧
      Conv2DOp.Compute ext env dtype params input filter
        = [Event.allocate_output (outShape env params d), Event.SetStatus st]) := by
  unfold Conv2DOp.Compute at hmem ⊢
  cases hd : ComputeConv2DDimension ext params input filter with
  | error s =>
    rw [hd] at hmem
    simp only [List.mem_singleton, Event.SetStatus.injEq] at hmem
    left
    rw [hmem]
    exact ⟨rfl, rfl⟩
  | ok d =>
    rw [hd] at hmem
    simp only at hmem ⊢
    cases ha : env.allocate_output (outShape env params d) with
    | error s =>
      rw [ha] at hmem
      simp only [List.mem_singleton, Event.SetStatus.injEq] at hmem
      exact absurd (hmem ▸ hcode) (hao _ _ ha)
    | ok u =>
      rw [ha] at hmem
      simp only [List.mem_cons, reduceCtorEq, false_or] at hmem
      right
      refine ⟨d, rfl, ?_⟩
      split at hmem
      · simp at hmem
      · split at hmem
        · simp at hmem
        · split at hmem
          · simp at hmem
          · rename_i h1 h2 h3
            rw [if_neg h1, if_neg h2, if_neg h3]
            unfold LaunchConv2DOpCPU at hmem ⊢
            cases hck : LaunchConv2DOpCPU.check ext input filter
                { dim_sizes := outShape env params d } params.explicit_paddings
                params.data_format with
            | some s =>
              rw [hck] at hmem
              simp only [List.mem_singleton, Event.SetStatus.injEq] at hmem
              rw [hmem]
              exact ⟨rfl, rfl⟩
            | none =>
              rw [hck] at hmem
              simp only at hmem
              split at hmem
              · obtain ⟨shape, hs⟩ := LaunchGrouped_status hmem
                exact absurd hcode (hat _ _ hs)
              · exact absurd hmem (LaunchGeneric_no_status _ _ _ _ _ _ _ _ _)

/-- An instance of the amended C16: the status set for the filter `[3,3,4,7]` is
the status of the launcher's checks and follows the output allocation only. -/
theorem Compute_invalid_argument_order_witness :
    (∀ shape s, nhwcEnv.allocate_output shape = .error s →
      s.code ≠ stream_executor.error.Code.INVALID_ARGUMENT) ∧
    (∀ shape s, nhwcEnv.allocate_temp shape = .error s →
      s.code ≠ stream_executor.error.Code.INVALID_ARGUMENT) ∧
    (errors.InvalidArgument "output depth must be evenly divisible by number of groups: %d vs %d"
      [7, 2]).code = stream_executor.error.Code.INVALID_ARGUMENT ∧
    Event.SetStatus (errors.InvalidArgument
        "output depth must be evenly divisible by number of groups: %d vs %d" [7, 2])
      ∈ Conv2DOp.Compute nhwcExternals nhwcEnv DataType.DT_FLOAT paramsSame input2888
          filter3347 ∧
    ((ComputeConv2DDimension nhwcExternals paramsSame input2888 filter3347
        = .error (errors.InvalidArgument
            "output depth must be evenly divisible by number of groups: %d vs %d" [7, 2]) ∧
      Conv2DOp.Compute nhwcExternals nhwcEnv DataType.DT_FLOAT paramsSame input2888 filter3347
        = [Event.SetStatus (errors.InvalidArgument
            "output depth must be evenly divisible by number of groups: %d vs %d" [7, 2])]) ∨
    (∃ d, ComputeConv2DDimension nhwcExternals paramsSame input2888 filter3347 = .ok d ∧
      LaunchConv2DOpCPU.check nhwcExternals input2888 filter3347
        { dim_sizes := outShape nhwcEnv paramsSame d }
        paramsSame.explicit_paddings paramsSame.data_format
        = some (errors.InvalidArgument
            "output depth must be evenly divisible by number of groups: %d vs %d" [7, 2]) ∧
      Conv2DOp.Compute nhwcExternals nhwcEnv DataType.DT_FLOAT paramsSame input2888 filter3347
        = [Event.allocate_output (outShape nhwcEnv paramsSame d),
           Event.SetStatus (errors.InvalidArgument
            "output depth must be evenly divisible by number of groups: %d vs %d" [7, 2])])) :=
  ⟨fun _ _ h => by simp [nhwcEnv] at h, fun _ _ h => by simp [nhwcEnv] at h, by rfl,
    by decide,
    Compute_invalid_argument_order nhwcExternals nhwcEnv DataType.DT_FLOAT paramsSame input2888
      filter3347 _ (fun _ _ h => by simp [nhwcEnv] at h) (fun _ _ h => by simp [nhwcEnv] at h)
      (by rfl) (by decide)⟩

/-- C17 as stated fails: the 1x1 filter `[1,1,2,4]` on the input `[1,5,5,4]` (2
groups), with unit strides and dilations and VALID padding, passes every check,
and the kernel runs `LaunchGrouped`: no step is a matrix multiplication. -/
theorem Compute_pointwise_grouped_no_matmul :
    filter1124.dim_size 0 = 1 ∧ filter1124.dim_size 1 = 1 ∧
    paramsUnit.padding = Padding.VALID ∧
    Conv2DOp.Compute nhwcExternals nhwcEnv DataType.DT_DOUBLE paramsUnit input1554 filter1124
      = [Event.allocate_output [1, 5, 5, 4],
         Event.allocate_temp [2, 1, 5, 5, 2], Event.shuffle [3, 0, 1, 2, 4],
         Event.allocate_temp [2, 1, 1, 2, 2], Event.shuffle [3, 0, 1, 2, 4],
         Event.allocate_temp [2, 1, 5, 5, 2],
         Event.groupSpatialConvolution 0 false, Event.groupSpatialConvolution 1 false,
         Event.shuffle [1, 2, 3, 0, 4]] ∧
    (Conv2DOp.Compute nhwcExternals nhwcEnv DataType.DT_DOUBLE paramsUnit input1554
      filter1124).any Event.isMatMul = false :=
  ⟨by rfl, by rfl, by rfl, by rfl, by rfl⟩

/-- When the transform-domain kernel does not take the convolution, a
convolution whose input depth differs from the filter depth and which passes
the checks of the launcher runs `LaunchGrouped` after the output allocation. -/
theorem Compute_grouped_without_deep_conv (ext : Externals) (env : KernelEnv)
    (dtype : DataType) (params : Conv2DParameters) (input filter : Tensor)
    (d : Conv2DDimensions)
    (hd : ComputeConv2DDimension ext params input filter = .ok d)
    (halloc : env.allocate_output (outShape env params d) = .ok ())
    (hout : (outShape env params d).prod ≠ 0) (hin : input.NumElements ≠ 0)
    (hdeep : LaunchDeepConvOp.Run env dtype d params.data_format = false)
    (hcheck : LaunchConv2DOpCPU.check ext input filter { dim_sizes := outShape env params d }
      params.explicit_paddings params.data_format = none)
    (hdepth : input.dim_size 3 ≠ filter.dim_size 2) :
    Conv2DOp.Compute ext env dtype params input filter
      = Event.allocate_output (outShape env params d) ::
          LaunchGrouped env input filter { dim_sizes := outShape env params d }
            params.padding := by
  have hnd : ¬ (params.padding ≠ Padding.EXPLICIT ∧
      LaunchDeepConvOp.Run env dtype d params.data_format = true) := by
    rw [hdeep]
    simp
  rw [Compute_reaches_launcher hd halloc hout hin hnd]
  unfold LaunchConv2DOpCPU
  rw [hcheck]
  simp only [hdepth, ne_eq, not_false_eq_true, if_true]

/-- C18, evaluated where it fails: for `float`, the NHWC input `[2,8,8,64]`, the
filter `[3,3,32,64]` (2 groups), stride 1, SAME, and an applicability predicate
that accepts 3x3 filters with unit strides, `Compute` runs the transform-domain
kernel and returns: `LaunchGrouped` is never reached. -/
theorem Compute_grouped_taken_by_deep_conv :
    input28864.dim_size 3 ≠ filter333264.dim_size 2 ∧
    Conv2DOp.Compute nhwcExternals deepConvEnv DataType.DT_FLOAT paramsSame input28864
      filter333264 = [Event.allocate_output [2, 8, 8, 64], Event.DeepConv2D] ∧
    (Conv2DOp.Compute nhwcExternals deepConvEnv DataType.DT_FLOAT paramsSame input28864
      filter333264).any Event.isGrouped = false :=
  ⟨by decide, by rfl, by rfl⟩

/-! ## Lemmas on tensor contents -/

theorem mul_add_div_of_lt (x y d : Nat) (h : y < d) : (x * d + y) / d = x := by
  rw [Nat.add_comm, Nat.add_mul_div_right _ _ (by omega), Nat.div_eq_of_lt h, Nat.zero_add]

theorem mul_add_mod_of_lt (x y d : Nat) (h : y < d) : (x * d + y) % d = y := by
  rw [Nat.add_comm, Nat.add_mul_mod_self_right, Nat.mod_eq_of_lt h]

theorem shuffleIndex_groupShuffle (idx : Fin 5 → Nat) :
    shuffleIndex groupShuffle idx = ![idx 1, idx 2, idx 3, idx 0, idx 4] := by
  funext j
  fin_cases j <;> simp [shuffleIndex, groupShuffle, Fin.sum_univ_five]

theorem shuffleIndex_groupRevShuffle (idx : Fin 5 → Nat) :
    shuffleIndex groupRevShuffle idx = ![idx 3, idx 0, idx 1, idx 2, idx 4] := by
  funext j
  fin_cases j <;> simp [shuffleIndex, groupRevShuffle, Fin.sum_univ_five]

/-- Reading back the index of a row-major offset: every entry but the first has
to be within its dimension size. -/
theorem unravel5_index5 (dims idx : Fin 5 → Nat) (h1 : idx 1 < dims 1) (h2 : idx 2 < dims 2)
    (h3 : idx 3 < dims 3) (h4 : idx 4 < dims 4) :
    unravel5 dims (index5 dims idx) = idx := by
  unfold unravel5 index5
  rw [mul_add_div_of_lt _ _ _ h4, mul_add_div_of_lt _ _ _ h3, mul_add_div_of_lt _ _ _ h2,
    mul_add_div_of_lt _ _ _ h1, mul_add_mod_of_lt _ _ _ h4, mul_add_mod_of_lt _ _ _ h3,
    mul_add_mod_of_lt _ _ _ h2, mul_add_mod_of_lt _ _ _ h1]
  funext j
  fin_cases j <;> rfl

/-- The 5-D view of `pre_shuffle` reads channel `g * (depth / groups) + c` of
the 4-D tensor at the position `(g, c)` of its last two dimensions. -/
theorem shaped5_pre_shuffle {α : Type} (t : TensorBuf α) (G : Nat)
    (hG : G * (t.dim_size 3 / G) = t.dim_size 3) (idx : Fin 5 → Nat) :
    (t.shaped5 (t.pre_shuffle G)).coeff idx
      = t.tensor4.coeff ![idx 0, idx 1, idx 2, idx 3 * (t.dim_size 3 / G) + idx 4] := by
  unfold TensorBuf.shaped5 TensorBuf.tensor4
  simp only
  congr 1
  have e1 : dimsFn (n := 5) (t.pre_shuffle G) 1 = t.dim_size 1 := rfl
  have e2 : dimsFn (n := 5) (t.pre_shuffle G) 2 = t.dim_size 2 := rfl
  have e3 : dimsFn (n := 5) (t.pre_shuffle G) 3 = G := rfl
  have e4 : dimsFn (n := 5) (t.pre_shuffle G) 4 = t.dim_size 3 / G := rfl
  have f1 : dimsFn (n := 4) t.dim_sizes 1 = t.dim_size 1 := rfl
  have f2 : dimsFn (n := 4) t.dim_sizes 2 = t.dim_size 2 := rfl
  have f3 : dimsFn (n := 4) t.dim_sizes 3 = t.dim_size 3 := rfl
  unfold index5 index4
  rw [e1, e2, e3, e4, f1, f2, f3]
  simp only [Matrix.cons_val_zero, Matrix.cons_val_one, Matrix.head_cons, Matrix.cons_val_two,
    Matrix.tail_cons, Matrix.cons_val_three]
  generalize t.dim_size 3 / G = cg at hG ⊢
  rw [← hG]
  ring

/-- Slice `i` of a shuffled temporary holds, within its dimension sizes, the
channels `[i*size, (i+1)*size)` of the tensor it was shuffled from. -/
theorem chip0_shuffled {α : Type} (t : TensorBuf α) (G : Nat)
    (hG : G * (t.dim_size 3 / G) = t.dim_size 3) (i : Nat) (idx : Fin 4 → Nat)
    (h0 : idx 0 < t.dim_size 0) (h1 : idx 1 < t.dim_size 1) (h2 : idx 2 < t.dim_size 2)
    (h3 : idx 3 < t.dim_size 3 / G) :
    ((Expr.assign5 (t.post_shuffle G) (t.post_shuffle G)
        ((t.shaped5 (t.pre_shuffle G)).shuffle groupShuffle)).tensor5.chip0 i).coeff idx
      = (t.tensor4.channelSlice i (t.dim_size 3 / G)).coeff idx := by
  have hrt : unravel5 (dimsFn (t.post_shuffle G))
      (index5 (dimsFn (t.post_shuffle G)) (Fin.cons i idx)) = Fin.cons i idx :=
    unravel5_index5 _ _ h0 h1 h2 h3
  show ((t.shaped5 (t.pre_shuffle G)).shuffle groupShuffle).coeff
      (unravel5 (dimsFn (t.post_shuffle G))
        (index5 (dimsFn (t.post_shuffle G)) (Fin.cons i idx))) = _
  rw [hrt]
  show (t.shaped5 (t.pre_shuffle G)).coeff (shuffleIndex groupShuffle (Fin.cons i idx)) = _
  rw [shuffleIndex_groupShuffle, shaped5_pre_shuffle t G hG]
  rfl
theorem index4_eq_index5_pre {α : Type} (t : TensorBuf α) (G : Nat)
    (hG : G * (t.dim_size 3 / G) = t.dim_size 3) (n h w g c : Nat) :
    index4 (dimsFn t.dim_sizes) ![n, h, w, g * (t.dim_size 3 / G) + c]
      = index5 (dimsFn (t.pre_shuffle G)) ![n, h, w, g, c] := by
  have e1 : dimsFn (n := 5) (t.pre_shuffle G) 1 = t.dim_size 1 := rfl
  have e2 : dimsFn (n := 5) (t.pre_shuffle G) 2 = t.dim_size 2 := rfl
  have e3 : dimsFn (n := 5) (t.pre_shuffle G) 3 = G := rfl
  have e4 : dimsFn (n := 5) (t.pre_shuffle G) 4 = t.dim_size 3 / G := rfl
  have f1 : dimsFn (n := 4) t.dim_sizes 1 = t.dim_size 1 := rfl
  have f2 : dimsFn (n := 4) t.dim_sizes 2 = t.dim_size 2 := rfl
  have f3 : dimsFn (n := 4) t.dim_sizes 3 = t.dim_size 3 := rfl
  unfold index5 index4
  rw [e1, e2, e3, e4, f1, f2, f3]
  simp only [Matrix.cons_val_zero, Matrix.cons_val_one, Matrix.head_cons, Matrix.cons_val_two,
    Matrix.tail_cons, Matrix.cons_val_three, Matrix.cons_val_four]
  generalize t.dim_size 3 / G = cg at hG ⊢
  rw [← hG]
  ring

/-- The value that `LaunchGrouped` writes at an output position, in terms of
the functor applied to the slices of the two shuffled temporaries. -/
theorem LaunchGrouped_output_coeff {α : Type} (conv : SpatialConvolutionFn α)
    (input filter output : TensorBuf α) (G : Nat)
    (hGdef : G = input.dim_size 3 / filter.dim_size 2)
    (hGO : G * (output.dim_size 3 / G) = output.dim_size 3)
    (i n oh ow o' : Nat) (hi : i < G) (hn : n < output.dim_size 0)
    (hoh : oh < output.dim_size 1) (how : ow < output.dim_size 2)
    (ho : o' < output.dim_size 3 / G) :
    (LaunchGrouped.output conv input filter output).tensor4.coeff
        ![n, oh, ow, i * (output.dim_size 3 / G) + o']
      = conv
          ((Expr.assign5 (input.post_shuffle G) (input.post_shuffle G)
            ((input.shaped5 (input.pre_shuffle G)).shuffle groupShuffle)).tensor5.chip0 i)
          ((Expr.assign5 (filter.post_shuffle G) (filter.post_shuffle G)
            ((filter.shaped5 (filter.pre_shuffle G)).shuffle groupShuffle)).tensor5.chip0 i)
          (fun j => dimsFn (output.post_shuffle G) j.succ)
          ![n, oh, ow, o'] := by
  subst hGdef
  generalize hGG : input.dim_size 3 / filter.dim_size 2 = G at *
  unfold LaunchGrouped.output
  simp only [hGG]
  unfold TensorBuf.tensor4
  simp only
  have hdims : (Expr.assign5 output.dim_sizes (output.pre_shuffle G)
      ((Expr.assign5 (output.post_shuffle G) (output.post_shuffle G)
        { dims := dimsFn (output.post_shuffle G)
          coeff := fun idx =>
            conv
              ((Expr.assign5 (input.post_shuffle G) (input.post_shuffle G)
                ((input.shaped5 (input.pre_shuffle G)).shuffle groupShuffle)).tensor5.chip0
                (idx 0))
              ((Expr.assign5 (filter.post_shuffle G) (filter.post_shuffle G)
                ((filter.shaped5 (filter.pre_shuffle G)).shuffle groupShuffle)).tensor5.chip0
                (idx 0))
              (fun j => dimsFn (output.post_shuffle G) j.succ)
              (fun j => idx j.succ) }).tensor5.shuffle groupRevShuffle)).dim_sizes
      = output.dim_sizes := rfl
  rw [hdims, index4_eq_index5_pre output G hGO]
  unfold Expr.assign5
  simp only
  rw [unravel5_index5 _ _ hoh how hi ho]
  unfold Expr.shuffle TensorBuf.tensor5 TensorBuf.shaped5
  simp only
  rw [shuffleIndex_groupRevShuffle]
  simp only [Matrix.cons_val_zero, Matrix.cons_val_one, Matrix.head_cons, Matrix.cons_val_two,
    Matrix.tail_cons, Matrix.cons_val_three, Matrix.cons_val_four]
  rw [unravel5_index5 _ _ hn hoh how ho]
  simp only [Matrix.cons_val_zero]
  congr 1

/-- The reference convolution reads its arguments within their dimension sizes. -/
theorem referenceConv_local {α : Type} [Semiring α]
    (stride_rows stride_cols dilation_rows dilation_cols pad_top pad_left : Nat) :
    (referenceConv (α := α) stride_rows stride_cols dilation_rows dilation_cols pad_top
      pad_left).Local := by
  intro a a' b b' out_dims idx hda hdb ha hb
  unfold referenceConv
  rw [← hdb]
  refine Finset.sum_congr rfl (fun fr hfr => Finset.sum_congr rfl (fun fc hfc =>
    Finset.sum_congr rfl (fun i hi => ?_)))
  have h1 : a.paddedAt (idx 0) (idx 1 * stride_rows + fr * dilation_rows)
      (idx 2 * stride_cols + fc * dilation_cols) i pad_top pad_left
      = a'.paddedAt (idx 0) (idx 1 * stride_rows + fr * dilation_rows)
      (idx 2 * stride_cols + fc * dilation_cols) i pad_top pad_left := by
    unfold Expr.paddedAt
    rw [← hda]
    split
    · rename_i hr
      apply ha
      intro j
      fin_cases j
      · exact hr.1
      · exact hr.2.2.1
      · exact hr.2.2.2.2.1
      · exact hr.2.2.2.2.2
    · rfl
  have h2 : (if idx 3 < b.dims 3 then b.coeff ![fr, fc, i, idx 3] else 0)
      = (if idx 3 < b.dims 3 then b'.coeff ![fr, fc, i, idx 3] else 0) := by
    split
    · rename_i hr
      apply hb
      intro j
      fin_cases j
      · exact Finset.mem_range.1 hfr
      · exact Finset.mem_range.1 hfc
      · exact Finset.mem_range.1 hi
      · exact hr
    · rfl
  rw [h1, h2]

/-! ## Properties of the grouped path -/

/-- C19 (grouped equivalence): under the checks of the CPU launcher (filter
depth dividing the input depth, at least one group, output depth divisible by
the group count `g = in_depth / patch_depth`), for an output whose depth is the filter's
output depth and a `SpatialConvolution` that reads its arguments within their
dimension sizes: with `og = out_depth / g`, for every group `i < g` the value
that `LaunchGrouped` writes at depth channel `i*og + o'` of an output position
is the value at channel `o'` of the spatial convolution of the input restricted
to depth channels `[i*patch_depth, (i+1)*patch_depth)` with the filter
restricted to output channels `[i*og, (i+1)*og)`; so the output is the
depth-wise concatenation of these `g` convolutions. -/
theorem LaunchGrouped_output_concatenates {α : Type} (conv : SpatialConvolutionFn α)
    (hconv : conv.Local) (input filter output : TensorBuf α)
    (hdiv : input.dim_size 3 % filter.dim_size 2 = 0)
    (hg : 1 ≤ input.dim_size 3 / filter.dim_size 2)
    (hog : output.dim_size 3 % (input.dim_size 3 / filter.dim_size 2) = 0)
    (hfo : filter.dim_size 3 = output.dim_size 3) :
    (∀ i n oh ow o', i < input.dim_size 3 / filter.dim_size 2 →
      n < output.dim_size 0 → oh < output.dim_size 1 → ow < output.dim_size 2 →
      o' < output.dim_size 3 / (input.dim_size 3 / filter.dim_size 2) →
      (LaunchGrouped.output conv input filter output).tensor4.coeff
          ![n, oh, ow, i * (output.dim_size 3 / (input.dim_size 3 / filter.dim_size 2)) + o']
        = conv (input.tensor4.channelSlice i (filter.dim_size 2))
            (filter.tensor4.channelSlice i
              (output.dim_size 3 / (input.dim_size 3 / filter.dim_size 2)))
            ![output.dim_size 0, output.dim_size 1, output.dim_size 2,
              output.dim_size 3 / (input.dim_size 3 / filter.dim_size 2)]
            ![n, oh, ow, o']) ∧
    (∀ n oh ow o, n < output.dim_size 0 → oh < output.dim_size 1 → ow < output.dim_size 2 →
      o < output.dim_size 3 →
      (LaunchGrouped.output conv input filter output).tensor4.coeff ![n, oh, ow, o]
        = conv
            (input.tensor4.channelSlice
              (o / (output.dim_size 3 / (input.dim_size 3 / filter.dim_size 2)))
              (filter.dim_size 2))
            (filter.tensor4.channelSlice
              (o / (output.dim_size 3 / (input.dim_size 3 / filter.dim_size 2)))
              (output.dim_size 3 / (input.dim_size 3 / filter.dim_size 2)))
            ![output.dim_size 0, output.dim_size 1, output.dim_size 2,
              output.dim_size 3 / (input.dim_size 3 / filter.dim_size 2)]
            ![n, oh, ow,
              o % (output.dim_size 3 / (input.dim_size 3 / filter.dim_size 2))]) := by
  generalize hG : input.dim_size 3 / filter.dim_size 2 = G at *
  have hGpd : G * filter.dim_size 2 = input.dim_size 3 := by
    rw [← hG]
    exact Nat.div_mul_cancel (Nat.dvd_of_mod_eq_zero hdiv)
  have hCG : input.dim_size 3 / G = filter.dim_size 2 := by
    rw [← hGpd]
    exact Nat.mul_div_cancel_left _ (by omega)
  have hGI : G * (input.dim_size 3 / G) = input.dim_size 3 := by rw [hCG, hGpd]
  have hGO : G * (output.dim_size 3 / G) = output.dim_size 3 :=
    Nat.mul_div_cancel' (Nat.dvd_of_mod_eq_zero hog)
  have hGF : G * (filter.dim_size 3 / G) = filter.dim_size 3 := by rw [hfo]; exact hGO
  have first : ∀ i n oh ow o', i < G →
      n < output.dim_size 0 → oh < output.dim_size 1 → ow < output.dim_size 2 →
      o' < output.dim_size 3 / G →
      (LaunchGrouped.output conv input filter output).tensor4.coeff
          ![n, oh, ow, i * (output.dim_size 3 / G) + o']
        = conv (input.tensor4.channelSlice i (filter.dim_size 2))
            (filter.tensor4.channelSlice i (output.dim_size 3 / G))
            ![output.dim_size 0, output.dim_size 1, output.dim_size 2, output.dim_size 3 / G]
            ![n, oh, ow, o'] := by
    intro i n oh ow o' hi hn hoh how ho
    rw [LaunchGrouped_output_coeff conv input filter output G hG.symm hGO i n oh ow o' hi hn
      hoh how ho]
    have hod : (fun j : Fin 4 => dimsFn (n := 5) (output.post_shuffle G) j.succ)
        = ![output.dim_size 0, output.dim_size 1, output.dim_size 2, output.dim_size 3 / G] := by
      funext j
      fin_cases j <;> rfl
    rw [hod]
    apply hconv
    · funext j
      fin_cases j
      · rfl
      · rfl
      · rfl
      · exact hCG
    · funext j
      fin_cases j
      · rfl
      · rfl
      · rfl
      · show filter.dim_size 3 / G = output.dim_size 3 / G
        rw [hfo]
    · intro idx hr
      rw [chip0_shuffled input G hGI i idx (hr 0) (hr 1) (hr 2) (hr 3), hCG]
    · intro idx hr
      rw [chip0_shuffled filter G hGF i idx (hr 0) (hr 1) (hr 2) (hr 3), hfo]
  refine ⟨first, ?_⟩
  intro n oh ow o hn hoh how ho
  have hogpos : 0 < output.dim_size 3 / G := by
    rcases Nat.eq_zero_or_pos (output.dim_size 3 / G) with h0 | h0
    · rw [h0, Nat.mul_zero] at hGO
      omega
    · exact h0
  have hi : o / (output.dim_size 3 / G) < G := by
    rw [Nat.div_lt_iff_lt_mul hogpos, hGO]
    exact ho
  have hsplit : o / (output.dim_size 3 / G) * (output.dim_size 3 / G)
      + o % (output.dim_size 3 / G) = o := Nat.div_add_mod' o _
  have := first (o / (output.dim_size 3 / G)) n oh ow (o % (output.dim_size 3 / G)) hi hn hoh
    how (Nat.mod_lt _ hogpos)
  rw [hsplit] at this
  exact this

/-- An instance of C19: an input with 2 channels and a filter of depth 1 give 2
groups; the value written at output channel 1 is the convolution of channel 1
of the input with output channel 1 of the filter. -/
theorem LaunchGrouped_output_concatenates_witness :
    (referenceConv (α := Int) 1 1 1 1 0 0).Local ∧
    bufInput.dim_size 3 % bufFilter.dim_size 2 = 0 ∧
    1 ≤ bufInput.dim_size 3 / bufFilter.dim_size 2 ∧
    bufOutput.dim_size 3 % (bufInput.dim_size 3 / bufFilter.dim_size 2) = 0 ∧
    bufFilter.dim_size 3 = bufOutput.dim_size 3 ∧
    (LaunchGrouped.output (referenceConv 1 1 1 1 0 0) bufInput bufFilter
        bufOutput).tensor4.coeff ![0, 0, 0, 1] = 55 ∧
    (LaunchGrouped.output (referenceConv 1 1 1 1 0 0) bufInput bufFilter
        bufOutput).tensor4.coeff ![0, 0, 0, 1]
      = referenceConv 1 1 1 1 0 0
          (bufInput.tensor4.channelSlice
            (1 / (bufOutput.dim_size 3 / (bufInput.dim_size 3 / bufFilter.dim_size 2)))
            (bufFilter.dim_size 2))
          (bufFilter.tensor4.channelSlice
            (1 / (bufOutput.dim_size 3 / (bufInput.dim_size 3 / bufFilter.dim_size 2)))
            (bufOutput.dim_size 3 / (bufInput.dim_size 3 / bufFilter.dim_size 2)))
          ![bufOutput.dim_size 0, bufOutput.dim_size 1, bufOutput.dim_size 2,
            bufOutput.dim_size 3 / (bufInput.dim_size 3 / bufFilter.dim_size 2)]
          ![0, 0, 0, 1 % (bufOutput.dim_size 3 / (bufInput.dim_size 3 / bufFilter.dim_size 2))] :=
  ⟨referenceConv_local 1 1 1 1 0 0, by decide, by decide, by decide, by decide, by decide,
    (LaunchGrouped_output_concatenates (referenceConv 1 1 1 1 0 0)
      (referenceConv_local 1 1 1 1 0 0) bufInput bufFilter bufOutput (by decide) (by decide)
      (by decide) (by decide)).2 0 0 0 1 (by decide) (by decide) (by decide) (by decide)⟩

/-! ## Properties of the matrix-multiply shortcut for 1x1 filters -/

theorem ceilDiv_one (a : Int) : ceilDiv a 1 = a := by
  unfold ceilDiv
  simp

/-- For a 1x1 filter with unit strides and SAME or VALID padding the resolved
output extent is the input extent, nothing is padded, and the number of matrix
rows `batch*out_rows*out_cols` is `batch*in_rows*in_cols`. -/
theorem ComputeConv2DDimension_pointwise_extent {ext : Externals}
    {params : Conv2DParameters} {input filter : Tensor} {d : Conv2DDimensions}
    (h : ComputeConv2DDimension ext params input filter = .ok d)
    (hfr : d.filter_rows = 1) (hfc : d.filter_cols = 1)
    (hsr : d.stride_rows = 1) (hsc : d.stride_cols = 1)
    (hpad : params.padding = Padding.SAME ∨ params.padding = Padding.VALID) :
    d.out_rows = d.input_rows ∧ d.out_cols = d.input_cols ∧
    d.pad_rows_before = 0 ∧ d.pad_rows_after = 0 ∧
    d.pad_cols_before = 0 ∧ d.pad_cols_after = 0 ∧
    d.batch * d.out_rows * d.out_cols = d.batch * d.input_rows * d.input_cols := by
  obtain ⟨⟨pbr, par, hrows⟩, ⟨pbc, pac, hcols⟩⟩ := ComputeConv2DDimension_ok_windows h
  rw [hfr, hsr] at hrows
  rw [hfc, hsc] at hcols
  have key : d.out_rows = d.input_rows ∧ d.out_cols = d.input_cols ∧
      d.pad_rows_before = 0 ∧ d.pad_rows_after = 0 ∧
      d.pad_cols_before = 0 ∧ d.pad_cols_after = 0 := by
    rcases hpad with hp | hp
    · rw [hp] at hrows hcols
      unfold GetWindowedOutputSizeVerboseV2 at hrows hcols
      obtain ⟨-, hdr⟩ := GetWindowedOutputSizeVerboseV2_ok_pos
        (ComputeConv2DDimension_ok_windows h).1.choose_spec.choose_spec
      obtain ⟨-, hdc⟩ := GetWindowedOutputSizeVerboseV2_ok_pos
        (ComputeConv2DDimension_ok_windows h).2.choose_spec.choose_spec
      rw [if_neg (by omega), if_neg (by omega)] at hrows
      rw [if_neg (by omega), if_neg (by omega)] at hcols
      simp only [ceilDiv_one, sub_self, zero_mul, Except.ok.injEq, Prod.mk.injEq] at hrows hcols
      obtain ⟨r1, r2, r3⟩ := hrows
      obtain ⟨c1, c2, c3⟩ := hcols
      have e1 : max 0 ((d.input_rows - 1) * 1 + 0 + 1 - d.input_rows) = 0 := by
        rw [show (d.input_rows - 1) * 1 + 0 + 1 - d.input_rows = 0 by ring]
        simp
      have e2 : max 0 ((d.input_cols - 1) * 1 + 0 + 1 - d.input_cols) = 0 := by
        rw [show (d.input_cols - 1) * 1 + 0 + 1 - d.input_cols = 0 by ring]
        simp
      rw [e1] at r2 r3
      rw [e2] at c2 c3
      simp at r2 r3 c2 c3
      exact ⟨r1.symm, c1.symm, r2.symm, r3.symm, c2.symm, c3.symm⟩
    · rw [hp] at hrows hcols
      have hr := GetWindowedOutputSizeVerboseV2_valid hrows
      have hc := GetWindowedOutputSizeVerboseV2_valid hcols
      simp only [ceilDiv_one, sub_self, zero_mul, Prod.mk.injEq] at hr hc
      obtain ⟨r1, r2, r3⟩ := hr
      obtain ⟨c1, c2, c3⟩ := hc
      refine ⟨?_, ?_, r2, r3, c2, c3⟩
      · rw [r1]; ring
      · rw [c1]; ring
  obtain ⟨k1, k2, k3, k4, k5, k6⟩ := key
  exact ⟨k1, k2, k3, k4, k5, k6, by rw [k1, k2]⟩

theorem toInt32_mul_left (x y : Int) : toInt32 (toInt32 x * y) = toInt32 (x * y) := by
  unfold toInt32
  have h1 : (x + 2147483648) % 4294967296
      = x + 2147483648 - 4294967296 * ((x + 2147483648) / 4294967296) := by
    have := Int.emod_add_ediv (x + 2147483648) 4294967296
    omega
  rw [h1]
  have h2 : (x + 2147483648 - 4294967296 * ((x + 2147483648) / 4294967296) - 2147483648) * y
      + 2147483648
      = (x * y + 2147483648) + 4294967296 * (-(((x + 2147483648) / 4294967296) * y)) := by
    ring
  rw [h2, Int.add_mul_emod_self_left]

theorem toInt32_of_fits {x : Int} (h0 : 0 ≤ x) (h1 : x < 2147483648) : toInt32 x = x := by
  unfold toInt32
  omega

theorem foldl_range_three {β : Type} (f : β → Nat → β) (a : β) :
    (List.range 3).foldl f a = f (f (f a 0) 1) 2 := rfl

/-- The `int` value `conv_width` is the number of rows when that number fits. -/
theorem convWidth_exact {α : Type} (output : TensorBuf α)
    (hfit : output.dim_size 0 * output.dim_size 1 * output.dim_size 2 < 2147483648) :
    convWidth output
      = ((output.dim_size 0 * output.dim_size 1 * output.dim_size 2 : Nat) : Int) := by
  unfold convWidth
  rw [foldl_range_three]
  rw [toInt32_mul_left, mul_assoc, toInt32_mul_left, one_mul, ← mul_assoc]
  have h0 : (0 : Int) ≤ (output.dim_size 0 : Int) * (output.dim_size 1 : Int)
      * (output.dim_size 2 : Int) := by positivity
  have h1 : (output.dim_size 0 : Int) * (output.dim_size 1 : Int) * (output.dim_size 2 : Int)
      < 2147483648 := by exact_mod_cast hfit
  rw [toInt32_of_fits h0 h1]
  push_cast
  rfl

theorem shaped2_some {α : Type} (t : TensorBuf α) (m n : Nat) (h : m * n = t.NumElements) :
    t.shaped2 [(m : Int), (n : Int)]
      = some
          { dims := fun j => (([(m : Int), (n : Int)] : List Int).getD j 0).toNat
            coeff := fun idx =>
              t.flat (index2 (fun j => (([(m : Int), (n : Int)] : List Int).getD j 0).toNat)
                idx) } := by
  unfold TensorBuf.shaped2
  rw [if_pos]
  constructor
  · intro s hs
    simp only [List.mem_cons, List.mem_singleton, List.not_mem_nil, or_false] at hs
    rcases hs with rfl | rfl <;> positivity
  · simp only [List.prod_cons, List.prod_nil, mul_one]
    rw [← h]
    push_cast
    ring

/-- C20 (pointwise shortcut, failing input): for the NHWC input and output
`[641, 6700417, 1, 1]` (`2^32 + 1` positions) and the 1x1 filter `[1, 1, 1, 1]`,
the `int` variable `conv_width` of lines 97-100 is 1 instead of `2^32 + 1`, the
matrix views of lines 106-107 do not describe the tensors, and the shortcut
writes no output. -/
theorem LaunchGeneric_pointwise_output_conv_width_wraps :
    bufHuge.dim_sizes = [641, 6700417, 1, 1] ∧ bufFilterOne.dim_sizes = [1, 1, 1, 1] ∧
    bufHuge.dim_size 0 * bufHuge.dim_size 1 * bufHuge.dim_size 2 = 4294967297 ∧
    convWidth bufHuge = 1 ∧
    (bufHuge.shaped2 [convWidth bufHuge, (bufFilterOne.dim_size 3 : Int)]).isNone = true ∧
    (LaunchGeneric.pointwise_output bufHuge bufFilterOne bufHuge).isNone = true := by
  decide

/-- C21 (full-extent shortcut, failing input): for the NHWC input
`[1, 65536, 65536, 1]` and the filter `[65536, 65536, 1, 1]` of the same height
and width, the `int` variable `k` of lines 115-116 is 0 instead of `2^32`, the
matrix views of lines 123-124 do not describe the tensors, and the shortcut
writes no output. -/
theorem LaunchGeneric_fullextent_output_k_wraps :
    bufFull.dim_sizes = [1, 65536, 65536, 1] ∧ bufFilterFull.dim_sizes = [65536, 65536, 1, 1] ∧
    bufFilterFull.dim_size 0 * bufFilterFull.dim_size 1 * bufFilterFull.dim_size 2
      = 4294967296 ∧
    toInt32 ((bufFilterFull.dim_size 0 : Int) * (bufFilterFull.dim_size 1 : Int)
      * (bufFilterFull.dim_size 2 : Int)) = 0 ∧
    (bufFull.shaped2 [(bufFull.dim_size 0 : Int), 0]).isNone = true ∧
    (LaunchGeneric.fullextent_output bufFull bufFilterFull bufOutputOne).isNone = true := by
  decide

/-- C22 (pure-padding case): when `ComputeConv2DDimension` succeeds, the output
tensor is allocated, the output shape has at least one element and the input has
no element, `Compute` allocates the output, runs `SetZeroFunctor` on it and does
nothing else: no launcher, no kernel, no status. -/
theorem Compute_pure_padding (ext : Externals) (env : KernelEnv) (dtype : DataType)
    (params : Conv2DParameters) (input filter : Tensor) (dimensions : Conv2DDimensions)
    (hres : ComputeConv2DDimension ext params input filter = .ok dimensions)
    (halloc : env.allocate_output (outShape env params dimensions) = .ok ())
    (hout : 0 < (outShape env params dimensions).prod)
    (hin : input.NumElements = 0) :
    Conv2DOp.Compute ext env dtype params input filter
      = [Event.allocate_output (outShape env params dimensions), Event.SetZeroFunctor] ∧
    ∀ status, Event.SetStatus status ∉ Conv2DOp.Compute ext env dtype params input filter := by
  have h : Conv2DOp.Compute ext env dtype params input filter
      = [Event.allocate_output (outShape env params dimensions), Event.SetZeroFunctor] := by
    unfold Conv2DOp.Compute
    rw [hres]
    simp only [halloc]
    rw [if_neg (by omega), if_pos hin]
  refine ⟨h, ?_⟩
  intro status hmem
  rw [h] at hmem
  simp at hmem

/-- An instance of C22: an input `[1, 0, 0, 1]` with explicit padding 1 on every
side gives an output `[1, 2, 2, 1]`, which is zero-filled. -/
theorem Compute_pure_padding_witness :
    ComputeConv2DDimension nhwcExternals paramsExplicit inputEmpty filter1111
      = .ok resolvedEmpty ∧
    outShape nhwcEnv paramsExplicit resolvedEmpty = [1, 2, 2, 1] ∧
    inputEmpty.NumElements = 0 ∧
    Conv2DOp.Compute nhwcExternals nhwcEnv DataType.DT_FLOAT paramsExplicit inputEmpty filter1111
      = [Event.allocate_output [1, 2, 2, 1], Event.SetZeroFunctor] :=
  ⟨by rfl, by decide, by decide,
    (Compute_pure_padding nhwcExternals nhwcEnv DataType.DT_FLOAT paramsExplicit inputEmpty
      filter1111 resolvedEmpty (by rfl) (by rfl) (by decide) (by decide)).1⟩

theorem Tensor_NumElements_four (t : Tensor) (h : t.dims = 4) :
    t.NumElements = t.dim_size 0 * t.dim_size 1 * t.dim_size 2 * t.dim_size 3 := by
  obtain ⟨l⟩ := t
  unfold Tensor.dims at h
  simp only at h
  match l, h with
  | [a, b, c, d], _ =>
    simp [Tensor.NumElements, Tensor.dim_size]
    ring

theorem cppDiv_mul_cancel (a b : Int) (h : cppMod a b = 0) : b * cppDiv a b = a := by
  unfold cppMod at h
  unfold cppDiv
  have := Int.tmod_add_tdiv a b
  omega

theorem pre_shuffle_prod (num_groups : Int) (t : Tensor) (h : t.dims = 4)
    (hdiv : cppMod (t.dim_size 3) num_groups = 0) :
    (pre_shuffle num_groups t).prod = t.NumElements := by
  rw [Tensor_NumElements_four t h]
  unfold pre_shuffle
  simp only [List.prod_cons, List.prod_nil, mul_one]
  have := cppDiv_mul_cancel _ _ hdiv
  rw [this]
  ring

/-- C28 (grouped reshapes are size-preserving): for 4-D tensors whose filter and
output have the same last dimension (the output depth), when the checks of the
CPU launcher pass, the product of the five `pre_shuffle` dimensions equals the
number of elements for each of input, filter and output, and the `post_shuffle`
dimensions of any tensor are its `pre_shuffle` dimensions permuted by
`{3, 0, 1, 2, 4}`. -/
theorem pre_shuffle_size_preserving (ext : Externals) (input filter output : Tensor)
    (explicit_paddings : List Int) (data_format : TensorFormat)
    (hin : input.dims = 4) (hf : filter.dims = 4) (hout : output.dims = 4)
    (hdepth : filter.dim_size 3 = output.dim_size 3)
    (hcheck : LaunchConv2DOpCPU.check ext input filter output explicit_paddings data_format
      = none) :
    (pre_shuffle (cppDiv (input.dim_size 3) (filter.dim_size 2)) input).prod
      = input.NumElements ∧
    (pre_shuffle (cppDiv (input.dim_size 3) (filter.dim_size 2)) filter).prod
      = filter.NumElements ∧
    (pre_shuffle (cppDiv (input.dim_size 3) (filter.dim_size 2)) output).prod
      = output.NumElements ∧
    ∀ (num_groups : Int) (tensor : Tensor),
      post_shuffle num_groups tensor
        = [3, 0, 1, 2, 4].map (fun i => (pre_shuffle num_groups tensor).getD i 0) := by
  obtain ⟨-, -, hpd, hmod, -, hG, hmodO, -⟩ := LaunchConv2DOpCPU_check_none hcheck
  refine ⟨pre_shuffle_prod _ _ hin ?_, pre_shuffle_prod _ _ hf ?_,
    pre_shuffle_prod _ _ hout hmodO, fun _ _ => rfl⟩
  · have h1 := cppDiv_mul_cancel _ _ hmod
    unfold cppMod
    exact Int.tmod_eq_zero_of_dvd ⟨filter.dim_size 2, by rw [mul_comm]; exact h1.symm⟩
  · rw [hdepth]
    exact hmodO

/-- An instance of C28: scenario 2 of the spec, with 2 groups. -/
theorem pre_shuffle_size_preserving_witness :
    LaunchConv2DOpCPU.check nhwcExternals input2888 filter3348 output2888 []
      TensorFormat.FORMAT_NHWC = none ∧
    pre_shuffle 2 input2888 = [2, 8, 8, 2, 4] ∧ input2888.NumElements = 1024 ∧
    pre_shuffle 2 filter3348 = [3, 3, 4, 2, 4] ∧ filter3348.NumElements = 288 ∧
    post_shuffle 2 filter3348 = [2, 3, 3, 4, 4] ∧
    ((pre_shuffle (cppDiv (input2888.dim_size 3) (filter3348.dim_size 2)) input2888).prod
      = input2888.NumElements ∧
    (pre_shuffle (cppDiv (input2888.dim_size 3) (filter3348.dim_size 2)) filter3348).prod
      = filter3348.NumElements ∧
    (pre_shuffle (cppDiv (input2888.dim_size 3) (filter3348.dim_size 2)) output2888).prod
      = output2888.NumElements ∧
    ∀ (num_groups : Int) (tensor : Tensor),
      post_shuffle num_groups tensor
        = [3, 0, 1, 2, 4].map (fun i => (pre_shuffle num_groups tensor).getD i 0)) :=
  ⟨by decide, by decide, by decide, by decide, by decide, by decide,
    pre_shuffle_size_preserving nhwcExternals input2888 filter3348 output2888 []
      TensorFormat.FORMAT_NHWC (by decide) (by decide) (by decide) (by decide) (by decide)⟩

theorem Expr_eq_of_dims_coeff {n : Nat} {α : Type} (a b : Expr n α) (hd : a.dims = b.dims)
    (hc : a.coeff = b.coeff) : a = b := by
  cases a
  cases b
  simp only at hd hc
  subst hd hc
  rfl

/-- C30 (shuffle round trip): the permutation `{1, 2, 3, 0, 4}` is the inverse
of `{3, 0, 1, 2, 4}`, and shuffling a 5-D expression by `{3, 0, 1, 2, 4}` and
then by `{1, 2, 3, 0, 4}` gives the original expression: the same dimension
sizes and the same coefficient at every index. -/
theorem shuffle_round_trip {α : Type} (e : Expr 5 α) :
    (∀ i, groupShuffle (groupRevShuffle i) = i) ∧
    (∀ i, groupRevShuffle (groupShuffle i) = i) ∧
    ((e.shuffle groupShuffle).shuffle groupRevShuffle).dims = e.dims ∧
    ((e.shuffle groupShuffle).shuffle groupRevShuffle).coeff = e.coeff ∧
    (e.shuffle groupShuffle).shuffle groupRevShuffle = e := by
  have h1 : ∀ i, groupShuffle (groupRevShuffle i) = i := by decide
  have h2 : ∀ i, groupRevShuffle (groupShuffle i) = i := by decide
  have hd : ((e.shuffle groupShuffle).shuffle groupRevShuffle).dims = e.dims := by
    funext i
    show e.dims (groupShuffle (groupRevShuffle i)) = e.dims i
    rw [h1]
  have hc : ((e.shuffle groupShuffle).shuffle groupRevShuffle).coeff = e.coeff := by
    funext idx
    show e.coeff (shuffleIndex groupShuffle (shuffleIndex groupRevShuffle idx)) = e.coeff idx
    rw [shuffleIndex_groupShuffle, shuffleIndex_groupRevShuffle]
    congr 1
    funext j
    fin_cases j <;> rfl
  exact ⟨h1, h2, hd, hc, Expr_eq_of_dims_coeff _ _ hd hc⟩

theorem toInt64_of_fits {x : Int} (h0 : -9223372036854775808 ≤ x)
    (h1 : x < 9223372036854775808) : toInt64 x = x := by
  unfold toInt64
  omega

/-- The cases of `GetDnnWorkspaceLimit` in which the result is the default or
the exact product: the variable is unset, empty or not parsed, or it is parsed to
a value whose product with `2^20` fits 64 bits. -/
theorem GetDnnWorkspaceLimit_cases (env : EnvExternals) (envvar_in_mb : String)
    (default_value_in_bytes : Int) :
    (env.getenv envvar_in_mb = none →
      GetDnnWorkspaceLimit env envvar_in_mb default_value_in_bytes = default_value_in_bytes) ∧
    (env.getenv envvar_in_mb = some "" →
      GetDnnWorkspaceLimit env envvar_in_mb default_value_in_bytes = default_value_in_bytes) ∧
    (∀ s, env.getenv envvar_in_mb = some s → env.safe_strto64 s = none →
      GetDnnWorkspaceLimit env envvar_in_mb default_value_in_bytes = default_value_in_bytes) ∧
    (∀ s v, env.getenv envvar_in_mb = some s → s ≠ "" → env.safe_strto64 s = some v →
      -8796093022208 ≤ v → v < 8796093022208 →
      GetDnnWorkspaceLimit env envvar_in_mb default_value_in_bytes = v * 2 ^ 20) := by
  refine ⟨?_, ?_, ?_, ?_⟩
  · intro h
    unfold GetDnnWorkspaceLimit
    rw [h]
  · intro h
    unfold GetDnnWorkspaceLimit
    rw [h]
    simp
  · intro s h hp
    unfold GetDnnWorkspaceLimit
    rw [h]
    simp only [hp]
    split <;> rfl
  · intro s v h hs hp hlo hhi
    unfold GetDnnWorkspaceLimit
    rw [h]
    simp only [hp, hs, ne_eq, not_false_eq_true, if_true]
    rw [toInt64_of_fits (by omega) (by omega)]
    norm_num

/-- C25 (scratch ceiling override, failing input): with the variable
`TF_CUDNN_WORKSPACE_LIMIT_IN_MB` set to `8796093022208` (`2^43`), which parses
as a 64-bit integer, the product of line 713 is `2^63` and does not fit 64 bits:
`GetDnnWorkspaceLimitOrDefault` returns `-2^63`, not `2^43 * 2^20`. With the
value `4096` it returns `4096 * 2^20`. -/
theorem GetDnnWorkspaceLimit_product_overflows :
    envHuge.getenv "TF_CUDNN_WORKSPACE_LIMIT_IN_MB" = some "8796093022208" ∧
    envHuge.safe_strto64 "8796093022208" = some 8796093022208 ∧
    (8796093022208 * 2 ^ 20 : Int) = 9223372036854775808 ∧
    GetDnnWorkspaceLimitOrDefault envHuge = -9223372036854775808 ∧
    GetDnnWorkspaceLimitOrDefault env4096 = 4096 * 2 ^ 20 := by
  decide

/-- C23 (counterexample): the resolved paddings `top = 2^31`, `bottom = 0`,
`left = right = 0` are non-negative and differ on the row axis, but the input is
not re-materialised: line 900 sets InvalidArgument and the launcher returns. -/
theorem padInput_rejects_large_difference :
    LaunchConv2DOpGPU.padInput nhwcExternals nhwcEnv TensorFormat.FORMAT_NHWC 1 1 1 1
        2147483648 0 0 0
      = .error paddingTooLarge ∧
    paddingTooLarge.code = stream_executor.error.Code.INVALID_ARGUMENT :=
  ⟨by rfl, by rfl⟩

/-- C23 (asymmetric padding correction, amended): for non-negative paddings and
input extents below `2^31`, with a sound `FastBoundsCheck` and a successful
allocation of the temporary. When the paddings differ on some axis and one of
the four extra paddings fails `FastBoundsCheck(extra, INT_MAX)`, the launcher
sets InvalidArgument and returns. Otherwise the block succeeds; `PadInput` is
called exactly when `top != bottom` or `left != right`; the paddings given to
the convolution descriptor are `min(top, bottom)` and `min(left, right)`, which
are not negative; the extra paddings passed to `PadInput` are each side's padding minus the common
value, so that extra plus common is the resolved padding on every side and one
of the two extras of each axis is 0; and the input extents after the block are
the old ones plus `|bottom - top|` and `|right - left|`. -/
theorem padInput_asymmetric_correction (ext : Externals) (env : KernelEnv)
    (data_format : TensorFormat) (in_batch in_rows in_cols in_depths : Int)
    (top bottom left right : Int)
    (hs : ext.FastBoundsCheckSound)
    (halloc : ∀ shape, env.allocate_temp shape = .ok ())
    (htop : 0 ≤ top) (hbottom : 0 ≤ bottom) (hleft : 0 ≤ left) (hright : 0 ≤ right)
    (hrows : 0 ≤ in_rows ∧ in_rows < 2147483648) (hcols : 0 ≤ in_cols ∧ in_cols < 2147483648) :
    ((top ≠ bottom ∨ left ≠ right) →
      (ext.FastBoundsCheck (top - min top bottom) intMax &&
        ext.FastBoundsCheck (bottom - min top bottom) intMax &&
        ext.FastBoundsCheck (left - min left right) intMax &&
        ext.FastBoundsCheck (right - min left right) intMax) = false →
      LaunchConv2DOpGPU.padInput ext env data_format in_batch in_rows in_cols in_depths
        top bottom left right = .error paddingTooLarge) ∧
    (((top = bottom ∧ left = right) ∨
      (ext.FastBoundsCheck (top - min top bottom) intMax &&
        ext.FastBoundsCheck (bottom - min top bottom) intMax &&
        ext.FastBoundsCheck (left - min left right) intMax &&
        ext.FastBoundsCheck (right - min left right) intMax) = true) →
      ∃ r, LaunchConv2DOpGPU.padInput ext env data_format in_batch in_rows in_cols in_depths
          top bottom left right = .ok r ∧
        (r.pad_input.isSome = true ↔ (top ≠ bottom ∨ left ≠ right)) ∧
        r.common_padding_rows = min top bottom ∧ r.common_padding_cols = min left right ∧
        0 ≤ r.common_padding_rows ∧ 0 ≤ r.common_padding_cols ∧
        r.in_rows = in_rows + |bottom - top| ∧ r.in_cols = in_cols + |right - left| ∧
        ∀ p, r.pad_input = some p →
          p.input_pad_top = top - min top bottom ∧
          p.input_pad_bottom = bottom - min top bottom ∧
          p.input_pad_left = left - min left right ∧
          p.input_pad_right = right - min left right ∧
          p.input_pad_top + r.common_padding_rows = top ∧
          p.input_pad_bottom + r.common_padding_rows = bottom ∧
          p.input_pad_left + r.common_padding_cols = left ∧
          p.input_pad_right + r.common_padding_cols = right ∧
          (p.input_pad_top = 0 ∨ p.input_pad_bottom = 0) ∧
          (p.input_pad_left = 0 ∨ p.input_pad_right = 0) ∧
          p.transformed_input
            = env.ShapeFromFormat data_format in_batch (in_rows + |bottom - top|)
                (in_cols + |right - left|) in_depths) := by
  constructor
  · intro hne hb
    unfold LaunchConv2DOpGPU.padInput
    simp only [if_pos hne, halloc, hb]
    rfl
  · intro hcase
    by_cases hne : top ≠ bottom ∨ left ≠ right
    · have hb : (ext.FastBoundsCheck (top - min top bottom) intMax &&
          ext.FastBoundsCheck (bottom - min top bottom) intMax &&
          ext.FastBoundsCheck (left - min left right) intMax &&
          ext.FastBoundsCheck (right - min left right) intMax) = true := by
        rcases hcase with ⟨h1, h2⟩ | h
        · rcases hne with h | h
          · exact absurd h1 h
          · exact absurd h2 h
        · exact h
      have hb4 := hb
      simp only [Bool.and_eq_true] at hb4
      obtain ⟨⟨⟨b1, b2⟩, b3⟩, b4⟩ := hb4
      have s1 := hs _ _ b1
      have s2 := hs _ _ b2
      have s3 := hs _ _ b3
      have s4 := hs _ _ b4
      unfold intMax at s1 s2 s3 s4
      have hr : toInt64 (in_rows + ((bottom - top).natAbs : Int)) = in_rows + |bottom - top| := by
        rw [Int.natCast_natAbs]
        apply toInt64_of_fits
        · have := abs_nonneg (bottom - top); omega
        · have h5 : |bottom - top| < 2147483647 := by
            rw [abs_lt]
            rcases le_total top bottom with h | h
            · rw [min_eq_left h] at s2; omega
            · rw [min_eq_right h] at s1; omega
          omega
      have hc : toInt64 (in_cols + ((right - left).natAbs : Int)) = in_cols + |right - left| := by
        rw [Int.natCast_natAbs]
        apply toInt64_of_fits
        · have := abs_nonneg (right - left); omega
        · have h5 : |right - left| < 2147483647 := by
            rw [abs_lt]
            rcases le_total left right with h | h
            · rw [min_eq_left h] at s4; omega
            · rw [min_eq_right h] at s3; omega
          omega
      have e : LaunchConv2DOpGPU.padInput ext env data_format in_batch in_rows in_cols in_depths
          top bottom left right
          = .ok
              { pad_input :=
                  some
                    { input_pad_top := toInt32 (top - min top bottom)
                      input_pad_left := toInt32 (left - min left right)
                      input_pad_bottom := toInt32 (bottom - min top bottom)
                      input_pad_right := toInt32 (right - min left right)
                      transformed_input :=
                        env.ShapeFromFormat data_format in_batch
                          (toInt64 (in_rows + ((bottom - top).natAbs : Int)))
                          (toInt64 (in_cols + ((right - left).natAbs : Int))) in_depths }
                in_rows := toInt64 (in_rows + ((bottom - top).natAbs : Int))
                in_cols := toInt64 (in_cols + ((right - left).natAbs : Int))
                common_padding_rows := min top bottom
                common_padding_cols := min left right } := by
        unfold LaunchConv2DOpGPU.padInput
        simp only [if_pos hne, halloc, hb, Bool.not_true, Bool.false_eq_true, if_false]
      refine ⟨_, e, ?_⟩
      · simp only [Option.isSome_some, true_iff]
        refine ⟨hne, trivial, trivial, le_min htop hbottom, le_min hleft hright, hr, hc, ?_⟩
        intro p hp
        simp only [Option.some.injEq] at hp
        subst hp
        simp only
        rw [toInt32_of_fits s1.1 (by omega), toInt32_of_fits s2.1 (by omega),
          toInt32_of_fits s3.1 (by omega), toInt32_of_fits s4.1 (by omega), hr, hc]
        refine ⟨rfl, rfl, rfl, rfl, by ring, by ring, by ring, by ring, ?_, ?_, rfl⟩
        · rcases le_total top bottom with h | h
          · left; rw [min_eq_left h]; ring
          · right; rw [min_eq_right h]; ring
        · rcases le_total left right with h | h
          · left; rw [min_eq_left h]; ring
          · right; rw [min_eq_right h]; ring
    · have heq : top = bottom ∧ left = right := by
        constructor
        · by_contra h; exact hne (Or.inl h)
        · by_contra h; exact hne (Or.inr h)
      have e : LaunchConv2DOpGPU.padInput ext env data_format in_batch in_rows in_cols in_depths
          top bottom left right
          = .ok
              { pad_input := none
                in_rows := in_rows
                in_cols := in_cols
                common_padding_rows := min top bottom
                common_padding_cols := min left right } := by
        unfold LaunchConv2DOpGPU.padInput
        simp only [if_neg hne]
      refine ⟨_, e, ?_⟩
      · simp only [Option.isSome_none, Bool.false_eq_true, false_iff]
        refine ⟨hne, trivial, trivial, le_min htop hbottom, le_min hleft hright, ?_, ?_, ?_⟩
        · rw [heq.1]; simp
        · rw [heq.2]; simp
        · intro p hp
          cases hp

/-- An instance of C23 (scenario 3 of the spec): the resolved paddings
`top = 1, bottom = 0, left = 1, right = 0` on a `4 x 4` input give a `5 x 5`
padded input, one extra row at the top and one extra column at the left, and the
common padding `(0, 0)`. -/
theorem padInput_asymmetric_correction_witness :
    LaunchConv2DOpGPU.padInput nhwcExternals nhwcEnv TensorFormat.FORMAT_NHWC 1 4 4 3 1 0 1 0
      = .ok
          { pad_input :=
              some
                { input_pad_top := 1, input_pad_left := 1, input_pad_bottom := 0
                  input_pad_right := 0, transformed_input := [1, 5, 5, 3] }
            in_rows := 5, in_cols := 5, common_padding_rows := 0, common_padding_cols := 0 } ∧
    ∃ r, LaunchConv2DOpGPU.padInput nhwcExternals nhwcEnv TensorFormat.FORMAT_NHWC 1 4 4 3
          1 0 1 0 = .ok r ∧
        (r.pad_input.isSome = true ↔ ((1 : Int) ≠ 0 ∨ (1 : Int) ≠ 0)) ∧
        r.common_padding_rows = min 1 0 ∧ r.common_padding_cols = min 1 0 ∧
        0 ≤ r.common_padding_rows ∧ 0 ≤ r.common_padding_cols ∧
        r.in_rows = 4 + |(0 : Int) - 1| ∧ r.in_cols = 4 + |(0 : Int) - 1| ∧
        ∀ p, r.pad_input = some p →
          p.input_pad_top = 1 - min 1 0 ∧
          p.input_pad_bottom = 0 - min 1 0 ∧
          p.input_pad_left = 1 - min 1 0 ∧
          p.input_pad_right = 0 - min 1 0 ∧
          p.input_pad_top + r.common_padding_rows = 1 ∧
          p.input_pad_bottom + r.common_padding_rows = 0 ∧
          p.input_pad_left + r.common_padding_cols = 1 ∧
          p.input_pad_right + r.common_padding_cols = 0 ∧
          (p.input_pad_top = 0 ∨ p.input_pad_bottom = 0) ∧
          (p.input_pad_left = 0 ∨ p.input_pad_right = 0) ∧
          p.transformed_input
            = nhwcEnv.ShapeFromFormat TensorFormat.FORMAT_NHWC 1 (4 + |(0 : Int) - 1|)
                (4 + |(0 : Int) - 1|) 3 :=
  ⟨by rfl,
    (padInput_asymmetric_correction nhwcExternals nhwcEnv TensorFormat.FORMAT_NHWC 1 4 4 3
      1 0 1 0 nhwcExternals_sound (fun _ => rfl) (by decide) (by decide) (by decide) (by decide)
      (by decide) (by decide)).2 (Or.inr (by decide))⟩

/-- The matrix view of a tensor whose number of elements is `m * n`: it exists,
has the sizes `m` and `n`, and reads the buffer in row-major order. -/
theorem shaped2_spec {α : Type} (t : TensorBuf α) (m n : Nat) (h : m * n = t.NumElements) :
    ∃ e, t.shaped2 [(m : Int), (n : Int)] = some e ∧ e.dims 0 = m ∧ e.dims 1 = n ∧
      ∀ i j, e.coeff ![i, j] = t.flat (i * n + j) := by
  refine ⟨_, shaped2_some t m n h, ?_, ?_, ?_⟩
  · simp
  · simp
  · intro i j
    simp [index2]

theorem tensor4_coeff {α : Type} (t : TensorBuf α) (a b c d : Nat)
    (h : t.dim_sizes = [a, b, c, d]) (i j k l : Nat) :
    t.tensor4.coeff ![i, j, k, l] = t.flat (((i * b + j) * c + k) * d + l) := by
  unfold TensorBuf.tensor4
  rw [h]
  rfl

theorem tensor4_dims {α : Type} (t : TensorBuf α) (a b c d : Nat)
    (h : t.dim_sizes = [a, b, c, d]) :
    t.tensor4.dims 0 = a ∧ t.tensor4.dims 1 = b ∧ t.tensor4.dims 2 = c ∧ t.tensor4.dims 3 = d := by
  unfold TensorBuf.tensor4
  rw [h]
  exact ⟨rfl, rfl, rfl, rfl⟩

/-- The values written by the matrix-multiply shortcut for 1x1 filters when the
number of rows `B*H*W` fits the `int` variable `conv_width`: for an NHWC input
`[B,H,W,I]`, a filter `[1,1,I,O]` and an output `[B,H,W,O]`, the output exists
and every value of it is the sum over the input channels of
`in[b,r,c,i] * filter[0,0,i,o]`, which is the reference spatial convolution with
unit strides and no padding. -/
theorem LaunchGeneric_pointwise_output_eq {α : Type} [Semiring α]
    (input filter output : TensorBuf α) (B H W I O : Nat)
    (hin : input.dim_sizes = [B, H, W, I]) (hf : filter.dim_sizes = [1, 1, I, O])
    (hout : output.dim_sizes = [B, H, W, O]) (hfit : B * H * W < 2147483648)
    (dilation_rows dilation_cols : Nat) :
    ∃ out, LaunchGeneric.pointwise_output input filter output = some out ∧
      out.dim_sizes = [B, H, W, O] ∧
      ∀ b r c o, b < B → r < H → c < W → o < O →
        out.tensor4.coeff ![b, r, c, o]
          = ∑ i ∈ Finset.range I,
              input.tensor4.coeff ![b, r, c, i] * filter.tensor4.coeff ![0, 0, i, o] ∧
        out.tensor4.coeff ![b, r, c, o]
          = referenceConv 1 1 dilation_rows dilation_cols 0 0 input.tensor4 filter.tensor4
              ![B, H, W, O] ![b, r, c, o] := by
  have o0 : output.dim_size 0 = B := by simp [TensorBuf.dim_size, hout]
  have o1 : output.dim_size 1 = H := by simp [TensorBuf.dim_size, hout]
  have o2 : output.dim_size 2 = W := by simp [TensorBuf.dim_size, hout]
  have f2 : filter.dim_size 2 = I := by simp [TensorBuf.dim_size, hf]
  have f3 : filter.dim_size 3 = O := by simp [TensorBuf.dim_size, hf]
  have hcw : convWidth output = ((B * H * W : Nat) : Int) := by
    rw [convWidth_exact output (by rw [o0, o1, o2]; exact hfit), o0, o1, o2]
  have hno : B * H * W * O = output.NumElements := by
    simp [TensorBuf.NumElements, hout]; ring
  have hni : B * H * W * I = input.NumElements := by
    simp [TensorBuf.NumElements, hin]; ring
  have hnf : I * O = filter.NumElements := by
    simp [TensorBuf.NumElements, hf]
  obtain ⟨eo, heo, -, heo1, -⟩ := shaped2_spec output (B * H * W) O hno
  obtain ⟨ei, hei, -, hei1, hei2⟩ := shaped2_spec input (B * H * W) I hni
  obtain ⟨ef, hef, -, -, hef2⟩ := shaped2_spec filter I O hnf
  have hres : LaunchGeneric.pointwise_output input filter output
      = some
          { dim_sizes := output.dim_sizes
            flat := fun k => (MatMulConvFunctor ei ef).coeff ![k / eo.dims 1, k % eo.dims 1] } := by
    unfold LaunchGeneric.pointwise_output
    simp only [hcw, f2, f3, heo, hei, hef]
    rfl
  refine ⟨_, hres, hout, ?_⟩
  intro b r c o hb hr hc ho
  have hsum : (TensorBuf.tensor4
        { dim_sizes := output.dim_sizes
          flat := fun k =>
            (MatMulConvFunctor ei ef).coeff ![k / eo.dims 1, k % eo.dims 1] }).coeff ![b, r, c, o]
      = ∑ i ∈ Finset.range I,
          input.tensor4.coeff ![b, r, c, i] * filter.tensor4.coeff ![0, 0, i, o] := by
    rw [tensor4_coeff
      ({ dim_sizes := output.dim_sizes
         flat := fun k =>
           (MatMulConvFunctor ei ef).coeff ![k / eo.dims 1, k % eo.dims 1] } : TensorBuf α)
      B H W O hout]
    simp only [heo1]
    rw [mul_add_div_of_lt _ _ _ ho, mul_add_mod_of_lt _ _ _ ho]
    unfold MatMulConvFunctor
    simp only [hei1]
    refine Finset.sum_congr rfl (fun i _ => ?_)
    rw [hei2, hef2, tensor4_coeff _ B H W I hin, tensor4_coeff _ 1 1 I O hf]
    simp
  refine ⟨hsum, ?_⟩
  rw [hsum]
  unfold referenceConv
  obtain ⟨fd0, fd1, fd2, fd3⟩ := tensor4_dims filter 1 1 I O hf
  obtain ⟨id0, id1, id2, id3⟩ := tensor4_dims input B H W I hin
  rw [fd0, fd1, fd2, fd3]
  simp only [Finset.range_one, Finset.sum_singleton]
  refine Finset.sum_congr rfl (fun i hi => ?_)
  have hi' := Finset.mem_range.1 hi
  unfold Expr.paddedAt
  rw [id0, id1, id2, id3]
  simp [hb, hr, hc, ho, hi']

theorem sum_range_mul_eq {β : Type} [AddCommMonoid β] (m n : Nat) (f : Nat → β) :
    ∑ k ∈ Finset.range (m * n), f k
      = ∑ i ∈ Finset.range m, ∑ j ∈ Finset.range n, f (i * n + j) := by
  induction m with
  | zero => simp
  | succ m ih =>
    rw [Nat.succ_mul, Finset.sum_range_add, ih, Finset.sum_range_succ]

theorem ceilDiv_one_left (s : Int) (hs : 0 < s) : ceilDiv 1 s = 1 := by
  unfold ceilDiv
  have h1 : (-1 : Int) / s = -1 := by
    have e1 := Int.emod_add_ediv (-1) s
    have e2 := Int.emod_nonneg (-1) (ne_of_gt hs)
    have e3 := Int.emod_lt_of_pos (-1) hs
    have e4 : (-1 : Int) / s < 0 := by
      by_contra hc
      have : 0 ≤ s * ((-1 : Int) / s) := mul_nonneg (le_of_lt hs) (not_lt.1 hc)
      omega
    have e5 : -1 ≤ (-1 : Int) / s := by
      by_contra hc
      have h2 : (-1 : Int) / s ≤ -2 := by omega
      have : s * ((-1 : Int) / s) ≤ s * (-2) := mul_le_mul_of_nonneg_left h2 (le_of_lt hs)
      omega
    omega
  rw [h1]
  rfl

/-- For a filter as high and wide as the input, with unit dilations and VALID
padding, the resolved output is 1x1 spatially and nothing is padded, whatever
the (positive) strides are. -/
theorem ComputeConv2DDimension_fullextent_extent {ext : Externals}
    {params : Conv2DParameters} {input filter : Tensor} {d : Conv2DDimensions}
    (h : ComputeConv2DDimension ext params input filter = .ok d)
    (hfr : d.filter_rows = d.input_rows) (hfc : d.filter_cols = d.input_cols)
    (hdr : d.dilation_rows = 1) (hdc : d.dilation_cols = 1)
    (hpad : params.padding = Padding.VALID) :
    0 < d.stride_rows ∧ 0 < d.stride_cols ∧ d.out_rows = 1 ∧ d.out_cols = 1 ∧
    d.pad_rows_before = 0 ∧ d.pad_rows_after = 0 ∧
    d.pad_cols_before = 0 ∧ d.pad_cols_after = 0 := by
  obtain ⟨⟨pbr, par, hrows⟩, ⟨pbc, pac, hcols⟩⟩ := ComputeConv2DDimension_ok_windows h
  obtain ⟨hsr, -⟩ := GetWindowedOutputSizeVerboseV2_ok_pos hrows
  obtain ⟨hsc, -⟩ := GetWindowedOutputSizeVerboseV2_ok_pos hcols
  rw [hpad, hfr, hdr] at hrows
  rw [hpad, hfc, hdc] at hcols
  have hr := GetWindowedOutputSizeVerboseV2_valid hrows
  have hc := GetWindowedOutputSizeVerboseV2_valid hcols
  have e1 : d.input_rows - (d.input_rows - 1) * 1 - 1 + 1 = 1 := by ring
  have e2 : d.input_cols - (d.input_cols - 1) * 1 - 1 + 1 = 1 := by ring
  rw [e1, ceilDiv_one_left _ hsr] at hr
  rw [e2, ceilDiv_one_left _ hsc] at hc
  simp only [Prod.mk.injEq] at hr hc
  exact ⟨hsr, hsc, hr.1, hc.1, hr.2.1, hr.2.2, hc.2.1, hc.2.2⟩

/-- The values written by the full-extent shortcut when the reduction length
`R*C*I` fits the `int` variable `k`: for an NHWC input `[B,R,C,I]`, a filter
`[R,C,I,O]` and an output `[B,1,1,O]`, the output exists and every value of it is
the sum over the rows, columns and channels of `in[b,r,c,i] * filter[r,c,i,o]`,
which is the reference spatial convolution with unit dilations and no padding,
for any strides. -/
theorem LaunchGeneric_fullextent_output_eq {α : Type} [Semiring α]
    (input filter output : TensorBuf α) (B R C I O : Nat)
    (hin : input.dim_sizes = [B, R, C, I]) (hf : filter.dim_sizes = [R, C, I, O])
    (hout : output.dim_sizes = [B, 1, 1, O]) (hfit : R * C * I < 2147483648)
    (stride_rows stride_cols : Nat) :
    ∃ out, LaunchGeneric.fullextent_output input filter output = some out ∧
      out.dim_sizes = [B, 1, 1, O] ∧
      ∀ b o, b < B → o < O →
        out.tensor4.coeff ![b, 0, 0, o]
          = ∑ r ∈ Finset.range R, ∑ c ∈ Finset.range C, ∑ i ∈ Finset.range I,
              input.tensor4.coeff ![b, r, c, i] * filter.tensor4.coeff ![r, c, i, o] ∧
        out.tensor4.coeff ![b, 0, 0, o]
          = referenceConv stride_rows stride_cols 1 1 0 0 input.tensor4 filter.tensor4
              ![B, 1, 1, O] ![b, 0, 0, o] := by
  have i0 : input.dim_size 0 = B := by simp [TensorBuf.dim_size, hin]
  have f0 : filter.dim_size 0 = R := by simp [TensorBuf.dim_size, hf]
  have f1 : filter.dim_size 1 = C := by simp [TensorBuf.dim_size, hf]
  have f2 : filter.dim_size 2 = I := by simp [TensorBuf.dim_size, hf]
  have f3 : filter.dim_size 3 = O := by simp [TensorBuf.dim_size, hf]
  have hk : toInt32 ((R : Int) * (C : Int) * (I : Int)) = ((R * C * I : Nat) : Int) := by
    rw [toInt32_of_fits (by positivity) (by exact_mod_cast hfit)]
    push_cast
    rfl
  have hno : B * O = output.NumElements := by
    simp [TensorBuf.NumElements, hout]
  have hni : B * (R * C * I) = input.NumElements := by
    simp only [TensorBuf.NumElements, hin, List.prod_cons, List.prod_nil]; ring
  have hnf : R * C * I * O = filter.NumElements := by
    simp only [TensorBuf.NumElements, hf, List.prod_cons, List.prod_nil]; ring
  obtain ⟨eo, heo, -, heo1, -⟩ := shaped2_spec output B O hno
  obtain ⟨ei, hei, -, hei1, hei2⟩ := shaped2_spec input B (R * C * I) hni
  obtain ⟨ef, hef, -, -, hef2⟩ := shaped2_spec filter (R * C * I) O hnf
  have hres : LaunchGeneric.fullextent_output input filter output
      = some
          { dim_sizes := output.dim_sizes
            flat := fun k => (MatMulConvFunctor ei ef).coeff ![k / eo.dims 1, k % eo.dims 1] } := by
    unfold LaunchGeneric.fullextent_output
    simp only [i0, f0, f1, f2, f3, hk, heo, hei, hef]
    rfl
  refine ⟨_, hres, hout, ?_⟩
  intro b o hb ho
  have hsum : (TensorBuf.tensor4
        { dim_sizes := output.dim_sizes
          flat := fun k =>
            (MatMulConvFunctor ei ef).coeff ![k / eo.dims 1, k % eo.dims 1] }).coeff ![b, 0, 0, o]
      = ∑ r ∈ Finset.range R, ∑ c ∈ Finset.range C, ∑ i ∈ Finset.range I,
          input.tensor4.coeff ![b, r, c, i] * filter.tensor4.coeff ![r, c, i, o] := by
    rw [tensor4_coeff
      ({ dim_sizes := output.dim_sizes
         flat := fun k =>
           (MatMulConvFunctor ei ef).coeff ![k / eo.dims 1, k % eo.dims 1] } : TensorBuf α)
      B 1 1 O hout]
    simp only [heo1]
    rw [mul_add_div_of_lt _ _ _ ho, mul_add_mod_of_lt _ _ _ ho]
    unfold MatMulConvFunctor
    simp only [hei1]
    rw [sum_range_mul_eq (R * C) I, sum_range_mul_eq R C]
    refine Finset.sum_congr rfl (fun r _ => Finset.sum_congr rfl (fun c _ =>
      Finset.sum_congr rfl (fun i _ => ?_)))
    rw [hei2, hef2, tensor4_coeff _ B R C I hin, tensor4_coeff _ R C I O hf]
    have e1 : ((b * 1 + 0) * 1 + 0) * (R * C * I) + ((r * C + c) * I + i)
        = ((b * R + r) * C + c) * I + i := by ring
    simp only [Matrix.cons_val_zero, Matrix.cons_val_one, Matrix.head_cons]
    rw [e1]
  refine ⟨hsum, ?_⟩
  rw [hsum]
  unfold referenceConv
  obtain ⟨fd0, fd1, fd2, fd3⟩ := tensor4_dims filter R C I O hf
  obtain ⟨id0, id1, id2, id3⟩ := tensor4_dims input B R C I hin
  rw [fd0, fd1, fd2, fd3]
  refine Finset.sum_congr rfl (fun r hr => Finset.sum_congr rfl (fun c hc =>
    Finset.sum_congr rfl (fun i hi => ?_)))
  have hr' := Finset.mem_range.1 hr
  have hc' := Finset.mem_range.1 hc
  have hi' := Finset.mem_range.1 hi
  unfold Expr.paddedAt
  rw [id0, id1, id2, id3]
  simp [hb, hr', hc', ho, hi']

/-- The shortcut for 1x1 filters on a small input: two positions with the
channel values (1, 2) and (3, 4) and the weights 10 and 100 give 210 and 430. -/
theorem LaunchGeneric_pointwise_output_example :
    (LaunchGeneric.pointwise_output bufInput22 bufFilter21 bufOutput21).map
        (fun t => (t.dim_sizes, [t.flat 0, t.flat 1]))
      = some ([1, 1, 2, 1], [210, 430]) := by
  decide

/-! ## The dispatch of the CPU kernel between matrix multiplication and groups -/

theorem nhwcExternals_readsNHWC : nhwcExternals.ReadsNHWC :=
  ⟨fun _ _ => rfl, fun _ _ => rfl⟩

theorem LaunchGrouped_no_matmul (env : KernelEnv) (input filter output : Tensor)
    (padding : Padding) :
    (LaunchGrouped env input filter output padding).any Event.isMatMul = false := by
  unfold LaunchGrouped
  simp only
  split
  · rfl
  · split
    · rfl
    · split
      · rfl
      · simp [List.any_append, List.any_map, Event.isMatMul, Function.comp_def]

/-- The `int` row count `conv_width` of lines 97-100 for an output
`[a, b, c, o]` whose number of positions `a*b*c` fits 32 bits. -/
theorem conv_width_exact (a b c o : Int) (h0 : 0 ≤ a * b * c) (h1 : a * b * c < 2147483648) :
    (List.range 3).foldl
        (fun w i => toInt32 (w * Tensor.dim_size { dim_sizes := [a, b, c, o] } i)) 1
      = a * b * c := by
  rw [foldl_range_three]
  have e0 : Tensor.dim_size { dim_sizes := [a, b, c, o] } 0 = a := rfl
  have e1 : Tensor.dim_size { dim_sizes := [a, b, c, o] } 1 = b := rfl
  have e2 : Tensor.dim_size { dim_sizes := [a, b, c, o] } 2 = c := rfl
  rw [e0, e1, e2, toInt32_mul_left, mul_assoc, toInt32_mul_left, one_mul, ← mul_assoc,
    toInt32_of_fits h0 h1]

theorem shaped2_of_prod (t : Tensor) (m n : Int) (hm : 0 ≤ m) (hn : 0 ≤ n)
    (h : m * n = t.NumElements) : t.shaped2 [m, n] = true := by
  unfold Tensor.shaped2
  simp [hm, hn, h]

/-- The first branch of `LaunchGeneric` on NHWC tensors `[a, b, c, i]`,
`[1, 1, i, o]` and `[a, b, c, o]` whose number of positions `a*b*c` fits 32
bits: the three matrix views exist and the matrix multiplication runs. -/
theorem LaunchGeneric_pointwise_runs (input filter : Tensor) (a b c o : Int)
    (row_stride col_stride row_dilation col_dilation : Int) (padding : Padding)
    (hin : input.dims = 4) (hf : filter.dims = 4)
    (hf0 : filter.dim_size 0 = 1) (hf1 : filter.dim_size 1 = 1)
    (hrs : row_stride = 1) (hcs : col_stride = 1)
    (hpad : padding = Padding.SAME ∨ padding = Padding.VALID)
    (hi0 : input.dim_size 0 = a) (hi1 : input.dim_size 1 = b) (hi2 : input.dim_size 2 = c)
    (hi3 : input.dim_size 3 = filter.dim_size 2) (hf3 : filter.dim_size 3 = o)
    (ha : 0 ≤ a) (hb : 0 ≤ b) (hc : 0 ≤ c) (hi : 0 ≤ filter.dim_size 2) (ho : 0 ≤ o)
    (hfit : a * b * c < 2147483648) :
    LaunchGeneric input filter { dim_sizes := [a, b, c, o] } row_stride col_stride
        row_dilation col_dilation padding
      = [Event.MatMulConvFunctor [a * b * c, o] [a * b * c, filter.dim_size 2]
          [filter.dim_size 2, o]] := by
  have habc : 0 ≤ a * b * c := mul_nonneg (mul_nonneg ha hb) hc
  unfold LaunchGeneric
  rw [if_pos ⟨hf0, hf1, hrs, hcs, hpad⟩]
  simp only
  rw [conv_width_exact a b c o habc hfit, hf3]
  unfold LaunchGeneric.matmulStep
  rw [if_pos]
  refine ⟨shaped2_of_prod _ _ _ habc ho ?_, shaped2_of_prod _ _ _ habc hi ?_,
    shaped2_of_prod _ _ _ hi ho ?_⟩
  · simp only [Tensor.NumElements, List.prod_cons, List.prod_nil]
    ring
  · rw [Tensor_NumElements_four input hin, hi0, hi1, hi2, hi3]
  · rw [Tensor_NumElements_four filter hf, hf0, hf1, hf3]
    ring

/-- C17 as amended: for every CPU convolution on NHWC tensors whose dimensions
resolve, whose output is allocated, whose input and output are not empty, which
the transform-domain kernel does not take and which passes the checks of the
launcher. If the filter is 1x1 spatially, both strides are 1, padding is SAME or
VALID, the input depth equals the filter depth (group count 1), the number of
positions `batch*rows*cols` is below `2^31` and the filter's output depth is
within `[0, 2^31)`, the kernel runs exactly one functor after the output
allocation: the multiplication of the `(batch*rows*cols) x depth` input matrix
with the `depth x out_depth` filter matrix. If the group count
`in_depth / patch_depth` is greater than 1, the kernel runs `LaunchGrouped`
after the output allocation, and no step is a matrix multiplication. -/
theorem Compute_pointwise_matmul (ext : Externals) (env : KernelEnv) (dtype : DataType)
    (params : Conv2DParameters) (input filter : Tensor) (d : Conv2DDimensions)
    (hfb : ext.FastBoundsCheckSound) (hnhwc : ext.ReadsNHWC)
    (hshape : ∀ n h w c, env.ShapeFromFormat TensorFormat.FORMAT_NHWC n h w c = [n, h, w, c])
    (hd : ComputeConv2DDimension ext params input filter = .ok d)
    (halloc : env.allocate_output (outShape env params d) = .ok ())
    (hout : (outShape env params d).prod ≠ 0) (hin : input.NumElements ≠ 0)
    (hdeep : LaunchDeepConvOp.Run env dtype d params.data_format = false)
    (hcheck : LaunchConv2DOpCPU.check ext input filter { dim_sizes := outShape env params d }
      params.explicit_paddings params.data_format = none) :
    (filter.dim_size 0 = 1 → filter.dim_size 1 = 1 →
      d.stride_rows = 1 → d.stride_cols = 1 →
      (params.padding = Padding.SAME ∨ params.padding = Padding.VALID) →
      input.dim_size 3 = filter.dim_size 2 →
      input.dim_size 0 * input.dim_size 1 * input.dim_size 2 < 2147483648 →
      0 ≤ filter.dim_size 3 → filter.dim_size 3 < 2147483648 →
      Conv2DOp.Compute ext env dtype params input filter
        = [Event.allocate_output
            [input.dim_size 0, input.dim_size 1, input.dim_size 2, filter.dim_size 3],
           Event.MatMulConvFunctor
             [input.dim_size 0 * input.dim_size 1 * input.dim_size 2, filter.dim_size 3]
             [input.dim_size 0 * input.dim_size 1 * input.dim_size 2, filter.dim_size 2]
             [filter.dim_size 2, filter.dim_size 3]]) ∧
    (1 < cppDiv (input.dim_size 3) (filter.dim_size 2) →
      Conv2DOp.Compute ext env dtype params input filter
        = Event.allocate_output (outShape env params d) ::
            LaunchGrouped env input filter { dim_sizes := outShape env params d }
              params.padding ∧
      (Conv2DOp.Compute ext env dtype params input filter).any Event.isMatMul = false) := by
  have hnd : ¬ (params.padding ≠ Padding.EXPLICIT ∧
      LaunchDeepConvOp.Run env dtype d params.data_format = true) := by
    rw [hdeep]
    simp
  obtain ⟨hfmt, -, hpd, -, -, -, -, -⟩ := LaunchConv2DOpCPU_check_none hcheck
  constructor
  · intro hf0 hf1 hsr hsc hpad hdepth hfit ho0 ho1
    obtain ⟨hrank_in, hrank_f, hfdims, -, -, -, -, -, -, -, -, -, eO, -, eFR, -, eFC, -⟩ :=
      ComputeConv2DDimension_ok_checks hd
    obtain ⟨-, -, eH, eW, eN⟩ := ComputeConv2DDimension_checked_fields_exact hfb hd
    have hreq : requiredDims params = 4 := by
      unfold requiredDims
      rw [hfmt]
      rfl
    have hff : filterFormat params = FilterTensorFormat.FORMAT_HWIO := by
      unfold filterFormat
      rw [hfmt]
      rfl
    rw [hreq] at hrank_in hrank_f hfdims
    rw [hfmt, hnhwc.1] at eH eW eN
    rw [hff, hnhwc.2] at eO eFR eFC
    have eN' : d.batch = input.dim_size 0 := eN
    have eH' : d.input_rows = input.dim_size 1 := eH
    have eW' : d.input_cols = input.dim_size 2 := eW
    have eO' : d.out_depth = filter.dim_size 3 := by
      rw [eO]
      exact toInt32_of_fits ho0 ho1
    have eFR' : d.filter_rows = 1 := by
      rw [eFR]
      show toInt32 (filter.dim_size 0) = 1
      rw [hf0]
      rfl
    have eFC' : d.filter_cols = 1 := by
      rw [eFC]
      show toInt32 (filter.dim_size 1) = 1
      rw [hf1]
      rfl
    obtain ⟨eOR, eOC, -⟩ := ComputeConv2DDimension_pointwise_extent hd eFR' eFC' hsr hsc hpad
    have hos : outShape env params d
        = [input.dim_size 0, input.dim_size 1, input.dim_size 2, filter.dim_size 3] := by
      unfold outShape
      rw [hfmt, hshape, eN', eOR, eOC, eH', eW', eO']
    have hb0 := (hfb _ _ (hfdims 2 (by decide))).1
    have hn0 : 0 ≤ input.dim_size 0 := by
      have := ComputeConv2DDimension_ok_checks hd
      have h8 := this.2.2.2.2.2.2.2.1
      rw [hfmt, hnhwc.1] at h8
      exact (hfb _ _ h8).1
    have hh0 : 0 ≤ input.dim_size 1 := by
      have := ComputeConv2DDimension_ok_checks hd
      have h6 := this.2.2.2.2.2.1
      rw [hfmt, hnhwc.1] at h6
      exact (hfb _ _ h6).1
    have hw0 : 0 ≤ input.dim_size 2 := by
      have := ComputeConv2DDimension_ok_checks hd
      have h7 := this.2.2.2.2.2.2.1
      rw [hfmt, hnhwc.1] at h7
      exact (hfb _ _ h7).1
    rw [Compute_reaches_launcher hd halloc hout hin hnd, hos]
    unfold LaunchConv2DOpCPU
    rw [hos] at hcheck
    rw [hcheck]
    simp only [hdepth, ne_eq, not_true_eq_false, if_false]
    rw [LaunchGeneric_pointwise_runs input filter (input.dim_size 0) (input.dim_size 1)
      (input.dim_size 2) (filter.dim_size 3) _ _ _ _ _ hrank_in hrank_f hf0 hf1 hsr hsc hpad
      rfl rfl rfl hdepth rfl hn0 hh0 hw0 hb0 ho0 hfit]
  · intro hgroups
    have hne : input.dim_size 3 ≠ filter.dim_size 2 := by
      intro heq
      rw [heq] at hgroups
      unfold cppDiv at hgroups
      rw [Int.tdiv_self (by omega)] at hgroups
      omega
    have h := Compute_grouped_without_deep_conv ext env dtype params input filter d hd halloc
      hout hin hdeep hcheck hne
    refine ⟨h, ?_⟩
    rw [h, List.any_cons, LaunchGrouped_no_matmul]
    rfl

/-- An instance of the amended C17. Scenario 1 of the spec, input `[1,5,5,3]`,
filter `[1,1,3,4]`, stride 1, VALID, has group count 1 and runs the 25x3 by 3x4
matrix multiplication; the input `[1,5,5,4]` with the 1x1 filter `[1,1,2,4]` has
group count 2 and runs `LaunchGrouped`. -/
theorem Compute_pointwise_matmul_witness :
    ComputeConv2DDimension nhwcExternals paramsUnit input1553 filter1134
      = .ok resolved1134 ∧
    Conv2DOp.Compute nhwcExternals nhwcEnv DataType.DT_FLOAT paramsUnit input1553 filter1134
      = [Event.allocate_output [1, 5, 5, 4],
         Event.MatMulConvFunctor [25, 4] [25, 3] [3, 4]] ∧
    cppDiv (input1554.dim_size 3) (filter1124.dim_size 2) = 2 ∧
    Conv2DOp.Compute nhwcExternals nhwcEnv DataType.DT_FLOAT paramsUnit input1554 filter1124
      = Event.allocate_output [1, 5, 5, 4] ::
          LaunchGrouped nhwcEnv input1554 filter1124 { dim_sizes := [1, 5, 5, 4] }
            Padding.VALID ∧
    (Conv2DOp.Compute nhwcExternals nhwcEnv DataType.DT_FLOAT paramsUnit input1554
      filter1124).any Event.isMatMul = false :=
  ⟨by rfl,
    (Compute_pointwise_matmul nhwcExternals nhwcEnv DataType.DT_FLOAT paramsUnit input1553
      filter1134 resolved1134 nhwcExternals_sound nhwcExternals_readsNHWC (fun _ _ _ _ => rfl)
      (by rfl) (by rfl) (by decide) (by decide) (by rfl) (by rfl)).1
      (by rfl) (by rfl) (by rfl) (by rfl) (Or.inr (by rfl)) (by rfl) (by decide) (by decide)
      (by decide),
    by decide,
    (Compute_pointwise_matmul nhwcExternals nhwcEnv DataType.DT_FLOAT paramsUnit input1554
      filter1124
      { batch := 1, input_rows := 5, input_cols := 5, in_depth := 4
        filter_rows := 1, filter_cols := 1, patch_depth := 2, out_depth := 4
        stride_rows := 1, stride_cols := 1, dilation_rows := 1, dilation_cols := 1
        out_rows := 5, out_cols := 5
        pad_rows_before := 0, pad_rows_after := 0, pad_cols_before := 0, pad_cols_after := 0 }
      nhwcExternals_sound nhwcExternals_readsNHWC (fun _ _ _ _ => rfl)
      (by rfl) (by rfl) (by decide) (by decide) (by rfl) (by rfl)).2 (by decide)⟩

/-- C29 (matrix extents, failing inputs): both convolutions pass
`ComputeConv2DDimension` and the checks of the CPU launcher and reach a
matrix-multiply shortcut. For the input `[641, 6700417, 1, 1]` with a 1x1 filter
the row count `conv_width` of the requested matrix views is 1, while the product
of the three leading output dimensions is `2^32 + 1`; for the input
`[1, 65536, 65536, 1]` with a filter of the same height and width the reduction
length `k` of the requested views is 0, while the product of the three leading
filter dimensions is `2^32`. In both cases the views do not describe the
tensors. -/
theorem Compute_matmul_extents_wrap :
    Conv2DOp.Compute nhwcExternals nhwcEnv DataType.DT_DOUBLE paramsUnit inputHuge filter1111
      = [Event.allocate_output [641, 6700417, 1, 1],
         Event.CHECK_failure [1, 1] [1, 1] [1, 1]] ∧
    (List.range 3).foldl
        (fun w i => toInt32 (w * Tensor.dim_size { dim_sizes := [641, 6700417, 1, 1] } i)) 1
      = 1 ∧
    (641 * 6700417 * 1 : Int) = 4294967297 ∧
    Conv2DOp.Compute nhwcExternals nhwcEnv DataType.DT_DOUBLE paramsUnit inputFull filterFull
      = [Event.allocate_output [1, 1, 1, 1],
         Event.CHECK_failure [1, 1] [1, 0] [0, 1]] ∧
    toInt32 (filterFull.dim_size 0 * filterFull.dim_size 1 * filterFull.dim_size 2) = 0 ∧
    (65536 * 65536 * 1 : Int) = 4294967296 := by
  decide

/-- C24 (compute layout choice): the compute layout is NHWC exactly when the
numeric type is half precision, the build is a CUDA build whose device reports a
compute capability of at least Volta, and the data format is NHWC; in every
other case it is NCHW. When the compute layout is NHWC, a temporary of the
filter's shape in the order (out_depth, rows, cols, in_depth) is allocated and
the filter is transformed to OHWI into it; otherwise a temporary of the shape
(out_depth, in_depth, rows, cols) is allocated and the filter is transformed to
OIHW. The only failure is that of the allocation, whose status is returned. -/
theorem compute_data_format_choice (build : GpuBuild) (dtype : DataType)
    (data_format : TensorFormat) (env : KernelEnv) (filter : Tensor) :
    (compute_data_format build dtype data_format = TensorFormat.FORMAT_NHWC ↔
      (dtype = DataType.DT_HALF ∧ build = GpuBuild.GOOGLE_CUDA true ∧
        data_format = TensorFormat.FORMAT_NHWC)) ∧
    (compute_data_format build dtype data_format ≠ TensorFormat.FORMAT_NHWC ↔
      compute_data_format build dtype data_format = TensorFormat.FORMAT_NCHW) ∧
    LaunchConv2DOpGPU.transformFilter env filter (compute_data_format build dtype data_format)
      = (if compute_data_format build dtype data_format = TensorFormat.FORMAT_NHWC then
          match env.allocate_temp
            [filter.dim_size 3, filter.dim_size 0, filter.dim_size 1, filter.dim_size 2] with
          | .error status => .error status
          | .ok _ =>
            .ok (FilterTensorFormat.FORMAT_OHWI,
              [filter.dim_size 3, filter.dim_size 0, filter.dim_size 1, filter.dim_size 2])
         else
          match env.allocate_temp
            [filter.dim_size 3, filter.dim_size 2, filter.dim_size 0, filter.dim_size 1] with
          | .error status => .error status
          | .ok _ =>
            .ok (FilterTensorFormat.FORMAT_OIHW,
              [filter.dim_size 3, filter.dim_size 2, filter.dim_size 0, filter.dim_size 1])) := by
  have hiff : compute_data_format build dtype data_format = TensorFormat.FORMAT_NHWC ↔
      (dtype = DataType.DT_HALF ∧ build = GpuBuild.GOOGLE_CUDA true ∧
        data_format = TensorFormat.FORMAT_NHWC) := by
    unfold compute_data_format compute_in_nhwc
    cases build with
    | GOOGLE_CUDA v => cases v <;> simp
    | TENSORFLOW_USE_ROCM => simp
  have hcases : compute_data_format build dtype data_format = TensorFormat.FORMAT_NHWC ∨
      compute_data_format build dtype data_format = TensorFormat.FORMAT_NCHW := by
    unfold compute_data_format
    split
    · exact Or.inl rfl
    · exact Or.inr rfl
  refine ⟨hiff, ?_, ?_⟩
  · constructor
    · intro h
      rcases hcases with h1 | h1
      · exact absurd h1 h
      · exact h1
    · intro h h1
      rw [h] at h1
      cases h1
  · unfold LaunchConv2DOpGPU.transformFilter transform_filter
    rcases hcases with h1 | h1
    · rw [h1]
      simp only [reduceCtorEq, if_false, if_true]
      cases env.allocate_temp
        [filter.dim_size 3, filter.dim_size 0, filter.dim_size 1, filter.dim_size 2] <;> rfl
    · rw [h1]
      simp only [reduceCtorEq, if_false, if_true]
      cases env.allocate_temp
        [filter.dim_size 3, filter.dim_size 2, filter.dim_size 0, filter.dim_size 1] <;> rfl

/-- The filter transformation on the filter `[3, 3, 4, 8]` of scenario 2: for
half precision on a Volta device with NHWC data the destination is OHWI of shape
`[8, 3, 3, 4]`; for `float` it is OIHW of shape `[8, 4, 3, 3]`; a failed
allocation of the temporary is returned. -/
theorem transformFilter_example :
    LaunchConv2DOpGPU.transformFilter nhwcEnv filter3348
        (compute_data_format (GpuBuild.GOOGLE_CUDA true) DataType.DT_HALF
          TensorFormat.FORMAT_NHWC)
      = .ok (FilterTensorFormat.FORMAT_OHWI, [8, 3, 3, 4]) ∧
    LaunchConv2DOpGPU.transformFilter nhwcEnv filter3348
        (compute_data_format (GpuBuild.GOOGLE_CUDA true) DataType.DT_FLOAT
          TensorFormat.FORMAT_NHWC)
      = .ok (FilterTensorFormat.FORMAT_OIHW, [8, 4, 3, 3]) ∧
    LaunchConv2DOpGPU.transformFilter
        { nhwcEnv with allocate_temp := fun _ => .error paddingTooLarge } filter3348
        TensorFormat.FORMAT_NCHW
      = .error paddingTooLarge :=
  ⟨by rfl, by rfl, by rfl⟩

end tensorflow
